import Mathlib

/-!
# ESP32 Alpaca device library: session table, parameter codec and response envelope

A shallow embedding of the parts of `AlpacaServer.{h,cpp}` and `AlpacaDevice.{h,cpp}`
that manage the per-device client table, read the request parameters, render the
JSON response envelope, answer the discovery datagram, register the devices and save and
load the settings, of the switch handlers of `AlpacaSwitch.{h,cpp}`, and of the wire cipher
and the plug selection of `src/src/Switch.cpp`, followed by theorems about them.

Conventions of the embedding:

* `uint32_t` and `int32_t` values are `Nat` and `Int`; wrap-around is written out with
  `% 2 ^ 32` where the source can overflow.
* a C string (`char[]`, `const char *`, Arduino `String`) is a Lean `String`, one `Char`
  per byte and no terminator byte inside; `snprintf` into a buffer of `n` bytes keeps the
  first `n - 1` characters. A byte buffer with its old content is a `List Char`.
* `millis()` is an input of every handler (argument `millis`).
* a `double` is a value of a type parameter `D` with the operations of `DoubleOps`; a
  `std::string` of bytes is a list of numbers below 256; a JSON document is a `JsonVariant`.
* a handler that ends in `_alpaca_server->Respond(...)` is split in two: the part up to the
  label `mycatch:` (suffix `_core`, returning the device and the local `client_idx`) and the
  handler proper, which renders the envelope from `_clients[client_idx]`.
-/

namespace Alpaca

/-! ## AlpacaConfig.h -/

/-- The constant `ALPACA_MAX_CLIENTS` (`kAlpacaMaxClients`). -/
abbrev kAlpacaMaxClients : Nat := 8

/-- The constant `ALPACA_CONNECTION_LESS_CLIENT_ID`. -/
def ALPACA_CONNECTION_LESS_CLIENT_ID : Int := 42424242

/-! ## AlpacaServer.h: types -/

inductive HttpStatus_t where
  | kPassed
  | kInvalidRequest
  | kDeviceError
  deriving DecidableEq, Repr

/-- Numeric value of an `HttpStatus_t` enumerator. -/
def HttpStatus_t.toNat : HttpStatus_t → Nat
  | .kPassed => 200
  | .kInvalidRequest => 400
  | .kDeviceError => 500

inductive JsonValue_t where
  | kNoValue
  | kAsJsonStringValue
  | kAsPlainStringValue
  deriving DecidableEq, Repr

inductive Spelling_t where
  | kStrict
  | kIgnoreCase
  | kCheckBoth
  | kNoMatch
  deriving DecidableEq, Repr

structure AlpacaClient_t where
  client_id : Nat
  client_transaction_id : Nat
  time_ms : Nat
  max_service_time_ms : Nat
  deriving DecidableEq, Repr

inductive AlpacaErrorCode_t where
  | Ok
  | ActionNotImplementedException
  | DriverBase
  | DriverMax
  | InvalidOperationException
  | InvalidValue
  | InvalidWhileParked
  | InvalidWhileSlaved
  | NotConnected
  | NotImplemented
  | NotInCacheException
  | OperationCancelled
  | SettingsProviderError
  | UnspecifiedError
  | ValueNotSet
  deriving DecidableEq, Repr

/-- Numeric value of an `AlpacaErrorCode_t` enumerator (the `ErrorNumber`). -/
def AlpacaErrorCode_t.toInt : AlpacaErrorCode_t → Int
  | .Ok => 0
  | .ActionNotImplementedException => 0x40C
  | .DriverBase => 0x500
  | .DriverMax => 0xFFF
  | .InvalidOperationException => 0x40B
  | .InvalidValue => 0x401
  | .InvalidWhileParked => 0x408
  | .InvalidWhileSlaved => 0x409
  | .NotConnected => 0x407
  | .NotImplemented => 0x400
  | .NotInCacheException => 0x40D
  | .OperationCancelled => 0x40E
  | .SettingsProviderError => 0x40A
  | .UnspecifiedError => 0x4FF
  | .ValueNotSet => 0x402

structure AlpacaRspStatus_t where
  error_code : AlpacaErrorCode_t
  error_msg : String
  http_status : HttpStatus_t
  deriving DecidableEq, Repr

/-- The part of an `AsyncWebServerRequest` the library reads: the url and the list of
arguments, each a name and a value. -/
structure AsyncWebServerRequest where
  url : String
  args : List (String × String)
  deriving DecidableEq, Repr

/-- What `request->send(code, contentType, content)` hands to the transport. -/
structure HttpResponse where
  code : Nat
  contentType : String
  content : String
  deriving DecidableEq, Repr

/-! ## C library and Arduino `String` helpers -/

/-- Result of `snprintf(buf, size, ...)` in `buf` when the untruncated output is `text`:
at most `size - 1` characters are stored. -/
def snprintf (size : Nat) (text : String) : String :=
  String.mk (text.data.take (size - 1))

/-- Reading of a 32-bit pattern as `int`, as the conversion `%d` / `%i` does with a
`uint32_t` argument. -/
def asInt32 (v : Nat) : Int :=
  if v % 2 ^ 32 < 2 ^ 31 then ((v % 2 ^ 32 : Nat) : Int) else ((v % 2 ^ 32 : Nat) : Int) - 2 ^ 32

/-- Text produced by the conversion `%d` / `%i` for an `int`. -/
def fmt_d (v : Int) : String :=
  if v < 0 then "-" ++ Nat.repr v.natAbs else Nat.repr v.natAbs

/-- The C predicate `isspace` in the "C" locale. -/
def isspace (c : Char) : Bool :=
  c.toNat = 32 || (9 ≤ c.toNat && c.toNat ≤ 13)

/-- Value of a character as a digit in `base` (10, 8 or 16), if it is one. -/
def digitValue (base : Nat) (c : Char) : Option Nat :=
  let v : Option Nat :=
    if 48 ≤ c.toNat ∧ c.toNat ≤ 57 then some (c.toNat - 48)
    else if 97 ≤ c.toNat ∧ c.toNat ≤ 102 then some (c.toNat - 87)
    else if 65 ≤ c.toNat ∧ c.toNat ≤ 70 then some (c.toNat - 55)
    else none
  match v with
  | some d => if d < base then some d else none
  | none => none

/-- Longest prefix of digits in `base`: the number of digits read and their value. -/
def scanDigits (base : Nat) : List Char → Nat → Nat → Nat × Nat
  | [], n, acc => (n, acc)
  | c :: cs, n, acc =>
    match digitValue base c with
    | some d => scanDigits base cs (n + 1) (acc * base + d)
    | none => (n, acc)

/-- Clamping of `strtol` to the range of a 32-bit `long`. -/
def clampInt32 (v : Int) : Int :=
  if v < -(2 ^ 31) then -(2 ^ 31) else if 2 ^ 31 - 1 < v then 2 ^ 31 - 1 else v

/-- Splits an optional sign off the front of the text. -/
def scanSign : List Char → Bool × List Char
  | '-' :: cs => (true, cs)
  | '+' :: cs => (false, cs)
  | cs => (false, cs)

/-- The call `sscanf(s, "%d", &v) == 1` of the C library: leading white space is skipped, an
optional sign and at least one decimal digit are read; `some v` is the converted value
(clamped to the `int32_t` range as `strtol` does), `none` a failed conversion. -/
def sscanf_d (s : String) : Option Int :=
  let (neg, rest) := scanSign (s.data.dropWhile isspace)
  let (n, v) := scanDigits 10 rest 0 0
  if n = 0 then none
  else some (clampInt32 (if neg then -(v : Int) else (v : Int)))

/-- The call `sscanf(s, "%i", &v) == 1` of the C library: as `%d`, with the base taken from
the prefix (`0x` hexadecimal, `0` octal, decimal otherwise). -/
def sscanf_i (s : String) : Option Int :=
  let (neg, rest) := scanSign (s.data.dropWhile isspace)
  let sgn : Nat → Int := fun v => clampInt32 (if neg then -(v : Int) else (v : Int))
  match rest with
  | '0' :: 'x' :: cs => some (sgn (scanDigits 16 cs 0 0).2)
  | '0' :: 'X' :: cs => some (sgn (scanDigits 16 cs 0 0).2)
  | '0' :: cs => some (sgn (scanDigits 8 cs 0 0).2)
  | cs =>
    let (n, v) := scanDigits 10 cs 0 0
    if n = 0 then none else some (sgn v)

/-- ASCII `tolower`. -/
def tolower (c : Char) : Char :=
  if 65 ≤ c.toNat ∧ c.toNat ≤ 90 then Char.ofNat (c.toNat + 32) else c

/-- Arduino `String::equals`. -/
def equals (a b : String) : Bool :=
  a.data == b.data

/-- Arduino `String::equalsIgnoreCase`. -/
def equalsIgnoreCase (a b : String) : Bool :=
  a.data.map tolower == b.data.map tolower

/-! ## AlpacaServer.h: response status helpers -/

/-- The method `AlpacaServer::RspStatusClear`. -/
def RspStatusClear (_rsp_status : AlpacaRspStatus_t) : AlpacaRspStatus_t :=
  { error_code := .Ok, http_status := .kPassed, error_msg := "" }

/-- The status set by `MYTHROW_RspStatusClientIDNotFound`. -/
def RspStatusClientIDNotFound (req : AsyncWebServerRequest) : AlpacaRspStatus_t :=
  { error_code := .InvalidValue, http_status := .kPassed,
    error_msg := snprintf 128 (req.url ++ " - '" ++ "ClientID" ++ "' not found") }

/-- The status set by `MYTHROW_RspStatusClientIDInvalid`. -/
def RspStatusClientIDInvalid (req : AsyncWebServerRequest) (clientID : Int) :
    AlpacaRspStatus_t :=
  { error_code := .InvalidValue, http_status := .kPassed,
    error_msg := snprintf 128 (req.url ++ " - '" ++ "ClientID" ++ "=" ++ fmt_d clientID ++
      "' invalid") }

/-- The status set by `MYTHROW_RspStatusClientTransactionIDNotFound`. -/
def RspStatusClientTransactionIDNotFound (req : AsyncWebServerRequest) : AlpacaRspStatus_t :=
  { error_code := .InvalidValue, http_status := .kPassed,
    error_msg := snprintf 128 (req.url ++ " - '" ++ "ClientTransactionID" ++ "' not found") }

/-- The status set by `MYTHROW_RspStatusClientTransactionIDInvalid`. -/
def RspStatusClientTransactionIDInvalid (req : AsyncWebServerRequest)
    (clientTransactionID : Int) : AlpacaRspStatus_t :=
  { error_code := .InvalidValue, http_status := .kInvalidRequest,
    error_msg := snprintf 128 (req.url ++ " - '" ++ "ClientTransactionID" ++ "=" ++
      fmt_d clientTransactionID ++ "' invalid") }

/-- The status set by `MYTHROW_RspStatusParameterNotFound`. -/
def RspStatusParameterNotFound (req : AsyncWebServerRequest) (paraName : String) :
    AlpacaRspStatus_t :=
  { error_code := .InvalidValue, http_status := .kInvalidRequest,
    error_msg := snprintf 128 (req.url ++ " - Parameter '" ++ paraName ++ "' not found") }

/-- The status set by `MYTHROW_RspStatusClientAlreadyConnected`. -/
def RspStatusClientAlreadyConnected (req : AsyncWebServerRequest) (clientID : Int) :
    AlpacaRspStatus_t :=
  { error_code := .InvalidOperationException, http_status := .kPassed,
    error_msg := snprintf 128 (req.url ++ " - Client with 'ClientID=" ++ fmt_d clientID ++
      "' already connected") }

/-- The status set by `MYTHROW_RspStatusToMannyClients`. -/
def RspStatusToMannyClients (req : AsyncWebServerRequest) (maxNumOfClients : Int) :
    AlpacaRspStatus_t :=
  { error_code := .InvalidOperationException, http_status := .kPassed,
    error_msg := snprintf 128 (req.url ++ " - Too many (" ++ fmt_d maxNumOfClients ++
      ") clients connected") }

/-! ## AlpacaServer.cpp: parameter codec -/

/-- The loop of `AlpacaServer::_paramIndex` from argument number `i` on. The test
`arg_name != nullptr` of the source is Arduino's `!arg_name.equals(nullptr)`, which holds
exactly for a non-empty name. -/
def _paramIndexFrom (name : String) (spelling : Spelling_t) : List (String × String) → Nat → Int
  | [], _ => -1
  | (arg_name, _) :: rest, i =>
    if arg_name ≠ "" then
      if (if spelling = .kStrict then equals arg_name name else equalsIgnoreCase arg_name name)
      then (i : Int)
      else _paramIndexFrom name spelling rest (i + 1)
    else -1

/-- The method `AlpacaServer::_paramIndex`: index of parameter `name`, or -1. -/
def _paramIndex (request : AsyncWebServerRequest) (name : String) (spelling : Spelling_t) : Int :=
  _paramIndexFrom name spelling request.args 0

/-- The call `request->arg(index)`: the value of argument number `index`, empty when there is
none. -/
def AsyncWebServerRequest.arg (request : AsyncWebServerRequest) (index : Int) : String :=
  ((request.args.get? index.toNat).map Prod.snd).getD ""

/-- The overload `AlpacaServer::GetParam(..., bool &value, ...)`: the result and the final
content of `value`. -/
def GetParam_bool (request : AsyncWebServerRequest) (name : String) (value : Bool)
    (spelling : Spelling_t) : Bool × Bool :=
  let index := _paramIndex request name spelling
  if index ≥ 0 then
    if !((request.arg index).data.isEmpty) then
      if equalsIgnoreCase (request.arg index) "True" then (true, true)
      else if equalsIgnoreCase (request.arg index) "False" then (true, false)
      else (false, value)
    else (false, value)
  else (false, value)

/-- The overload `AlpacaServer::GetParam(..., int32_t &value, ...)`: the result and the final
content of `value`. -/
def GetParam_int32 (request : AsyncWebServerRequest) (name : String) (value : Int)
    (spelling : Spelling_t) : Bool × Int :=
  let index := _paramIndex request name spelling
  if index ≥ 0 then
    match sscanf_i (request.arg index) with
    | some v => (true, v)
    | none => (false, value)
  else (false, value)

/-- The overload `AlpacaServer::GetParam(..., uint32_t &value, ...)`: the result and the final
content of `value`. -/
def GetParam_uint32 (request : AsyncWebServerRequest) (name : String) (value : Nat)
    (spelling : Spelling_t) : Bool × Nat :=
  let index := _paramIndex request name spelling
  if index ≥ 0 then
    match sscanf_d (request.arg index) with
    | some int_value => if int_value ≥ 0 then (true, int_value.toNat) else (false, value)
    | none => (false, value)
  else (false, value)

/-! ## AlpacaServer.cpp: response envelope -/

/-- The state of an `AlpacaServer` that the envelope renderer uses. -/
structure AlpacaServer where
  _server_transaction_id : Nat
  deriving DecidableEq, Repr

/-- The content type `kAlpacaJsonType`. -/
def kAlpacaJsonType : String := "application/json"

/-- The three format strings of `_respond` with their conversions filled in: `value` stands
for the leading `%s`, `ctid`, `stid` and `err` for the three `%i` (`ClientTransactionID`,
`ServerTransactionID`, `ErrorNumber`) and `msg` for the final `%s` (`ErrorMessage`). -/
def envelopeText (jason_string_value : JsonValue_t) (value ctid stid err msg : String) :
    String :=
  if jason_string_value = .kNoValue then
    "\x7b \"ClientTransactionID\": " ++ ctid ++ ", \"ServerTransactionID\": " ++ stid ++
      ", \"ErrorNumber\": " ++ err ++ ", \"ErrorMessage\": \"" ++ msg ++ "\"\x7d"
  else if jason_string_value = .kAsJsonStringValue then
    "\x7b \"Value\": \"" ++ value ++ "\", \"ClientTransactionID\": " ++ ctid ++
      ", \"ServerTransactionID\": " ++ stid ++
      ", \"ErrorNumber\": " ++ err ++ ", \"ErrorMessage\": \"" ++ msg ++ "\"\x7d"
  else
    "\x7b \"Value\": " ++ value ++ ", \"ClientTransactionID\": " ++ ctid ++
      ", \"ServerTransactionID\": " ++ stid ++
      ", \"ErrorNumber\": " ++ err ++ ", \"ErrorMessage\": \"" ++ msg ++ "\"\x7d"

/-- The method `AlpacaServer::_respond`: the server after the call and the response handed to
`request->send`. The counter is incremented first; the three numbers are `uint32_t`,
`uint32_t` and `int32_t` arguments of a `%i` conversion. -/
def _respond (srv : AlpacaServer) (client : AlpacaClient_t) (rsp_status : AlpacaRspStatus_t)
    (value : String) (jason_string_value : JsonValue_t) : AlpacaServer × HttpResponse :=
  let _server_transaction_id := (srv._server_transaction_id + 1) % 2 ^ 32
  let response := snprintf (2058 + 256)
    (envelopeText jason_string_value value
      (fmt_d (asInt32 client.client_transaction_id))
      (fmt_d (asInt32 _server_transaction_id))
      (fmt_d rsp_status.error_code.toInt)
      rsp_status.error_msg)
  ({ srv with _server_transaction_id := _server_transaction_id },
   { code := rsp_status.http_status.toNat, contentType := kAlpacaJsonType, content := response })

/-- The overload `AlpacaServer::Respond` without a value. -/
def Respond (srv : AlpacaServer) (client : AlpacaClient_t) (rsp_status : AlpacaRspStatus_t) :
    AlpacaServer × HttpResponse :=
  _respond srv client rsp_status "" .kNoValue

/-! ## AlpacaDevice -/

/-- The table `_clients[kAlpacaMaxClients + 1]`: slot 0 is the unconnected client. -/
abbrev ClientTable := Fin (kAlpacaMaxClients + 1) → AlpacaClient_t

/-- The state of an `AlpacaDevice` that the session handlers use. -/
structure AlpacaDevice where
  _clients : ClientTable
  _rsp_status : AlpacaRspStatus_t
  _service_counter : Nat

/-- The index range `1 .. kAlpacaMaxClients` of the loops over the connected clients. -/
def slots : List (Fin (kAlpacaMaxClients + 1)) :=
  (List.finRange (kAlpacaMaxClients + 1)).tail

/-- The method `AlpacaDevice::Begin`. -/
def Begin (dev : AlpacaDevice) : AlpacaDevice :=
  { dev with
    _clients := fun i => { dev._clients i with client_id := 0, client_transaction_id := 0 }
    _rsp_status := RspStatusClear dev._rsp_status }

/-- The statements `_clients[0].client_id = 0; _clients[0].client_transaction_id = 0;` that
open the three connection handlers. -/
def resetSlot0 (clients : ClientTable) : ClientTable :=
  Function.update clients 0 { clients 0 with client_id := 0, client_transaction_id := 0 }

/-- The loop `for (i = 1; i <= kAlpacaMaxClients; i++) if (_clients[i].client_id == client_id)
{ ...; break; }`: the first slot that holds `client_id`. -/
def findClient (clients : ClientTable) (client_id : Nat) :
    Option (Fin (kAlpacaMaxClients + 1)) :=
  slots.find? (fun i => (clients i).client_id == client_id)

/-- The method `AlpacaDevice::getClientIdxByClientID`. -/
def getClientIdxByClientID (dev : AlpacaDevice) (clientID : Nat) :
    Fin (kAlpacaMaxClients + 1) :=
  (slots.find? (fun i => clientID == (dev._clients i).client_id)).getD 0

/-- The count computed by `AlpacaDevice::GetNumberOfConnectedClients` on a table. -/
def numberOfConnectedClients (clients : ClientTable) : Nat :=
  (slots.filter (fun i => (clients i).client_id != 0)).length

/-- The method `AlpacaDevice::GetNumberOfConnectedClients`. -/
def GetNumberOfConnectedClients (dev : AlpacaDevice) : Nat :=
  numberOfConnectedClients dev._clients

/-- The connect branch shared by `AlpacaPutConnect` and `AlpacaPutConnected`
(`Connected=true`), from the two slot loops to the two `MYTHROW`s: the device and
`client_idx`. `dev` is the device after the handler prologue. -/
def connectBranch (dev : AlpacaDevice) (request : AsyncWebServerRequest) (millis : Nat)
    (client_id client_transaction_id : Nat) : AlpacaDevice × Fin (kAlpacaMaxClients + 1) :=
  let already_connected := (findClient dev._clients client_id).isSome
  let free := findClient dev._clients 0
  let client_idx := free.getD 0
  let connect_ok := free.isSome
  let _service_counter :=
    if connect_ok && numberOfConnectedClients dev._clients == 0 then 0 else dev._service_counter
  let to_many_clients_connected := !connect_ok
  let _clients := Function.update dev._clients client_idx
    { dev._clients client_idx with
      client_id := client_id
      client_transaction_id := client_transaction_id
      time_ms := millis }
  let _rsp_status :=
    if already_connected then RspStatusClientAlreadyConnected request (asInt32 client_id)
    else if to_many_clients_connected then RspStatusToMannyClients request kAlpacaMaxClients
    else dev._rsp_status
  ({ _clients := _clients, _rsp_status := _rsp_status, _service_counter := _service_counter },
   client_idx)

/-- The disconnect loop shared by `AlpacaPutDisconnect` and `AlpacaPutConnected`
(`Connected=false`): the first slot that holds `client_id` is cleared. -/
def disconnectLoop (clients : ClientTable) (client_id : Nat) : ClientTable :=
  match findClient clients client_id with
  | some i =>
    Function.update clients i
      { client_id := 0, client_transaction_id := 0, time_ms := 0, max_service_time_ms := 0 }
  | none => clients

/-- The `else` branch shared by the three connection handlers (identification missing or not
positive): slot 0 is filled and the first failing check sets the status. -/
def identificationError (dev : AlpacaDevice) (request : AsyncWebServerRequest)
    (get_client_id : Bool) (client_id : Nat) (get_client_transaction_id : Bool)
    (client_transaction_id : Nat) : AlpacaDevice :=
  let _clients := Function.update dev._clients 0
    { dev._clients 0 with
      client_id := if get_client_id then 1 else 0
      client_transaction_id := if get_client_transaction_id then client_transaction_id else 0 }
  let _rsp_status :=
    if get_client_id = false then RspStatusClientIDNotFound request
    else if client_id ≤ 0 then RspStatusClientIDInvalid request (asInt32 client_id)
    else if get_client_transaction_id = false then RspStatusClientTransactionIDNotFound request
    else if client_transaction_id ≤ 0 then
      RspStatusClientTransactionIDInvalid request (asInt32 client_transaction_id)
    else dev._rsp_status
  { dev with _clients := _clients, _rsp_status := _rsp_status }

/-- The prologue of the three connection handlers: `_service_counter++`, slot 0 reset,
status cleared. -/
def handlerPrologue (dev : AlpacaDevice) : AlpacaDevice :=
  { _clients := resetSlot0 dev._clients
    _rsp_status := RspStatusClear dev._rsp_status
    _service_counter := (dev._service_counter + 1) % 2 ^ 32 }

/-- The method `AlpacaDevice::AlpacaPutConnect` up to `mycatch:`. -/
def AlpacaPutConnect_core (dev : AlpacaDevice) (request : AsyncWebServerRequest) (millis : Nat) :
    AlpacaDevice × Fin (kAlpacaMaxClients + 1) :=
  let dev := handlerPrologue dev
  let (get_client_id, client_id) := GetParam_uint32 request "ClientID" 0 .kStrict
  let (get_client_transaction_id, client_transaction_id) :=
    GetParam_uint32 request "ClientTransactionID" 0 .kStrict
  if get_client_id = true ∧ get_client_transaction_id = true ∧
      client_id > 0 ∧ client_transaction_id > 0 then
    connectBranch dev request millis client_id client_transaction_id
  else
    (identificationError dev request get_client_id client_id get_client_transaction_id
      client_transaction_id, 0)

/-- The method `AlpacaDevice::AlpacaPutDisconnect` up to `mycatch:`; the envelope is always
rendered from slot 0. -/
def AlpacaPutDisconnect_core (dev : AlpacaDevice) (request : AsyncWebServerRequest)
    (millis : Nat) : AlpacaDevice × Fin (kAlpacaMaxClients + 1) :=
  let dev := handlerPrologue dev
  let (get_client_id, client_id) := GetParam_uint32 request "ClientID" 0 .kStrict
  let (get_client_transaction_id, client_transaction_id) :=
    GetParam_uint32 request "ClientTransactionID" 0 .kStrict
  if get_client_id = true ∧ get_client_transaction_id = true ∧
      client_id > 0 ∧ client_transaction_id > 0 then
    let _clients := disconnectLoop dev._clients client_id
    let _clients := Function.update _clients 0
      { _clients 0 with
        client_id := client_id
        client_transaction_id := client_transaction_id
        time_ms := millis }
    ({ dev with _clients := _clients }, 0)
  else
    (identificationError dev request get_client_id client_id get_client_transaction_id
      client_transaction_id, 0)

/-- The method `AlpacaDevice::AlpacaPutConnected` up to `mycatch:`. -/
def AlpacaPutConnected_core (dev : AlpacaDevice) (request : AsyncWebServerRequest)
    (millis : Nat) : AlpacaDevice × Fin (kAlpacaMaxClients + 1) :=
  let dev := handlerPrologue dev
  let (get_client_id, client_id) := GetParam_uint32 request "ClientID" 0 .kStrict
  let (get_client_transaction_id, client_transaction_id) :=
    GetParam_uint32 request "ClientTransactionID" 0 .kStrict
  let (get_connected, connected) := GetParam_bool request "Connected" false .kStrict
  if get_client_id = true ∧ get_client_transaction_id = true ∧
      client_id > 0 ∧ client_transaction_id > 0 ∧ get_connected = true then
    if connected then
      connectBranch dev request millis client_id client_transaction_id
    else
      let _clients := disconnectLoop dev._clients client_id
      let _clients := Function.update _clients 0
        { _clients 0 with
          client_id := client_id
          client_transaction_id := client_transaction_id
          time_ms := millis }
      ({ dev with _clients := _clients }, 0)
  else
    let dev := identificationError dev request get_client_id client_id
      get_client_transaction_id client_transaction_id
    if dev._rsp_status.error_code = .Ok ∧ get_connected = false then
      ({ dev with _rsp_status := RspStatusParameterNotFound request "Connected" }, 0)
    else (dev, 0)

/-- The method `AlpacaDevice::checkClientDataAndConnection`: the device after the call and the
returned `client_idx`. -/
def checkClientDataAndConnection (dev : AlpacaDevice) (request : AsyncWebServerRequest)
    (spelling : Spelling_t) (millis : Nat) : AlpacaDevice × Fin (kAlpacaMaxClients + 1) :=
  let _rsp_status := RspStatusClear dev._rsp_status
  let (get_client_id, client_id) := GetParam_int32 request "ClientID" 0 spelling
  let (get_client_transaction_id, client_transaction_id) :=
    GetParam_int32 request "ClientTransactionID" 0 spelling
  let client_idx : Fin (kAlpacaMaxClients + 1) :=
    if get_client_id = true ∧ client_id > 0 ∧ client_id ≠ ALPACA_CONNECTION_LESS_CLIENT_ID then
      getClientIdxByClientID dev client_id.toNat
    else 0
  let _clients := Function.update dev._clients client_idx
    { dev._clients client_idx with
      client_id := if client_id ≥ 0 then client_id.toNat else 0
      client_transaction_id := if client_transaction_id ≥ 0 then client_transaction_id.toNat else 0
      time_ms := millis }
  let _rsp_status :=
    if get_client_id = false then RspStatusClientIDNotFound request
    else if client_id ≤ 0 then RspStatusClientIDInvalid request client_id
    else if get_client_transaction_id = false then RspStatusClientTransactionIDNotFound request
    else if client_transaction_id ≤ 0 then
      RspStatusClientTransactionIDInvalid request client_transaction_id
    else _rsp_status
  ({ dev with _clients := _clients, _rsp_status := _rsp_status }, client_idx)

/-- The method `AlpacaDevice::AlpacaPutConnect`. -/
def AlpacaPutConnect (srv : AlpacaServer) (dev : AlpacaDevice) (request : AsyncWebServerRequest)
    (millis : Nat) : AlpacaServer × AlpacaDevice × HttpResponse :=
  let (dev, client_idx) := AlpacaPutConnect_core dev request millis
  let (srv, sent) := Respond srv (dev._clients client_idx) dev._rsp_status
  (srv, dev, sent)

/-- The method `AlpacaDevice::AlpacaPutDisconnect`. -/
def AlpacaPutDisconnect (srv : AlpacaServer) (dev : AlpacaDevice)
    (request : AsyncWebServerRequest) (millis : Nat) : AlpacaServer × AlpacaDevice × HttpResponse :=
  let (dev, _) := AlpacaPutDisconnect_core dev request millis
  let (srv, sent) := Respond srv (dev._clients 0) dev._rsp_status
  (srv, dev, sent)

/-- The method `AlpacaDevice::AlpacaPutConnected`. -/
def AlpacaPutConnected (srv : AlpacaServer) (dev : AlpacaDevice)
    (request : AsyncWebServerRequest) (millis : Nat) : AlpacaServer × AlpacaDevice × HttpResponse :=
  let (dev, client_idx) := AlpacaPutConnected_core dev request millis
  let (srv, sent) := Respond srv (dev._clients client_idx) dev._rsp_status
  (srv, dev, sent)

/-! ## Request sequences -/

/-- The device after `Begin` and then `k` PUT connect requests `req 0, ..., req (k - 1)`, the
`j`-th handled at time `ms j`. -/
def connectSeq (dev : AlpacaDevice) (req : Nat → AsyncWebServerRequest) (ms : Nat → Nat) :
    Nat → AlpacaDevice
  | 0 => Begin dev
  | k + 1 => (AlpacaPutConnect_core (connectSeq dev req ms k) (req k) (ms k)).1

/-- The parameter `name` is present under the spelling policy and the `%i` conversion of its
value succeeds with a result greater than 0. -/
def presentAndPositive (request : AsyncWebServerRequest) (name : String)
    (spelling : Spelling_t) : Bool :=
  decide (0 ≤ _paramIndex request name spelling) &&
    match sscanf_i (request.arg (_paramIndex request name spelling)) with
    | some v => decide (0 < v)
    | none => false

/-! ## Sample inputs -/

/-- A device right after `Begin`, with an empty client table. -/
def emptyDevice : AlpacaDevice :=
  Begin
    { _clients := fun _ => { client_id := 0, client_transaction_id := 0, time_ms := 0,
                             max_service_time_ms := 0 }
      _rsp_status := { error_code := .Ok, error_msg := "", http_status := .kPassed }
      _service_counter := 0 }

/-- A request that carries `ClientID` and `ClientTransactionID` with the given texts. -/
def identifiedRequest (url client_id client_transaction_id : String) : AsyncWebServerRequest :=
  { url := url, args := [("ClientID", client_id), ("ClientTransactionID", client_transaction_id)] }

/-- A device with client 5 connected in slot 1 and no other client. -/
def oneClientDevice : AlpacaDevice :=
  (AlpacaPutConnect_core emptyDevice (identifiedRequest "/api/v1/switch/0/connect" "5" "1") 10).1

/-- The status after `RspStatusClear`. -/
def okStatus : AlpacaRspStatus_t :=
  { error_code := .Ok, error_msg := "", http_status := .kPassed }

/-- A value text of 2400 characters, longer than the response buffer of `_respond`. -/
def longValue : String :=
  String.mk (List.replicate 2400 'a')

/-! ## AlpacaServer.cpp: string parameters -/

/-- The terminator of a C string. -/
def NUL : Char := Char.ofNat 0

/-- Arduino `String::toCharArray(buf, bufsize)` (that is `getBytes` from index 0) on a buffer
with content `buf`: nothing for `bufsize = 0`; `buf[0] = 0` for an empty string; otherwise
`n = min (bufsize - 1) len` bytes are copied to the front and `buf[n] = 0`. -/
def toCharArray (s : String) (buf : List Char) (bufsize : Nat) : List Char :=
  if bufsize = 0 then buf
  else if s.data.length ≤ 0 then buf.set 0 NUL
  else
    let n := min (bufsize - 1) s.data.length
    (s.data.take n ++ buf.drop n).set n NUL

/-- The overload `AlpacaServer::GetParam(..., char *buffer, int buffer_size, ...)`: the result
and the final content of `buffer`. -/
def GetParam_string (request : AsyncWebServerRequest) (name : String) (buffer : List Char)
    (buffer_size : Nat) (spelling : Spelling_t) : Bool × List Char :=
  let index := _paramIndex request name spelling
  if index ≥ 0 then
    (true, (toCharArray (request.arg index) buffer buffer_size).set (buffer_size - 1) NUL)
  else (false, buffer)

/-! ## Parameter lookup as the specification words it -/

/-- Specification of the name lookup: the index, counted from `i`, of the first argument whose
name passes `test`, and -1 when no argument does. -/
def firstMatchIndexFrom (test : String → Bool) : List (String × String) → Nat → Int
  | [], _ => -1
  | (arg_name, _) :: rest, i =>
    if test arg_name then (i : Int) else firstMatchIndexFrom test rest (i + 1)

/-- The arguments that `_paramIndex` examines: those before the first one with an empty
name. -/
def examinedArgs (args : List (String × String)) : List (String × String) :=
  args.takeWhile (fun a => decide (a.1 ≠ ""))

/-- The parameter `name` of a request as the amended specification words it: the value of the
first argument, among those in front of the first argument with an empty name, whose name is
the requested one (byte for byte under kStrict, ignoring ASCII letter case otherwise);
`none` when there is no such argument. -/
def examinedParam (request : AsyncWebServerRequest) (name : String) (spelling : Spelling_t) :
    Option String :=
  ((examinedArgs request.args).find?
    (fun a => if spelling = .kStrict then equals a.1 name else equalsIgnoreCase a.1 name)).map
    Prod.snd

/-- The text has no leading integer for `%d`: after the white space and an optional sign it
is at its end or continues with a character that is not a decimal digit. -/
def noLeadingInteger (s : String) : Bool :=
  match (scanSign (s.data.dropWhile isspace)).2 with
  | [] => true
  | c :: _ => (digitValue 10 c).isNone

/-! ## AlpacaServer.cpp: discovery -/

/-- The configuration members of `AlpacaServer` (`_port_tcp` and `_port_udp` are `uint16_t`,
`_log_level` is `uint16_t`). -/
structure AlpacaServerConfig where
  _mng_server_name : String
  _port_tcp : Nat
  _port_udp : Nat
  _syslog_host : String
  _log_level : Nat
  _serial_log : Bool
  deriving DecidableEq, Repr

/-- The test `strncmp(a, b, n) == 0` of the C library on byte lists; a list that has ended
reads as the terminator. -/
def strncmpEq : List Char → List Char → Nat → Bool
  | _, _, 0 => true
  | a, b, n + 1 =>
    if a.headD NUL ≠ b.headD NUL then false
    else if a.headD NUL = NUL then true
    else strncmpEq a.tail b.tail n

/-- The literal `kAlpacaDiscoveryHeader`. -/
def kAlpacaDiscoveryHeader : String := "alpacadiscovery"

/-- The method `AlpacaDiscoveryPacket::valid` on the bytes of the datagram, whose first 15
are the member `_header`. -/
def AlpacaDiscoveryPacket.valid (data : List Char) : Bool :=
  strncmpEq data kAlpacaDiscoveryHeader.data ("alpacadiscovery".data.length + 1 - 1)

/-- The method `AlpacaServer::OnAlpacaDiscovery`: the bytes handed to `writeTo`, or `none`
when the handler returns without replying. `resp_len` is the return value of `snprintf`, the
length of the untruncated text, and `writeTo` sends that many bytes of `resp_buf`; bytes of
the buffer behind the stored text are not modelled (they are not reached for a `uint16_t`
port). -/
def OnAlpacaDiscovery (cfg : AlpacaServerConfig) (data : List Char) : Option (List Char) :=
  let length := data.length
  if length = 0 then none
  else if length < 16 then none
  else if AlpacaDiscoveryPacket.valid data then
    let text := "\x7b\"AlpacaPort\":" ++ fmt_d (cfg._port_tcp : Int) ++ "\x7d"
    let resp_buf := snprintf 32 text
    let resp_len := text.data.length
    some (resp_buf.data.take resp_len)
  else none

/-- A server configuration with the default ports. -/
def sampleConfig : AlpacaServerConfig :=
  { _mng_server_name := "ALPACA-ESP32-DEMO", _port_tcp := 80, _port_udp := 32227,
    _syslog_host := "0.0.0.0", _log_level := 7, _serial_log := true }

/-- A discovery datagram of 16 bytes: the header and the version byte `1`. -/
def sampleDatagram : List Char := "alpacadiscovery1".data

/-! ## AlpacaServer.cpp: settings -/

/-- A JSON value as an ArduinoJson `JsonVariant` presents it (numbers restricted to
integers). -/
inductive JsonVariant where
  | null
  | bool (b : Bool)
  | int (n : Int)
  | str (s : String)
  | arr (items : List JsonVariant)
  | obj (members : List (String × JsonVariant))

/-- The subscript `root[key]`: the member with that key, the null variant when there is none
or when `root` is no object. -/
def JsonVariant.get (root : JsonVariant) (key : String) : JsonVariant :=
  match root with
  | .obj members => (members.lookup key).getD .null
  | _ => .null

/-- ArduinoJson `variant | defaultValue` for a `String` default: the string held, else the
default. -/
def orString (v : JsonVariant) (defaultValue : String) : String :=
  match v with
  | .str s => s
  | _ => defaultValue

/-- ArduinoJson `variant | defaultValue` for a `uint16_t` default: the integer held when it
fits `uint16_t`, else the default. -/
def orUInt16 (v : JsonVariant) (defaultValue : Nat) : Nat :=
  match v with
  | .int n => if 0 ≤ n ∧ n ≤ 65535 then n.toNat else defaultValue
  | _ => defaultValue

/-- ArduinoJson `variant | defaultValue` for an `int` default: the integer held when it fits
`int`, else the default. -/
def orInt (v : JsonVariant) (defaultValue : Int) : Int :=
  match v with
  | .int n => if -(2 ^ 31) ≤ n ∧ n ≤ 2 ^ 31 - 1 then n else defaultValue
  | _ => defaultValue

/-- The constant `SLOG_WARNING`. -/
def SLOG_WARNING : Nat := 4

/-- The constant `SLOG_DEBUG`. -/
def SLOG_DEBUG : Nat := 7

/-- The mask stored by `SLog::SetLvlMsk(uint8_t lvl)`, which `GetLvlMsk` returns. -/
def SetLvlMsk (lvl : Nat) : Nat :=
  if lvl ≥ SLOG_WARNING ∧ lvl ≤ SLOG_DEBUG then lvl else SLOG_DEBUG

/-- The method `AlpacaServer::_readJson`: the configuration members after the call. The log
level goes through `uint16_t _log_level`, the `uint8_t` argument of `SetLvlMsk` and back. -/
def _readJson (cfg : AlpacaServerConfig) (root : JsonVariant) : AlpacaServerConfig :=
  let _mng_server_name := orString (root.get "Name") cfg._mng_server_name
  let _port_tcp := orUInt16 (root.get "TCP_port") cfg._port_tcp
  let _port_udp := orUInt16 (root.get "UDP_port") cfg._port_udp
  let _syslog_host := orString (root.get "SYSLOG_host") cfg._syslog_host
  let _log_level := (orInt (root.get "LOG_level") SLOG_DEBUG % 2 ^ 16).toNat
  let _serial_log := if orInt (root.get "SERIAL_log") 1 = 0 then false else true
  let _log_level := SetLvlMsk (_log_level % 2 ^ 8)
  { _mng_server_name := _mng_server_name, _port_tcp := _port_tcp, _port_udp := _port_udp,
    _syslog_host := _syslog_host, _log_level := _log_level, _serial_log := _serial_log }

/-- A configuration changed at run time: log level `SLOG_WARNING`, serial log off. -/
def quietConfig : AlpacaServerConfig :=
  { _mng_server_name := "Dome", _port_tcp := 8080, _port_udp := 32227,
    _syslog_host := "192.168.1.9", _log_level := 4, _serial_log := false }

/-! ## AlpacaDevice.cpp: the read handlers of the base device -/

/-- The text members of an `AlpacaDevice` that the read handlers report. -/
structure AlpacaDeviceData where
  _device_description : String
  _device_name : String
  _device_and_driver_version : String
  _driver_info : String
  _device_interface_version : Int
  _supported_actions : String
  _device_states : String
  deriving DecidableEq, Repr

/-- The overload `AlpacaServer::Respond` with an `int32_t` value (`itoa` in base 10). -/
def Respond_int32 (srv : AlpacaServer) (client : AlpacaClient_t)
    (rsp_status : AlpacaRspStatus_t) (int_value : Int) : AlpacaServer × HttpResponse :=
  _respond srv client rsp_status (fmt_d int_value) .kAsPlainStringValue

/-- The overload `AlpacaServer::Respond` with a `bool` value. -/
def Respond_bool (srv : AlpacaServer) (client : AlpacaClient_t)
    (rsp_status : AlpacaRspStatus_t) (bool_value : Bool) : AlpacaServer × HttpResponse :=
  _respond srv client rsp_status (if bool_value then "true" else "false") .kAsPlainStringValue

/-- The overload `AlpacaServer::Respond` with a string value and its shape. -/
def Respond_string (srv : AlpacaServer) (client : AlpacaClient_t)
    (rsp_status : AlpacaRspStatus_t) (str_value : String) (jason_string_value : JsonValue_t) :
    AlpacaServer × HttpResponse :=
  _respond srv client rsp_status str_value jason_string_value

/-- The opening of every read handler: `_service_counter++` and then
`checkClientDataAndConnection(request, client_idx, Spelling_t::kIgnoreCase)`. -/
def readPrologue (dev : AlpacaDevice) (request : AsyncWebServerRequest) (millis : Nat) :
    AlpacaDevice × Fin (kAlpacaMaxClients + 1) :=
  checkClientDataAndConnection
    { dev with _service_counter := (dev._service_counter + 1) % 2 ^ 32 } request .kIgnoreCase
    millis

/-- The method `AlpacaDevice::AlpacaGetConnecting`. -/
def AlpacaGetConnecting (srv : AlpacaServer) (dev : AlpacaDevice)
    (request : AsyncWebServerRequest) (millis : Nat) : AlpacaServer × AlpacaDevice × HttpResponse :=
  let (dev, client_idx) := readPrologue dev request millis
  let (srv, sent) := Respond_bool srv (dev._clients client_idx) dev._rsp_status false
  (srv, dev, sent)

/-- The method `AlpacaDevice::AlpacaGetConnected`. -/
def AlpacaGetConnected (srv : AlpacaServer) (dev : AlpacaDevice)
    (request : AsyncWebServerRequest) (millis : Nat) : AlpacaServer × AlpacaDevice × HttpResponse :=
  let (dev, client_idx) := readPrologue dev request millis
  let (srv, sent) :=
    Respond_bool srv (dev._clients client_idx) dev._rsp_status (decide (client_idx.val > 0))
  (srv, dev, sent)

/-- The methods `AlpacaGetDescription`, `AlpacaGetDriverInfo`, `AlpacaGetDriverVersion`,
`AlpacaGetName` and `AlpacaGetSupportedActions`, which differ in the member they report and
in its shape only. -/
def AlpacaGetText (str_value : String) (jason_string_value : JsonValue_t) (srv : AlpacaServer)
    (dev : AlpacaDevice) (request : AsyncWebServerRequest) (millis : Nat) :
    AlpacaServer × AlpacaDevice × HttpResponse :=
  let (dev, client_idx) := readPrologue dev request millis
  let (srv, sent) :=
    Respond_string srv (dev._clients client_idx) dev._rsp_status str_value jason_string_value
  (srv, dev, sent)

/-- The method `AlpacaDevice::AlpacaGetInterfaceVersion`. -/
def AlpacaGetInterfaceVersion (data : AlpacaDeviceData) (srv : AlpacaServer)
    (dev : AlpacaDevice) (request : AsyncWebServerRequest) (millis : Nat) :
    AlpacaServer × AlpacaDevice × HttpResponse :=
  let (dev, client_idx) := readPrologue dev request millis
  let (srv, sent) :=
    Respond_int32 srv (dev._clients client_idx) dev._rsp_status data._device_interface_version
  (srv, dev, sent)

/-- The method `AlpacaDevice::AlpacaGetDeviceState`. `stateList buf_len` is the text that the
device's `_getDeviceStateList(buf_len, buf)` writes; the buffer `_device_states` has 1024
bytes. -/
def AlpacaGetDeviceState (stateList : Nat → String) (data : AlpacaDeviceData)
    (srv : AlpacaServer) (dev : AlpacaDevice) (request : AsyncWebServerRequest) (millis : Nat) :
    AlpacaServer × AlpacaDevice × AlpacaDeviceData × HttpResponse :=
  let (dev, client_idx) := readPrologue dev request millis
  let _device_states :=
    if client_idx.val > 0 then
      let filled := "[" ++ stateList (1024 - ("[" : String).data.length - 2)
      if filled.data.length < 1024 - 2 then filled ++ "]" else filled
    else data._device_states
  let (srv, sent) :=
    Respond_string srv (dev._clients client_idx) dev._rsp_status _device_states
      .kAsPlainStringValue
  (srv, dev, { data with _device_states := _device_states }, sent)

/-! ## Requests to the base-device handlers, one after the other -/

/-- The commands that `AlpacaDevice::RegisterCallbacks` registers. -/
inductive BaseCommand where
  | putConnect
  | putDisconnect
  | putConnected
  | getConnected
  | getConnecting
  | getName
  | getDescription
  | getDriverInfo
  | getDriverVersion
  | getInterfaceVersion
  | getSupportedActions
  | getDeviceState
  deriving DecidableEq, Repr

/-- One device registered with the server: its session state, its text members and its
implementation of `_getDeviceStateList`. -/
structure DeviceInstance where
  dev : AlpacaDevice
  data : AlpacaDeviceData
  stateList : Nat → String

/-- The handler registered for a command, run on one device: the server and the device after
the call and the responses handed to `request->send` during the call, in order. -/
def handleBase (cmd : BaseCommand) (srv : AlpacaServer) (inst : DeviceInstance)
    (request : AsyncWebServerRequest) (millis : Nat) :
    AlpacaServer × DeviceInstance × List HttpResponse :=
  let plain (r : AlpacaServer × AlpacaDevice × HttpResponse) :
      AlpacaServer × DeviceInstance × List HttpResponse :=
    (r.1, { inst with dev := r.2.1 }, [r.2.2])
  match cmd with
  | .putConnect => plain (AlpacaPutConnect srv inst.dev request millis)
  | .putDisconnect => plain (AlpacaPutDisconnect srv inst.dev request millis)
  | .putConnected => plain (AlpacaPutConnected srv inst.dev request millis)
  | .getConnected => plain (AlpacaGetConnected srv inst.dev request millis)
  | .getConnecting => plain (AlpacaGetConnecting srv inst.dev request millis)
  | .getName =>
    plain (AlpacaGetText inst.data._device_name .kAsJsonStringValue srv inst.dev request millis)
  | .getDescription =>
    plain (AlpacaGetText inst.data._device_description .kAsJsonStringValue srv inst.dev request
      millis)
  | .getDriverInfo =>
    plain (AlpacaGetText inst.data._driver_info .kAsJsonStringValue srv inst.dev request millis)
  | .getDriverVersion =>
    plain (AlpacaGetText inst.data._device_and_driver_version .kAsJsonStringValue srv inst.dev
      request millis)
  | .getInterfaceVersion =>
    plain (AlpacaGetInterfaceVersion inst.data srv inst.dev request millis)
  | .getSupportedActions =>
    plain (AlpacaGetText inst.data._supported_actions .kAsPlainStringValue srv inst.dev request
      millis)
  | .getDeviceState =>
    let r := AlpacaGetDeviceState inst.stateList inst.data srv inst.dev request millis
    (r.1, { inst with dev := r.2.1, data := r.2.2.1 }, [r.2.2.2])

/-- An incoming request: the device it addresses, the command, the request and the time. -/
structure Incoming where
  device : Nat
  command : BaseCommand
  request : AsyncWebServerRequest
  millis : Nat

/-- The requests handled one after the other, each to completion, by the devices of one
server: the server and the devices at the end and all responses sent, in order. -/
def serve (srv : AlpacaServer) (devices : Nat → DeviceInstance) :
    List Incoming → AlpacaServer × (Nat → DeviceInstance) × List HttpResponse
  | [] => (srv, devices, [])
  | r :: rest =>
    let h := handleBase r.command srv (devices r.device) r.request r.millis
    let t := serve h.1 (Function.update devices r.device h.2.1) rest
    (t.1, t.2.1, h.2.2 ++ t.2.2)

/-- The response is an envelope that `_respond` rendered with `stid` as the value of the
server transaction counter. -/
def renderedWith (stid : Nat) (r : HttpResponse) : Prop :=
  ∃ (client : AlpacaClient_t) (rsp_status : AlpacaRspStatus_t) (value : String)
    (jason_string_value : JsonValue_t),
    r = { code := rsp_status.http_status.toNat
          contentType := kAlpacaJsonType
          content := snprintf (2058 + 256)
            (envelopeText jason_string_value value
              (fmt_d (asInt32 client.client_transaction_id)) (fmt_d (asInt32 stid))
              (fmt_d rsp_status.error_code.toInt) rsp_status.error_msg) }

/-- A device instance with an empty client table. -/
def sampleInstance : DeviceInstance :=
  { dev := emptyDevice
    data := { _device_description := "Alpaca Switch Template", _device_name := "switch-0",
              _device_and_driver_version := "4.3.0", _driver_info := "ESP32 Switch driver",
              _device_interface_version := 3, _supported_actions := "[]",
              _device_states := "[]" }
    stateList := fun _ => "" }

/-- Two read requests by client 5, to device 0 and to device 1. -/
def twoReads : List Incoming :=
  [{ device := 0, command := .getConnected,
     request := identifiedRequest "/api/v1/switch/0/connected" "5" "1", millis := 10 },
   { device := 1, command := .getInterfaceVersion,
     request := identifiedRequest "/api/v1/switch/1/interfaceversion" "5" "2", millis := 20 }]

/-! ## Smart-plug wire cipher (`src/src/Switch.cpp`)

A `std::string` is a list of bytes, each a natural number below 256; the
`uint8_t` casts of the source are the explicit `% 256`. -/

/-- The loop of `encrypt`, started with the running `key`:
`a = key ^ c; key = a; result += a`. -/
def encryptFrom (key : Nat) : List Nat → List Nat
  | [] => []
  | c :: rest =>
    let a := (key ^^^ (c % 256)) % 256
    a :: encryptFrom a rest

/-- `encrypt` of `Switch.cpp`: the loop started with key 171. -/
def encrypt (input : List Nat) : List Nat := encryptFrom 171 input

/-- The loop of `decrypt`, started with the running `key`:
`a = key ^ c; key = c; result += a`. -/
def decryptFrom (key : Nat) : List Nat → List Nat
  | [] => []
  | c :: rest =>
    let a := (key ^^^ (c % 256)) % 256
    a :: decryptFrom (c % 256) rest

/-- `decrypt` of `Switch.cpp`: the loop started with key 171. -/
def decrypt (input : List Nat) : List Nat := decryptFrom 171 input

/-! ## AlpacaSwitch (`AlpacaSwitch.h`, `AlpacaSwitch.cpp`)

The type `D` of the `double` values and the operations on it that the switch code uses are
parameters. -/

inductive SwitchAsyncType_t where
  | kAsyncType
  | kNoAsyncType
  deriving DecidableEq, Repr

inductive SwitchValueType_t where
  | kBool
  | kDouble
  deriving DecidableEq, Repr

/-- The operations on `double` used by the switch code: the constants `0.0` and `1.0`, the
comparison `a <= b`, the conversions from and to `bool`, the conversion
`sscanf(s, "%lf", &v) == 1` and the conversion `%f` of `snprintf`. -/
structure DoubleOps (D : Type) where
  zero : D
  one : D
  le : D → D → Bool
  ofBool : Bool → D
  toBool : D → Bool
  sscanf_lf : String → Option D
  fmt_f : D → String

structure SwitchDevice_t (D : Type) where
  init_by_setup : Bool
  can_write : Bool
  name : String
  description : String
  value : D
  min_value : D
  max_value : D
  step : D
  async_type : SwitchAsyncType_t
  is_bool : Bool
  state_change_complete : Bool
  has_been_cancelled : Bool
  set_time_stamp_ms : Nat

/-- The state of an `AlpacaSwitch`: the members of its base class `AlpacaDevice`, the array
`_p_switch_devices` (allocated by the constructor with `_switch_capacity` elements), the
exposed count and the capacity. -/
structure AlpacaSwitch (D : Type) extends AlpacaDevice where
  _p_switch_devices : Nat → SwitchDevice_t D
  _max_switch_devices : Nat
  _switch_capacity : Nat

/-- Text produced by the conversion `%02d` for an `int`. -/
def fmt_02d (v : Int) : String :=
  if v < 0 then "-" ++ Nat.repr v.natAbs
  else String.mk (List.replicate (2 - (Nat.repr v.natAbs).data.length) '0') ++ Nat.repr v.natAbs

/-- The method `AlpacaSwitch::_InitSwitchDevicesInternals`; the test `min_value == 0.0` is
`min_value <= 0.0 && 0.0 <= min_value`. -/
def _InitSwitchDevicesInternals {D : Type} (ops : DoubleOps D) (sw : AlpacaSwitch D) (id : Nat)
    (millis : Nat) : AlpacaSwitch D :=
  if id ≥ 0 ∧ id ≤ sw._max_switch_devices then
    let d := sw._p_switch_devices id
    let eq (a b : D) : Bool := ops.le a b && ops.le b a
    { sw with
      _p_switch_devices := Function.update sw._p_switch_devices id
        { d with
          is_bool := eq d.min_value ops.zero && eq d.max_value ops.one && eq d.step ops.one
          has_been_cancelled := false
          state_change_complete := true
          set_time_stamp_ms := millis } }
  else sw

/-- The loop of the constructor over the switch devices `u, u + 1, ...` (`n` of them). -/
def constructLoop {D : Type} (ops : DoubleOps D) (millis : Nat) :
    Nat → Nat → AlpacaSwitch D → AlpacaSwitch D
  | 0, _, sw => sw
  | n + 1, u, sw =>
    let d := sw._p_switch_devices u
    let sw := { sw with
      _p_switch_devices := Function.update sw._p_switch_devices u
        { d with
          can_write := false
          name := snprintf 32 ("SwitchDevice" ++ fmt_02d (asInt32 u))
          description := snprintf 128 ("Switch Device " ++ fmt_02d (asInt32 u) ++ " Description")
          min_value := ops.zero
          max_value := ops.one
          value := ops.zero
          step := ops.one } }
    constructLoop ops millis n (u + 1) (_InitSwitchDevicesInternals ops sw u millis)

/-- The constructor `AlpacaSwitch::AlpacaSwitch(num_of_switch_devices)`. `base` is the state
of the base class and `allocated` the content of the array that `new` returns (the members
`init_by_setup` and `async_type` keep it). -/
def AlpacaSwitch.construct {D : Type} (ops : DoubleOps D) (base : AlpacaDevice)
    (allocated : Nat → SwitchDevice_t D) (num_of_switch_devices : Nat) (millis : Nat) :
    AlpacaSwitch D :=
  constructLoop ops millis num_of_switch_devices 0
    { toAlpacaDevice := base
      _p_switch_devices := allocated
      _max_switch_devices := num_of_switch_devices
      _switch_capacity := num_of_switch_devices }

/-- The method `AlpacaSwitch::SetMaxSwitchDevices`. -/
def SetMaxSwitchDevices {D : Type} (sw : AlpacaSwitch D) (new_max : Nat) : AlpacaSwitch D :=
  { sw with
    _max_switch_devices := if new_max ≤ sw._switch_capacity then new_max else sw._switch_capacity }

/-- The method `AlpacaSwitch::_getAndCheckId`: the result, the final content of `id` and the
switch after the call. -/
def _getAndCheckId {D : Type} (sw : AlpacaSwitch D) (request : AsyncWebServerRequest) (id : Nat)
    (spelling : Spelling_t) : Bool × Nat × AlpacaSwitch D :=
  let r := GetParam_uint32 request "Id" id spelling
  let id := r.2
  if r.1 then
    if id ≥ 0 ∧ id < sw._max_switch_devices then (true, id, sw)
    else
      (false, id,
        { sw with
          _rsp_status :=
            { error_code := .InvalidValue, http_status := .kInvalidRequest,
              error_msg := snprintf 128 (request.url ++ " - Parameter '" ++ "Id" ++ "=" ++
                fmt_d (asInt32 id) ++ " invalid") } })
  else
    (false, id,
      { sw with
        _rsp_status :=
          { error_code := .InvalidValue, http_status := .kInvalidRequest,
            error_msg := snprintf 128 (request.url ++ " - Parameter '" ++ "Id" ++
              "' not found") } })

/-- The overload `AlpacaServer::GetParam(..., double &value, ...)`: the result and the final
content of `value`. -/
def GetParam_double {D : Type} (ops : DoubleOps D) (request : AsyncWebServerRequest)
    (name : String) (value : D) (spelling : Spelling_t) : Bool × D :=
  let index := _paramIndex request name spelling
  if index ≥ 0 then
    match ops.sscanf_lf (request.arg index) with
    | some v => (true, v)
    | none => (false, value)
  else (false, value)

/-- The method `AlpacaSwitch::_boolValueToDoubleValue`. -/
def _boolValueToDoubleValue {D : Type} (sw : AlpacaSwitch D) (id : Nat) (bool_value : Bool) : D :=
  if bool_value then (sw._p_switch_devices id).max_value else (sw._p_switch_devices id).min_value

/-- The method `AlpacaSwitch::GetStateChangeComplete`. -/
def GetStateChangeComplete {D : Type} (sw : AlpacaSwitch D) (id : Nat) : Bool :=
  (sw._p_switch_devices (if id < sw._max_switch_devices then id else 0)).state_change_complete

/-- The opening of the switch handlers: `_service_counter++` and `RspStatusClear`. -/
def switchPrologue {D : Type} (sw : AlpacaSwitch D) : AlpacaDevice :=
  { sw.toAlpacaDevice with
    _service_counter := (sw._service_counter + 1) % 2 ^ 32
    _rsp_status := RspStatusClear sw._rsp_status }

/-- The assignment of an error status by a switch handler. -/
def setStatus {D : Type} (sw : AlpacaSwitch D) (error_code : AlpacaErrorCode_t)
    (http_status : HttpStatus_t) (text : String) : AlpacaSwitch D :=
  { sw with
    _rsp_status :=
      { error_code := error_code, http_status := http_status, error_msg := snprintf 128 text } }

/-- An invocation of the virtual method `_writeSwitchValue(id, value, async_type)`. -/
structure WriteCall (D : Type) where
  id : Nat
  value : D
  async_type : SwitchAsyncType_t
  deriving DecidableEq, Repr

/-- The part of `_alpacaPutSetSwitch` after the value has been read: the flag
`state_change_complete` is set, the physical write is invoked and, when it succeeds, the new
value is recorded. -/
def writeBranch {D : Type} (ops : DoubleOps D)
    (_writeSwitchValue :
      (Nat → SwitchDevice_t D) → Nat → D → SwitchAsyncType_t → Bool × (Nat → SwitchDevice_t D))
    (sw : AlpacaSwitch D) (request : AsyncWebServerRequest) (id : Nat) (value : D)
    (bool_value : Bool) (async_type : SwitchAsyncType_t) (set_millis : Nat) :
    AlpacaSwitch D × List (WriteCall D) :=
  let sw : AlpacaSwitch D := { sw with
    _p_switch_devices := Function.update sw._p_switch_devices id
      { sw._p_switch_devices id with
        state_change_complete := decide (async_type = SwitchAsyncType_t.kNoAsyncType) } }
  let w := _writeSwitchValue sw._p_switch_devices id value async_type
  let sw : AlpacaSwitch D := { sw with _p_switch_devices := w.2 }
  if w.1 then
    ({ sw with
       _p_switch_devices := Function.update sw._p_switch_devices id
         { sw._p_switch_devices id with
           value := value
           has_been_cancelled := false
           set_time_stamp_ms := set_millis } },
     [{ id := id, value := value, async_type := async_type }])
  else
    (setStatus sw .InvalidValue .kPassed
       (request.url ++ " - can't write " ++ ops.fmt_f (_boolValueToDoubleValue sw id bool_value) ++
         " to Switch device <" ++ (sw._p_switch_devices id).name ++ ">"),
     [{ id := id, value := value, async_type := async_type }])

/-- The body of `_alpacaPutSetSwitch` inside `if (_getAndCheckId(...))`. In the `kBool` branch
the declaration `bool bool_value = _boolValueToDoubleValue(id, bool_value);` reads the variable
it declares; `indeterminate` is the value read. -/
def setSwitchBody {D : Type} (ops : DoubleOps D)
    (_writeSwitchValue :
      (Nat → SwitchDevice_t D) → Nat → D → SwitchAsyncType_t → Bool × (Nat → SwitchDevice_t D))
    (sw : AlpacaSwitch D) (request : AsyncWebServerRequest) (id : Nat)
    (value_type : SwitchValueType_t) (async_type : SwitchAsyncType_t) (set_millis : Nat)
    (indeterminate : Bool) : AlpacaSwitch D × List (WriteCall D) :=
  let d := sw._p_switch_devices id
  if async_type = .kNoAsyncType ∨ (async_type = .kAsyncType ∧ d.async_type = .kAsyncType) then
    if d.can_write then
      if value_type = .kDouble then
        let g := GetParam_double ops request "Value" ops.zero .kStrict
        let double_value := g.2
        if g.1 then
          if ops.le d.min_value double_value && ops.le double_value d.max_value then
            writeBranch ops _writeSwitchValue sw request id double_value false async_type set_millis
          else
            (setStatus sw .InvalidValue .kInvalidRequest
               (request.url ++ " - parameter 'Value' " ++ ops.fmt_f double_value ++
                 " not inside range (" ++ ops.fmt_f d.min_value ++ ",.." ++
                 ops.fmt_f d.max_value ++ ")"), [])
        else
          (setStatus sw .InvalidValue .kInvalidRequest
             (request.url ++ " - parameter 'Value' not found or invalid"), [])
      else
        if (GetParam_bool request "State" false .kStrict).1 then
          let bool_value := ops.toBool (_boolValueToDoubleValue sw id indeterminate)
          writeBranch ops _writeSwitchValue sw request id (ops.ofBool bool_value) bool_value
            async_type set_millis
        else
          (setStatus sw .InvalidValue .kInvalidRequest
             (request.url ++ " - parameter 'State' not found or invalid"), [])
    else
      (setStatus sw .InvalidValue .kInvalidRequest
         (request.url ++ " - Switch device <" ++ d.name ++ "> is read only"), [])
  else
    (setStatus sw .InvalidValue .kPassed
       (request.url ++ " - Switch device <" ++ d.name ++ "> async not allowed"), [])

/-- The method `AlpacaSwitch::_alpacaPutSetSwitch` up to the call of `Respond`: the switch,
`client_idx` and the invocations of `_writeSwitchValue`, in order. `_writeSwitchValue` is the
virtual method of the derived class, which returns its result and may change the switch
devices (`Switch::_writeSwitchValue` does so through `SetSwitchValue` and
`SetStateChangeComplete`). -/
def _alpacaPutSetSwitch_core {D : Type} (ops : DoubleOps D)
    (_writeSwitchValue :
      (Nat → SwitchDevice_t D) → Nat → D → SwitchAsyncType_t → Bool × (Nat → SwitchDevice_t D))
    (sw : AlpacaSwitch D) (request : AsyncWebServerRequest) (value_type : SwitchValueType_t)
    (async_type : SwitchAsyncType_t) (millis set_millis : Nat) (indeterminate : Bool) :
    AlpacaSwitch D × Fin (kAlpacaMaxClients + 1) × List (WriteCall D) :=
  let c := checkClientDataAndConnection (switchPrologue sw) request .kStrict millis
  let sw := { sw with toAlpacaDevice := c.1 }
  let client_idx := c.2
  if client_idx.val > 0 then
    let g := _getAndCheckId sw request 0 .kStrict
    if g.1 then
      let b := setSwitchBody ops _writeSwitchValue g.2.2 request g.2.1 value_type async_type
        set_millis indeterminate
      (b.1, client_idx, b.2)
    else (g.2.2, client_idx, [])
  else (sw, client_idx, [])

/-- The method `AlpacaSwitch::_alpacaPutSetSwitch`, the common handler for setswitch,
setswitchvalue, setasync and setasyncvalue. -/
def _alpacaPutSetSwitch {D : Type} (ops : DoubleOps D)
    (_writeSwitchValue :
      (Nat → SwitchDevice_t D) → Nat → D → SwitchAsyncType_t → Bool × (Nat → SwitchDevice_t D))
    (srv : AlpacaServer) (sw : AlpacaSwitch D) (request : AsyncWebServerRequest)
    (value_type : SwitchValueType_t) (async_type : SwitchAsyncType_t) (millis set_millis : Nat)
    (indeterminate : Bool) : AlpacaServer × AlpacaSwitch D × HttpResponse × List (WriteCall D) :=
  let r := _alpacaPutSetSwitch_core ops _writeSwitchValue sw request value_type async_type millis
    set_millis indeterminate
  let s := Respond srv (r.1._clients r.2.1) r.1._rsp_status
  (s.1, r.1, s.2, r.2.2)

/-- The method `AlpacaSwitch::_alpacaPutCancleAsync` up to the call of `Respond`. -/
def _alpacaPutCancleAsync_core {D : Type} (sw : AlpacaSwitch D)
    (request : AsyncWebServerRequest) (millis : Nat) :
    AlpacaSwitch D × Fin (kAlpacaMaxClients + 1) :=
  let c := checkClientDataAndConnection (switchPrologue sw) request .kIgnoreCase millis
  let sw := { sw with toAlpacaDevice := c.1 }
  let client_idx := c.2
  if client_idx.val > 0 then
    let g := _getAndCheckId sw request 0 .kIgnoreCase
    if g.1 then
      if GetStateChangeComplete g.2.2 g.2.1 = false then
        ({ g.2.2 with
           _p_switch_devices := Function.update g.2.2._p_switch_devices g.2.1
             { g.2.2._p_switch_devices g.2.1 with has_been_cancelled := true } }, client_idx)
      else (g.2.2, client_idx)
    else (g.2.2, client_idx)
  else (sw, client_idx)

/-- The method `AlpacaSwitch::_alpacaPutCancleAsync`, registered for HTTP PUT under
`cancleasync`. -/
def _alpacaPutCancleAsync {D : Type} (srv : AlpacaServer) (sw : AlpacaSwitch D)
    (request : AsyncWebServerRequest) (millis : Nat) :
    AlpacaServer × AlpacaSwitch D × HttpResponse :=
  let r := _alpacaPutCancleAsync_core sw request millis
  let s := Respond srv (r.1._clients r.2) r.1._rsp_status
  (s.1, r.1, s.2)

/-- The switch states reachable from construction by `SetMaxSwitchDevices` and by the handlers
for setswitch, setswitchvalue, setasync, setasyncvalue and cancleasync. -/
inductive SwitchReachable {D : Type} (ops : DoubleOps D)
    (_writeSwitchValue :
      (Nat → SwitchDevice_t D) → Nat → D → SwitchAsyncType_t → Bool × (Nat → SwitchDevice_t D)) :
    AlpacaSwitch D → Prop where
  | construct (base : AlpacaDevice) (allocated : Nat → SwitchDevice_t D)
      (num_of_switch_devices millis : Nat) :
      SwitchReachable ops _writeSwitchValue
        (AlpacaSwitch.construct ops base allocated num_of_switch_devices millis)
  | setMax {sw : AlpacaSwitch D} (h : SwitchReachable ops _writeSwitchValue sw) (new_max : Nat) :
      SwitchReachable ops _writeSwitchValue (SetMaxSwitchDevices sw new_max)
  | putSetSwitch {sw : AlpacaSwitch D} (h : SwitchReachable ops _writeSwitchValue sw)
      (request : AsyncWebServerRequest) (value_type : SwitchValueType_t)
      (async_type : SwitchAsyncType_t) (millis set_millis : Nat) (indeterminate : Bool) :
      SwitchReachable ops _writeSwitchValue
        (_alpacaPutSetSwitch_core ops _writeSwitchValue sw request value_type async_type millis
          set_millis indeterminate).1
  | putCancleAsync {sw : AlpacaSwitch D} (h : SwitchReachable ops _writeSwitchValue sw)
      (request : AsyncWebServerRequest) (millis : Nat) :
      SwitchReachable ops _writeSwitchValue (_alpacaPutCancleAsync_core sw request millis).1

/-- The operations of `DoubleOps` on the doubles with an integer value, written as integers;
`%lf` reads a decimal integer and `%f` prints six zero decimals. -/
def integerDoubles : DoubleOps Int :=
  { zero := 0
    one := 1
    le := fun a b => decide (a ≤ b)
    ofBool := fun b => if b then 1 else 0
    toBool := fun d => decide (d ≠ 0)
    sscanf_lf := sscanf_d
    fmt_f := fun d => fmt_d d ++ ".000000" }

/-- An allocation whose elements are all zero. -/
def zeroedSwitchDevice : SwitchDevice_t Int :=
  { init_by_setup := false, can_write := false, name := "", description := "", value := 0,
    min_value := 0, max_value := 0, step := 0, async_type := .kAsyncType, is_bool := false,
    state_change_complete := false, has_been_cancelled := false, set_time_stamp_ms := 0 }

/-- A physical write that succeeds and leaves the switch devices as they are. -/
def writeSucceeds (table : Nat → SwitchDevice_t Int) (_id : Nat) (_value : Int)
    (_async_type : SwitchAsyncType_t) : Bool × (Nat → SwitchDevice_t Int) :=
  (true, table)

/-- A switch with two switch devices, both writable (`InitSwitchCanWrite`), and client 5
connected in slot 1. -/
def sampleSwitch : AlpacaSwitch Int :=
  let sw := AlpacaSwitch.construct integerDoubles oneClientDevice (fun _ => zeroedSwitchDevice) 2 0
  { sw with
    _p_switch_devices := fun id => { sw._p_switch_devices id with can_write := true } }

/-- A setswitchvalue request of client 5 that carries no ClientTransactionID. -/
def writeWithoutTransactionID : AsyncWebServerRequest :=
  { url := "/api/v1/switch/0/setswitchvalue"
    args := [("ClientID", "5"), ("Id", "0"), ("Value", "1")] }

/-- A setswitchvalue request that carries no ClientID. -/
def writeWithoutClientID : AsyncWebServerRequest :=
  { url := "/api/v1/switch/0/setswitchvalue"
    args := [("ClientTransactionID", "9"), ("Id", "0"), ("Value", "1")] }

/-- A physical write that fails and leaves the switch devices as they are. -/
def writeFails (table : Nat → SwitchDevice_t Int) (_id : Nat) (_value : Int)
    (_async_type : SwitchAsyncType_t) : Bool × (Nat → SwitchDevice_t Int) :=
  (false, table)

/-- The sample switch after a setasync request of client 5 for switch 0 whose physical write
failed: the change of switch 0 is not complete. -/
def pendingSwitch : AlpacaSwitch Int :=
  (_alpacaPutSetSwitch_core integerDoubles writeFails sampleSwitch
    { url := "/api/v1/switch/0/setasync"
      args := [("ClientID", "5"), ("ClientTransactionID", "6"), ("Id", "0"), ("State", "true")] }
    .kBool .kAsyncType 20 21 true).1

/-- A PUT cancleasync request of client 5 whose parameter names are written in lower case. -/
def lowerCaseCancel : AsyncWebServerRequest :=
  { url := "/api/v1/switch/0/cancleasync"
    args := [("clientid", "5"), ("clienttransactionid", "7"), ("id", "0")] }

/-- The device after `Begin`, two PUT connect requests of client 5 and one PUT disconnect of
client 5. -/
def reconnectedThenDisconnected : AlpacaDevice :=
  (AlpacaPutDisconnect_core
    (AlpacaPutConnect_core oneClientDevice
      (identifiedRequest "/api/v1/switch/0/connect" "5" "2") 20).1
    (identifiedRequest "/api/v1/switch/0/disconnect" "5" "3") 30).1

/-! ## The echoed client transaction id -/

/-- The number a handler keeps as client transaction id: what `scan` reads from the argument
that `_paramIndex` finds when it is not negative, and 0 otherwise. -/
def convertedTransactionID (scan : String → Option Int) (request : AsyncWebServerRequest)
    (spelling : Spelling_t) : Int :=
  if 0 ≤ _paramIndex request "ClientTransactionID" spelling then
    match scan (request.arg (_paramIndex request "ClientTransactionID" spelling)) with
    | some v => if 0 ≤ v then v else 0
    | none => 0
  else 0

/-- The number the envelope is to carry as ClientTransactionID, in the words of the amended
specification: the number that the conversion `scan` reads from the parameter
`ClientTransactionID` when that parameter is present in front of the first argument with an
empty name and the number read is not negative, and 0 otherwise. -/
def transactionIDToEcho (scan : String → Option Int) (request : AsyncWebServerRequest)
    (spelling : Spelling_t) : Int :=
  match examinedParam request "ClientTransactionID" spelling with
  | some text =>
    match scan text with
    | some v => if 0 ≤ v then v else 0
    | none => 0
  | none => 0

/-- The text of an envelope in front of its ClientTransactionID field. -/
def envelopeOpening (jason_string_value : JsonValue_t) (value : String) : String :=
  if jason_string_value = .kNoValue then "\x7b "
  else if jason_string_value = .kAsJsonStringValue then "\x7b \"Value\": \"" ++ value ++ "\", "
  else "\x7b \"Value\": " ++ value ++ ", "

/-- The response is an envelope of the given shape and value whose ClientTransactionID field
carries the number `n`. -/
def echoesClientTransactionID (jason_string_value : JsonValue_t) (value : String) (n : Int)
    (r : HttpResponse) : Prop :=
  ∃ rest : String,
    r.content = envelopeOpening jason_string_value value ++ "\"ClientTransactionID\": " ++
      fmt_d n ++ ", \"ServerTransactionID\": " ++ rest

/-! ## AlpacaServer::AddDevice and AlpacaDevice::SetDeviceNumber -/

/-- The constant `kAlpacaMaxDevices` (`ALPACA_MAX_DEVICES`). -/
def kAlpacaMaxDevices : Nat := 4

/-- The members of an `AlpacaDevice` that registration reads and sets. -/
structure DeviceIdentity where
  _device_type : String
  _device_number : Int
  _device_name : String
  _device_uid : String
  _device_url : String
  deriving DecidableEq, Repr

/-- Text produced by the conversion `%02X` for an `int`, which is converted as an
`unsigned int`. -/
def fmt_02X (v : Int) : String :=
  String.mk (List.replicate (2 - (Nat.toDigits 16 (v % 2 ^ 32).toNat).length) '0' ++
    (Nat.toDigits 16 (v % 2 ^ 32).toNat).map Char.toUpper)

/-- Conversion of an `int` to `int8_t`. -/
def asInt8 (v : Int) : Int :=
  (v + 128) % 256 - 128

/-- The method `AlpacaDevice::SetDeviceNumber(int8_t device_number)`, called with an `int`;
`uid` is the text that `_alpaca_server->GetUID()` returns. -/
def SetDeviceNumber (d : DeviceIdentity) (uid : String) (device_number : Int) :
    DeviceIdentity :=
  { d with
    _device_number := asInt8 device_number
    _device_url := snprintf 129
      ("/setup/v1/" ++ d._device_type ++ "/" ++ fmt_d (asInt8 device_number) ++ "/" ++ "setup")
    _device_name := snprintf 33 (d._device_type ++ "-" ++ fmt_d (asInt8 device_number))
    _device_uid := snprintf 65 (d._device_type ++ "-" ++ uid ++ fmt_02X (asInt8 device_number)) }

/-- The registry of an `AlpacaServer`: the first `_n_devices` entries of the array `_device`,
which are pointers (here addresses), and the device objects by address. -/
structure DeviceRegistry where
  _device : List Nat
  objects : Nat → DeviceIdentity

/-- The method `AlpacaServer::AddDevice` for the device object at address `device`. -/
def AddDevice (reg : DeviceRegistry) (uid : String) (device : Nat) : DeviceRegistry :=
  if reg._device.length = kAlpacaMaxDevices then reg
  else
    let deviceType := (reg.objects device)._device_type
    let deviceNumber :=
      (reg._device.filter (fun p => (reg.objects p)._device_type == deviceType)).length
    { _device := reg._device ++ [device]
      objects := Function.update reg.objects device
        (SetDeviceNumber (reg.objects device) uid (deviceNumber : Int)) }

/-- The registry after the calls `AddDevice(d)` for the addresses `d` of `devices`, in order,
on a server that has no device yet. -/
def registerAll (uid : String) (objects : Nat → DeviceIdentity) (devices : List Nat) :
    DeviceRegistry :=
  devices.foldl (fun reg d => AddDevice reg uid d) { _device := [], objects := objects }

/-- The number of devices of the type of the `k`-th device among the devices before it. -/
def sameTypeBefore (objects : Nat → DeviceIdentity) (devices : List Nat) (k : Nat) : Nat :=
  ((devices.take k).filter
    (fun p => (objects p)._device_type == (objects (devices.getD k 0))._device_type)).length

/-- A device object that has not been registered; the type is set by its constructor. -/
def freshDevice (device_type : String) : DeviceIdentity :=
  { _device_type := device_type, _device_number := -1, _device_name := "", _device_uid := "",
    _device_url := "" }

/-- Three device objects at the addresses 100, 200 and 300: two switches and, between them, a
cover calibrator. -/
def threeDevices (p : Nat) : DeviceIdentity :=
  if p = 200 then freshDevice "covercalibrator" else freshDevice "switch"

/-- The registry holds the devices `pre`, in this order, no device type has changed since the
objects were `objs`, and the `k`-th device carries the number of devices of its type before
it. -/
def registeredAs (objs : Nat → DeviceIdentity) (pre : List Nat) (reg : DeviceRegistry) : Prop :=
  reg._device = pre ∧
  (∀ p, (reg.objects p)._device_type = (objs p)._device_type) ∧
  (∀ k, k < pre.length →
    (reg.objects (pre.getD k 0))._device_number = (sameTypeBefore objs pre k : Int))

/-! ## Kasa plug selection (`src/src/Switch.cpp`) -/

/-- The assignment `root[key] = value` on the members of a `JsonObject`: the member with that
key is replaced, or the pair is added at the end. -/
def setMember (key : String) (value : JsonVariant) :
    List (String × JsonVariant) → List (String × JsonVariant)
  | [] => [(key, value)]
  | (k, w) :: rest =>
    if k == key then (k, value) :: rest else (k, w) :: setMember key value rest

/-- The assignment `root[key] = value` (for an object value also `root[key].to<JsonObject>()`
followed by the assignments that fill it); a variant that is no object stays as it is. -/
def JsonVariant.set (root : JsonVariant) (key : String) (value : JsonVariant) : JsonVariant :=
  match root with
  | .obj members => .obj (setMember key value members)
  | other => other

/-- ArduinoJson `variant.as<bool>()`: the boolean held, an integer other than 0, and `false`
for every other variant. -/
def asBool (v : JsonVariant) : Bool :=
  match v with
  | .bool b => b
  | .int n => decide (n ≠ 0)
  | _ => false

/-- The members of a `KasaPlug`. -/
structure KasaPlug where
  address : String
  name : String
  model : String
  is_child : Bool
  child_index : Int
  device_id : String
  state : Bool
  state_str : String
  enabled : Bool
  deriving DecidableEq, Repr

/-- The replacement of a blank, `-`, `(`, `)` and `.` by `_`. -/
def cleanChar (c : Char) : Char :=
  if c = ' ' ∨ c = '-' ∨ c = '(' ∨ c = ')' ∨ c = '.' then '_' else c

/-- The loop `while (!s.empty() && s.back() == '_') s.pop_back();`. -/
def stripTrailingUnderscores (s : List Char) : List Char :=
  (s.reverse.dropWhile (fun c => c == '_')).reverse

/-- The stable key of a plug as both hooks compute it, before the test for an empty key:
`address + "_" + name`, for a child plug followed by `"_child_" + to_string(child_index)`,
cleaned and without trailing underscores. -/
def cleanedStableKey (plug : KasaPlug) : String :=
  let stable_key :=
    plug.address ++ "_" ++ plug.name ++
      (if plug.is_child then "_child_" ++ fmt_d plug.child_index else "")
  String.mk (stripTrailingUnderscores (stable_key.data.map cleanChar))

/-- The stable key that `Switch::AlpacaWriteJson` emits for the plug with index `i`. -/
def writeStableKey (i : Nat) (plug : KasaPlug) : String :=
  if (cleanedStableKey plug).data.isEmpty then "sw" ++ Nat.repr i else cleanedStableKey plug

/-- The stable key that `Switch::AlpacaReadJson` computes for a plug. -/
def readStableKey (plug : KasaPlug) : String :=
  if (cleanedStableKey plug).data.isEmpty then "default_key" else cleanedStableKey plug

/-- The short key `switch_key` of `Switch::AlpacaWriteJson` for the plug with index `i`: the
first 31 characters of the name, cleaned, cut to 20 characters, without trailing
underscores, and `sw<i>` when nothing is left. -/
def switchKey (i : Nat) (plug : KasaPlug) : String :=
  let cleaned := (snprintf 32 plug.name).data.map cleanChar
  let cut := if cleaned.length > 20 then cleaned.take 20 else cleaned
  let stripped := stripTrailingUnderscores cut
  if stripped.isEmpty then snprintf 32 ("sw" ++ Nat.repr i) else String.mk stripped

/-- The three values that the loop of `Switch::AlpacaWriteJson` builds from the plugs with the
indices `i, i + 1, ...`: the members of `KasaSwitchSelection`, the members of
`_KasaSwitchKeyMapHidden` and the items of `KasaEnabledKeys`. -/
def writeLoop : Nat → List KasaPlug →
    List (String × JsonVariant) × List (String × JsonVariant) × List JsonVariant →
    List (String × JsonVariant) × List (String × JsonVariant) × List JsonVariant
  | _, [], acc => acc
  | i, plug :: rest, (kasa_selection, kasa_key_map, enabled_keys) =>
    writeLoop (i + 1) rest
      (setMember (switchKey i plug) (.bool plug.enabled) kasa_selection,
       setMember (switchKey i plug) (.str (writeStableKey i plug)) kasa_key_map,
       if plug.enabled then enabled_keys ++ [.str (writeStableKey i plug)] else enabled_keys)

/-- The method `Switch::AlpacaWriteJson` for the list `discovered_switches`. -/
def Switch.AlpacaWriteJson (discovered_switches : List KasaPlug) (root : JsonVariant) :
    JsonVariant :=
  if discovered_switches.length > 0 then
    let root := ((root.set "KasaSwitchSelection" (.obj [])).set "_KasaSwitchKeyMapHidden"
      (.obj [])).set "KasaEnabledKeys" (.arr [])
    let w := writeLoop 0 discovered_switches ([], [], [])
    ((root.set "KasaSwitchSelection" (.obj w.1)).set "_KasaSwitchKeyMapHidden"
      (.obj w.2.1)).set "KasaEnabledKeys" (.arr w.2.2)
  else
    root.set "DiscoveryInfo"
      (.obj [("message",
        .str "No devices found. Click 'Discover Kasa Devices' to scan network.")])

/-- The strings collected from the items of `KasaEnabledKeys`: the items that are non-empty
strings. -/
def enabledList : List JsonVariant → List String
  | [] => []
  | .str s :: rest => if s.data.isEmpty then enabledList rest else s :: enabledList rest
  | _ :: rest => enabledList rest

/-- The method `Switch::AlpacaReadJson` on the list `discovered_switches`, along the path of
`KasaEnabledKeys`: `some` is the list when the method returns from that path; `none` stands
for the other paths (discovery, re-check of the saved devices, the selection object). The
call of `AlpacaSwitch::AlpacaReadJson` that opens the method acts on name and description of
the device only, and `UpdateEnabledSwitches` and `SaveKasaSwitchSettingsToPersistentStorage`
leave the list as it is. -/
def Switch.AlpacaReadJson (discovered_switches : List KasaPlug) (root : JsonVariant) :
    Option (List KasaPlug) :=
  if asBool (root.get "KasaDiscoveryTrigger") then none
  else if asBool (root.get "KasaRecheckSaved") then none
  else
    match root.get "KasaEnabledKeys" with
    | .arr enabled_keys =>
      if enabled_keys.length > 0 then
        some (discovered_switches.map
          (fun plug =>
            { plug with enabled := (enabledList enabled_keys).contains (readStableKey plug) }))
      else none
    | _ => none

/-- Two plugs behind one address whose names differ in a character that the key cleans away;
the first is enabled, the second is not. -/
def twoLamps : List KasaPlug :=
  [{ address := "192.168.1.20", name := "Lamp 1", model := "HS103", is_child := false,
     child_index := -1, device_id := "", state := false, state_str := "", enabled := true },
   { address := "192.168.1.20", name := "Lamp-1", model := "HS103", is_child := false,
     child_index := -1, device_id := "", state := false, state_str := "", enabled := false }]

/-- Two plugs at different addresses, the first enabled, the second not. -/
def twoPlugs : List KasaPlug :=
  [{ address := "192.168.1.20", name := "Lamp 1", model := "HS103", is_child := false,
     child_index := -1, device_id := "", state := false, state_str := "", enabled := true },
   { address := "192.168.1.21", name := "Heater", model := "HS103", is_child := false,
     child_index := -1, device_id := "", state := false, state_str := "", enabled := false }]

/-! ## Settings (`AlpacaServer::SaveSettings`, `AlpacaServer::LoadSettings` and the hooks) -/

/-- The members of an `AlpacaDevice` that the settings code reads and writes. -/
structure DeviceSettings where
  _device_uid : String
  _device_name : String
  _device_description : String
  deriving DecidableEq, Repr

/-- Result of `strlcpy(dst, src, size)` in `dst`: at most `size - 1` characters. -/
def strlcpy (size : Nat) (src : String) : String :=
  String.mk (src.data.take (size - 1))

/-- The conversion `const char *p = variant;`: the string held, or a null pointer. -/
def asCString (v : JsonVariant) : Option String :=
  match v with
  | .str s => some s
  | _ => none

/-- The conversion of a variant to `JsonObject` followed by the test `if (json_obj)`. -/
def isObject (v : JsonVariant) : Bool :=
  match v with
  | .obj _ => true
  | _ => false

/-- The method `AlpacaDevice::AlpacaReadJson`. -/
def AlpacaReadJson (d : DeviceSettings) (root : JsonVariant) : DeviceSettings :=
  let d :=
    match asCString ((root.get "General").get "Name") with
    | some name => { d with _device_name := strlcpy 33 name }
    | none => d
  match asCString ((root.get "General").get "Description") with
  | some desc => { d with _device_description := strlcpy 129 desc }
  | none => d

/-- The method `AlpacaDevice::AlpacaWriteJson`. -/
def AlpacaWriteJson (d : DeviceSettings) (root : JsonVariant) : JsonVariant :=
  root.set "General"
    ((((JsonVariant.obj []).set "Name" (.str d._device_name)).set "Description"
      (.str d._device_description)).set "UID" (.str d._device_uid))

/-- The method `AlpacaServer::_writeJson`; `_uid` is the member of that name. -/
def _writeJson (cfg : AlpacaServerConfig) (_uid : String) (root : JsonVariant) : JsonVariant :=
  ((((((root.set "Name" (.str cfg._mng_server_name)).set "UID" (.str _uid)).set "TCP_port"
    (.int cfg._port_tcp)).set "UDP_port" (.int cfg._port_udp)).set "SYSLOG_host"
    (.str cfg._syslog_host)).set "LOG_level" (.int cfg._log_level)).set "SERIAL_log"
    (.int (if cfg._serial_log then 1 else 0))

/-- A registered device as `SaveSettings` meets it: the members of `AlpacaDevice` and the
class of the object, which selects the virtual method `AlpacaWriteJson`: `none` stands for a
class that inherits `AlpacaDevice::AlpacaWriteJson`, `some discovered_switches` for the class
`Switch` with that list, whose method overrides it. -/
structure RegisteredDevice where
  settings : DeviceSettings
  discovered_switches : Option (List KasaPlug)

/-- The call `_device[i]->AlpacaWriteJson(json_obj)`. -/
def RegisteredDevice.AlpacaWriteJson (d : RegisteredDevice) (root : JsonVariant) : JsonVariant :=
  match d.discovered_switches with
  | none => Alpaca.AlpacaWriteJson d.settings root
  | some discovered_switches => Switch.AlpacaWriteJson discovered_switches root

/-- The method `AlpacaServer::SaveSettings`: the document that is serialised to the settings
file. -/
def SaveSettings (cfg : AlpacaServerConfig) (_uid : String) (devices : List RegisteredDevice) :
    JsonVariant :=
  devices.foldl
    (fun root d => root.set d.settings._device_uid (d.AlpacaWriteJson (.obj [])))
    (_writeJson cfg _uid (.obj []))

/-- The method `AlpacaServer::LoadSettings` on the document `root` parsed from the settings
file: the configuration, the `AlpacaDevice` members of the registered devices, and the indices
of the devices whose method `AlpacaReadJson` was called. `Switch::AlpacaReadJson`, the only
override, starts with `AlpacaDevice::AlpacaReadJson` and changes neither name nor description
afterwards. -/
def LoadSettings (cfg : AlpacaServerConfig) (devices : List DeviceSettings)
    (root : JsonVariant) : AlpacaServerConfig × List DeviceSettings × List Nat :=
  (_readJson cfg root,
   devices.map (fun d =>
     if isObject (root.get d._device_uid) then AlpacaReadJson d (root.get d._device_uid) else d),
   (List.range devices.length).filter (fun i =>
     match devices.get? i with
     | some d => isObject (root.get d._device_uid)
     | none => false))

/-- The switch device of the program with the name and the description that a POST to its
setup page gave it. -/
def renamedSwitch : DeviceSettings :=
  { _device_uid := "switch-A0B1C2D3E4F500", _device_name := "Roof",
    _device_description := "Roof power" }

/-- The switch device of the program after a restart, before `LoadSettings`: the name set by
`SetDeviceNumber` and the description set by the constructor. -/
def bootSwitch : DeviceSettings :=
  { _device_uid := "switch-A0B1C2D3E4F500", _device_name := "switch-0",
    _device_description := "Alpaca Switch Template" }

/-- A settings document with a sub-object for the device `switch-A0B1C2D3E4F500` that has a
description and no name. -/
def partialDocument : JsonVariant :=
  .obj [("Name", .str "Dome"),
        ("switch-A0B1C2D3E4F500", .obj [("General", .obj [("Description", .str "Roof power")])])]

/-! ## Requests with an argument whose name is empty -/

/-- The request `?=x&ClientID=5&ClientTransactionID=7`: the identification stands behind an
argument with an empty name. -/
def identificationBehindEmptyName : AsyncWebServerRequest :=
  { url := "/api/v1/switch/0/connected"
    args := [("", "x"), ("ClientID", "5"), ("ClientTransactionID", "7")] }

/-- The request `?=x&Connected=true`. -/
def connectedBehindEmptyName : AsyncWebServerRequest :=
  { url := "/api/v1/switch/0/connected", args := [("", "x"), ("Connected", "true")] }

/-- The request `?=x&Name=abc`. -/
def nameBehindEmptyName : AsyncWebServerRequest :=
  { url := "/api/v1/switch/0/setswitchname", args := [("", "x"), ("Name", "abc")] }

/-! ## Lemmas on the slot loops -/

/-- C2 (the code departs from it). With client 5 in slot 1 and slot 2 free, a further connect
request for client 5 is answered with AlreadyConnected (0x40B) and nonetheless writes client
5 and the new transaction id into slot 2; PUT connected with `Connected=true` does the
same. -/
theorem already_connected_connect_populates_free_slot :
    ((AlpacaPutConnect_core emptyDevice (identifiedRequest "/c" "5" "1") 10).1._clients 2).client_id
      = 0 ∧
    (AlpacaPutConnect_core
        (AlpacaPutConnect_core emptyDevice (identifiedRequest "/c" "5" "1") 10).1
        (identifiedRequest "/c" "5" "2") 20).1._rsp_status.error_code.toInt = 0x40B ∧
    ((AlpacaPutConnect_core
        (AlpacaPutConnect_core emptyDevice (identifiedRequest "/c" "5" "1") 10).1
        (identifiedRequest "/c" "5" "2") 20).1._clients 2).client_id = 5 ∧
    ((AlpacaPutConnect_core
        (AlpacaPutConnect_core emptyDevice (identifiedRequest "/c" "5" "1") 10).1
        (identifiedRequest "/c" "5" "2") 20).1._clients 2).client_transaction_id = 2 ∧
    (AlpacaPutConnected_core
        (AlpacaPutConnect_core emptyDevice (identifiedRequest "/c" "5" "1") 10).1
        { url := "/c", args := [("ClientID", "5"), ("ClientTransactionID", "2"),
                                ("Connected", "true")] } 20).1._rsp_status.error_code.toInt
      = 0x40B ∧
    ((AlpacaPutConnected_core
        (AlpacaPutConnect_core emptyDevice (identifiedRequest "/c" "5" "1") 10).1
        { url := "/c", args := [("ClientID", "5"), ("ClientTransactionID", "2"),
                                ("Connected", "true")] } 20).1._clients 2).client_id = 5 := by
  decide

/-- C3 (the code departs from it). From the empty table of `Begin`, two connect requests for
client 5 leave the occupied slots 1 and 2 with the same client id. -/
theorem reachable_table_with_duplicate_client_id :
    ((connectSeq emptyDevice (fun k => identifiedRequest "/c" "5" (Nat.repr (k + 1)))
        (fun _ => 10) 2)._clients 1).client_id = 5 ∧
    ((connectSeq emptyDevice (fun k => identifiedRequest "/c" "5" (Nat.repr (k + 1)))
        (fun _ => 10) 2)._clients 2).client_id = 5 ∧
    (1 : Fin (kAlpacaMaxClients + 1)) ≠ 2 := by
  decide

/-! ## Capacity -/

theorem GetParam_int32_positive (req : AsyncWebServerRequest) (name : String)
    (sp : Spelling_t) :
    ((GetParam_int32 req name 0 sp).1 = true ∧ 0 < (GetParam_int32 req name 0 sp).2) ↔
      presentAndPositive req name sp = true := by
  unfold GetParam_int32 presentAndPositive
  by_cases hidx : 0 ≤ _paramIndex req name sp
  · cases hs : sscanf_i (req.arg (_paramIndex req name sp)) with
    | none => simp [hidx, hs]
    | some v => simp [hidx, hs]
  · simp [hidx]

theorem checkClientDataAndConnection_status (dev : AlpacaDevice) (req : AsyncWebServerRequest)
    (sp : Spelling_t) (ms : Nat) :
    (checkClientDataAndConnection dev req sp ms).1._rsp_status =
      if (GetParam_int32 req "ClientID" 0 sp).1 = false then RspStatusClientIDNotFound req
      else if (GetParam_int32 req "ClientID" 0 sp).2 ≤ 0 then
        RspStatusClientIDInvalid req (GetParam_int32 req "ClientID" 0 sp).2
      else if (GetParam_int32 req "ClientTransactionID" 0 sp).1 = false then
        RspStatusClientTransactionIDNotFound req
      else if (GetParam_int32 req "ClientTransactionID" 0 sp).2 ≤ 0 then
        RspStatusClientTransactionIDInvalid req (GetParam_int32 req "ClientTransactionID" 0 sp).2
      else { error_code := .Ok, error_msg := "", http_status := .kPassed } := rfl

theorem checkClientDataAndConnection_idx (dev : AlpacaDevice) (req : AsyncWebServerRequest)
    (sp : Spelling_t) (ms : Nat) :
    (checkClientDataAndConnection dev req sp ms).2 =
      if (GetParam_int32 req "ClientID" 0 sp).1 = true ∧ (GetParam_int32 req "ClientID" 0 sp).2 > 0 ∧
          (GetParam_int32 req "ClientID" 0 sp).2 ≠ ALPACA_CONNECTION_LESS_CLIENT_ID then
        getClientIdxByClientID dev (GetParam_int32 req "ClientID" 0 sp).2.toNat
      else 0 := rfl

theorem snprintf_of_fits (n : Nat) (text : String) (h : text.data.length ≤ n - 1) :
    snprintf n text = text := by
  unfold snprintf
  rw [List.take_of_length_le h]

theorem snprintf_length_le (n : Nat) (text : String) :
    (snprintf n text).data.length ≤ n - 1 := by
  unfold snprintf
  simp [List.length_take]

theorem fmt_d_asInt32_of_lt (n : Nat) (h : n < 2 ^ 31) : fmt_d (asInt32 n) = Nat.repr n := by
  have hmod : n % 2 ^ 32 = n := Nat.mod_eq_of_lt (by omega)
  unfold asInt32
  rw [hmod, if_pos h]
  unfold fmt_d
  rw [if_neg (by omega)]
  rfl

/-- A plain value of at least 2302 characters fills the response buffer of `_respond`: what
is sent is the opening of the Value field and the first 2302 characters of the value. -/
theorem respond_plain_cut (srv : AlpacaServer) (client : AlpacaClient_t)
    (rsp_status : AlpacaRspStatus_t) (v : String) (hlen : 2302 ≤ v.data.length) :
    (_respond srv client rsp_status v .kAsPlainStringValue).2.content =
      "\x7b \"Value\": " ++ String.mk (v.data.take 2302) := by
  have henv : ∀ v a b c d : String, envelopeText .kAsPlainStringValue v a b c d =
      "\x7b \"Value\": " ++ (v ++ (", \"ClientTransactionID\": " ++ a ++
        ", \"ServerTransactionID\": " ++ b ++
        ", \"ErrorNumber\": " ++ c ++ ", \"ErrorMessage\": \"" ++ d ++ "\"\x7d")) := by
    intro v a b c d
    simp [envelopeText, String.append_assoc]
  apply String.ext
  simp only [_respond, snprintf, henv, String.data_append]
  have h1 : ("\x7b \"Value\": ").data.length = 11 := by decide
  rw [show 2058 + 256 - 1 = ("\x7b \"Value\": ").data.length + 2302 from by rw [h1],
    List.take_append, List.take_append_of_le_length hlen]

/-- C10 as stated fails. With the counter at 2^31 - 1 the incremented value is 2147483648 and
the envelope carries `-2147483648` as ServerTransactionID; and with a value text of 2400
characters the envelope is cut at 2313 characters, before the ServerTransactionID field, so
that only the opening of the Value field is sent. -/
theorem respond_text_without_incremented_id :
    (_respond { _server_transaction_id := 2147483647 }
        { client_id := 5, client_transaction_id := 1, time_ms := 0, max_service_time_ms := 0 }
        okStatus "" .kNoValue).1._server_transaction_id = 2147483648 ∧
    (_respond { _server_transaction_id := 2147483647 }
        { client_id := 5, client_transaction_id := 1, time_ms := 0, max_service_time_ms := 0 }
        okStatus "" .kNoValue).2.content =
      "\x7b \"ClientTransactionID\": 1, \"ServerTransactionID\": -2147483648, " ++
        "\"ErrorNumber\": 0, \"ErrorMessage\": \"\"\x7d" ∧
    (_respond { _server_transaction_id := 2147483647 }
        { client_id := 5, client_transaction_id := 1, time_ms := 0, max_service_time_ms := 0 }
        okStatus "" .kNoValue).2.content ≠
      envelopeText .kNoValue "" "1" (Nat.repr 2147483648) "0" "" ∧
    (_respond { _server_transaction_id := 41 }
        { client_id := 5, client_transaction_id := 1, time_ms := 0, max_service_time_ms := 0 }
        okStatus longValue .kAsPlainStringValue).2.content =
      "\x7b \"Value\": " ++ String.mk (List.replicate 2302 'a') := by
  refine ⟨by decide, by decide, by decide, ?_⟩
  have hlen : 2302 ≤ longValue.data.length := by
    show 2302 ≤ (List.replicate 2400 'a').length
    rw [List.length_replicate]
    decide
  rw [respond_plain_cut _ _ _ longValue hlen]
  show _ ++ String.mk (List.take 2302 (List.replicate 2400 'a')) = _
  rw [List.take_replicate, Nat.min_eq_left (by decide)]

/-- C10, amended. Every call of `_respond` increments the server transaction counter by
exactly 1 modulo 2^32, for every value shape and every response status, error statuses
included; and when the rendered text fits the 2314-byte buffer and the incremented value is
below 2^31, the envelope sent is the format text with the incremented value, in decimal, as
its ServerTransactionID. -/
theorem respond_increments_counter (srv : AlpacaServer) (client : AlpacaClient_t)
    (rsp_status : AlpacaRspStatus_t) (value : String) (jason_string_value : JsonValue_t) :
    (_respond srv client rsp_status value jason_string_value).1._server_transaction_id =
      (srv._server_transaction_id + 1) % 2 ^ 32 ∧
    ((envelopeText jason_string_value value (fmt_d (asInt32 client.client_transaction_id))
        (Nat.repr ((srv._server_transaction_id + 1) % 2 ^ 32))
        (fmt_d rsp_status.error_code.toInt) rsp_status.error_msg).data.length ≤ 2058 + 256 - 1 →
      (srv._server_transaction_id + 1) % 2 ^ 32 < 2 ^ 31 →
      (_respond srv client rsp_status value jason_string_value).2.content =
        envelopeText jason_string_value value (fmt_d (asInt32 client.client_transaction_id))
          (Nat.repr ((srv._server_transaction_id + 1) % 2 ^ 32))
          (fmt_d rsp_status.error_code.toInt) rsp_status.error_msg) := by
  refine ⟨rfl, fun hfit hlt => ?_⟩
  show snprintf (2058 + 256) _ = _
  rw [fmt_d_asInt32_of_lt _ hlt]
  exact snprintf_of_fits _ _ hfit

set_option maxRecDepth 20000 in
theorem respond_increments_counter_witness :
    (_respond { _server_transaction_id := 41 }
        { client_id := 5, client_transaction_id := 1, time_ms := 0, max_service_time_ms := 0 }
        (RspStatusClientIDNotFound (identifiedRequest "/x" "" "")) "true"
        .kAsPlainStringValue).2.content =
      envelopeText .kAsPlainStringValue "true" (fmt_d (asInt32 1)) (Nat.repr ((41 + 1) % 2 ^ 32))
        (fmt_d (RspStatusClientIDNotFound (identifiedRequest "/x" "" "")).error_code.toInt)
        (RspStatusClientIDNotFound (identifiedRequest "/x" "" "")).error_msg :=
  (respond_increments_counter { _server_transaction_id := 41 }
    { client_id := 5, client_transaction_id := 1, time_ms := 0, max_service_time_ms := 0 }
    (RspStatusClientIDNotFound (identifiedRequest "/x" "" "")) "true"
    .kAsPlainStringValue).2 (by decide) (by decide)

/-- C12 (the code departs from it). With the counter at 2^31 - 1 and a text that fits the
buffer, the envelope has its four fields and its Value field, but the ServerTransactionID
field carries `-2147483648` where the server counter is 2147483648: the `uint32_t` counter is
converted with `%i`. -/
theorem respond_prints_counter_signed :
    (_respond { _server_transaction_id := 2147483647 }
        { client_id := 5, client_transaction_id := 7, time_ms := 0, max_service_time_ms := 0 }
        (RspStatusClientIDNotFound (identifiedRequest "/x" "" "")) "abc"
        .kAsJsonStringValue).1._server_transaction_id = 2147483648 ∧
    (_respond { _server_transaction_id := 2147483647 }
        { client_id := 5, client_transaction_id := 7, time_ms := 0, max_service_time_ms := 0 }
        (RspStatusClientIDNotFound (identifiedRequest "/x" "" "")) "abc"
        .kAsJsonStringValue).2.content =
      "\x7b \"Value\": \"abc\", \"ClientTransactionID\": 7, " ++
        "\"ServerTransactionID\": -2147483648, \"ErrorNumber\": 1025, " ++
        "\"ErrorMessage\": \"/x - 'ClientID' not found\"\x7d" := by
  decide

/-- A quoted value of at least 2301 characters fills the response buffer of `_respond`: what
is sent is the opening of the Value field, the quote and the first 2301 characters of the
value. -/
theorem respond_json_cut (srv : AlpacaServer) (client : AlpacaClient_t)
    (rsp_status : AlpacaRspStatus_t) (v : String) (hlen : 2301 ≤ v.data.length) :
    (_respond srv client rsp_status v .kAsJsonStringValue).2.content =
      "\x7b \"Value\": \"" ++ String.mk (v.data.take 2301) := by
  have henv : ∀ v a b c d : String, envelopeText .kAsJsonStringValue v a b c d =
      "\x7b \"Value\": \"" ++ (v ++ ("\", \"ClientTransactionID\": " ++ a ++
        ", \"ServerTransactionID\": " ++ b ++
        ", \"ErrorNumber\": " ++ c ++ ", \"ErrorMessage\": \"" ++ d ++ "\"\x7d")) := by
    intro v a b c d
    simp [envelopeText, String.append_assoc]
  apply String.ext
  simp only [_respond, snprintf, henv, String.data_append]
  have h1 : ("\x7b \"Value\": \"").data.length = 12 := by decide
  rw [show 2058 + 256 - 1 = ("\x7b \"Value\": \"").data.length + 2301 from by rw [h1],
    List.take_append, List.take_append_of_le_length hlen]

/-- C13 as stated fails. A value of 2400 characters rendered with shape kAsJsonStringValue is
sent as the opening quote and its first 2301 characters only: the closing quote and the last
99 characters of the value are not emitted. -/
theorem respond_long_quoted_value_is_cut :
    (_respond { _server_transaction_id := 41 }
        { client_id := 5, client_transaction_id := 1, time_ms := 0, max_service_time_ms := 0 }
        okStatus longValue .kAsJsonStringValue).2.content =
      "\x7b \"Value\": \"" ++ String.mk (List.replicate 2301 'a') := by
  have hlen : 2301 ≤ longValue.data.length := by
    show 2301 ≤ (List.replicate 2400 'a').length
    rw [List.length_replicate]
    decide
  rw [respond_json_cut _ _ _ longValue hlen]
  show _ ++ String.mk (List.take 2301 (List.replicate 2400 'a')) = _
  rw [List.take_replicate, Nat.min_eq_left (by decide)]

/-- C13, amended. For every string `v` whose rendered envelope fits the 2314-byte buffer,
shape kAsJsonStringValue emits the Value field as a double quote, the characters of `v`
verbatim and a double quote, and shape kAsPlainStringValue emits the characters of `v`
verbatim and unquoted; nothing in `v` is escaped. (`tail` is the rest of the envelope, from
the ClientTransactionID field on.) -/
theorem respond_emits_value_verbatim (srv : AlpacaServer) (client : AlpacaClient_t)
    (rsp_status : AlpacaRspStatus_t) (v tail : String)
    (htail : tail = "\"ClientTransactionID\": " ++ fmt_d (asInt32 client.client_transaction_id) ++
      ", \"ServerTransactionID\": " ++
      fmt_d (asInt32 ((srv._server_transaction_id + 1) % 2 ^ 32)) ++
      ", \"ErrorNumber\": " ++ fmt_d rsp_status.error_code.toInt ++
      ", \"ErrorMessage\": \"" ++ rsp_status.error_msg ++ "\"\x7d") :
    (("\x7b \"Value\": \"" ++ v ++ "\", " ++ tail).data.length ≤ 2058 + 256 - 1 →
      (_respond srv client rsp_status v .kAsJsonStringValue).2.content =
        "\x7b \"Value\": \"" ++ v ++ "\", " ++ tail) ∧
    (("\x7b \"Value\": " ++ v ++ ", " ++ tail).data.length ≤ 2058 + 256 - 1 →
      (_respond srv client rsp_status v .kAsPlainStringValue).2.content =
        "\x7b \"Value\": " ++ v ++ ", " ++ tail) := by
  subst htail
  have hj : ∀ a b c d : String, envelopeText .kAsJsonStringValue v a b c d =
      "\x7b \"Value\": \"" ++ v ++ "\", " ++ ("\"ClientTransactionID\": " ++ a ++
        ", \"ServerTransactionID\": " ++ b ++
        ", \"ErrorNumber\": " ++ c ++ ", \"ErrorMessage\": \"" ++ d ++ "\"\x7d") := by
    intro a b c d
    have h2 : "\", \"ClientTransactionID\": " = "\", " ++ "\"ClientTransactionID\": " := by
      decide
    simp only [envelopeText, String.append_assoc, reduceCtorEq, if_false, if_true]
    rw [h2, String.append_assoc]
  have hp : ∀ a b c d : String, envelopeText .kAsPlainStringValue v a b c d =
      "\x7b \"Value\": " ++ v ++ ", " ++ ("\"ClientTransactionID\": " ++ a ++
        ", \"ServerTransactionID\": " ++ b ++
        ", \"ErrorNumber\": " ++ c ++ ", \"ErrorMessage\": \"" ++ d ++ "\"\x7d") := by
    intro a b c d
    have h2 : ", \"ClientTransactionID\": " = ", " ++ "\"ClientTransactionID\": " := by
      decide
    simp only [envelopeText, String.append_assoc, reduceCtorEq, if_false, if_true]
    rw [h2, String.append_assoc]
  constructor
  · intro hfit
    show snprintf (2058 + 256) (envelopeText _ _ _ _ _ _) = _
    rw [hj]
    exact snprintf_of_fits _ _ hfit
  · intro hfit
    show snprintf (2058 + 256) (envelopeText _ _ _ _ _ _) = _
    rw [hp]
    exact snprintf_of_fits _ _ hfit

set_option maxRecDepth 20000 in
theorem respond_emits_value_verbatim_witness :
    (_respond { _server_transaction_id := 41 }
        { client_id := 5, client_transaction_id := 1, time_ms := 0, max_service_time_ms := 0 }
        okStatus "say \"hi\"" .kAsJsonStringValue).2.content =
      "\x7b \"Value\": \"" ++ "say \"hi\"" ++ "\", " ++
        ("\"ClientTransactionID\": 1, \"ServerTransactionID\": 42, " ++
         "\"ErrorNumber\": 0, \"ErrorMessage\": \"\"\x7d") :=
  (respond_emits_value_verbatim { _server_transaction_id := 41 }
    { client_id := 5, client_transaction_id := 1, time_ms := 0, max_service_time_ms := 0 }
    okStatus "say \"hi\""
    ("\"ClientTransactionID\": 1, \"ServerTransactionID\": 42, " ++
         "\"ErrorNumber\": 0, \"ErrorMessage\": \"\"\x7d") (by decide)).1 (by decide)

/-! ## The parameter codec -/

theorem equalsIgnoreCase_True (s : String) :
    equalsIgnoreCase s "True" = equalsIgnoreCase s "true" := rfl

theorem equalsIgnoreCase_False (s : String) :
    equalsIgnoreCase s "False" = equalsIgnoreCase s "false" := rfl

theorem equalsIgnoreCase_nonempty_of_true (s : String)
    (h : equalsIgnoreCase s "true" = true ∨ equalsIgnoreCase s "false" = true) :
    s.data.isEmpty = false := by
  cases hs : s.data with
  | nil =>
    exfalso
    rcases h with h | h
    · simp [equalsIgnoreCase, hs] at h
    · simp [equalsIgnoreCase, hs] at h
  | cons c cs => rfl

/-- The bool overload of `GetParam` without its emptiness test, which the two comparisons
subsume. -/
theorem GetParam_bool_eq (req : AsyncWebServerRequest) (name : String) (value : Bool)
    (sp : Spelling_t) :
    GetParam_bool req name value sp =
      if 0 ≤ _paramIndex req name sp then
        if equalsIgnoreCase (req.arg (_paramIndex req name sp)) "true" = true then (true, true)
        else if equalsIgnoreCase (req.arg (_paramIndex req name sp)) "false" = true then
          (true, false)
        else (false, value)
      else (false, value) := by
  simp only [GetParam_bool, equalsIgnoreCase_True, equalsIgnoreCase_False, ge_iff_le]
  by_cases hidx : 0 ≤ _paramIndex req name sp
  · rw [if_pos hidx, if_pos hidx]
    by_cases ht : equalsIgnoreCase (req.arg (_paramIndex req name sp)) "true" = true
    · rw [equalsIgnoreCase_nonempty_of_true _ (Or.inl ht)]
      simp [ht]
    · by_cases hf : equalsIgnoreCase (req.arg (_paramIndex req name sp)) "false" = true
      · rw [equalsIgnoreCase_nonempty_of_true _ (Or.inr hf)]
        simp [ht, hf]
      · simp [ht, hf]
  · rw [if_neg hidx, if_neg hidx]

/-- C15 as stated fails. With the arguments `=x&ClientID=5` the first argument named
"ClientID" has index 1, yet `_paramIndex` returns -1 under both policies: the scan ends at the
argument with the empty name. -/
theorem paramIndex_stops_at_empty_name :
    firstMatchIndexFrom (fun arg_name => equals arg_name "ClientID")
      [("", "x"), ("ClientID", "5")] 0 = 1 ∧
    firstMatchIndexFrom (fun arg_name => equalsIgnoreCase arg_name "ClientID")
      [("", "x"), ("ClientID", "5")] 0 = 1 ∧
    _paramIndex { url := "/c", args := [("", "x"), ("ClientID", "5")] } "ClientID" .kStrict
      = -1 ∧
    _paramIndex { url := "/c", args := [("", "x"), ("ClientID", "5")] } "ClientID" .kIgnoreCase
      = -1 := by
  decide

theorem paramIndexFrom_eq_firstMatch (name : String) (sp : Spelling_t)
    (args : List (String × String)) :
    ∀ i, _paramIndexFrom name sp args i =
      firstMatchIndexFrom
        (fun arg_name => if sp = .kStrict then equals arg_name name
          else equalsIgnoreCase arg_name name)
        (examinedArgs args) i := by
  induction args with
  | nil => intro i; rfl
  | cons a rest ih =>
    intro i
    obtain ⟨arg_name, v⟩ := a
    by_cases hne : arg_name = ""
    · simp [_paramIndexFrom, examinedArgs, firstMatchIndexFrom, hne]
    · have ih' := ih (i + 1)
      unfold examinedArgs at ih'
      simp only [_paramIndexFrom, examinedArgs, firstMatchIndexFrom, hne, ne_eq,
        not_false_eq_true, if_true, decide_True, List.takeWhile_cons_of_pos, ih']

theorem examinedArgs_of_nonempty (args : List (String × String))
    (h : ∀ a ∈ args, a.1 ≠ "") : examinedArgs args = args := by
  unfold examinedArgs
  rw [List.takeWhile_eq_self_iff]
  intro a ha
  simpa using h a ha

/-- C15, amended. `_paramIndex` examines the arguments up to the first one with an empty name.
Under kStrict it returns the index of the first of them whose name equals the requested name
byte for byte, under kIgnoreCase the index of the first of them whose name equals it ignoring
ASCII letter case, and -1 when none of them matches; when no argument has an empty name these
are the first match and -1 over the whole argument list. A non-empty name that differs from
the requested one only in letter case is found under kIgnoreCase and not under kStrict. -/
theorem paramIndex_is_first_match_among_examined (req : AsyncWebServerRequest)
    (name : String) :
    _paramIndex req name .kStrict =
      firstMatchIndexFrom (fun arg_name => equals arg_name name) (examinedArgs req.args) 0 ∧
    _paramIndex req name .kIgnoreCase =
      firstMatchIndexFrom (fun arg_name => equalsIgnoreCase arg_name name)
        (examinedArgs req.args) 0 ∧
    ((∃ a ∈ req.args, a.1 = "") ∨
      (_paramIndex req name .kStrict =
        firstMatchIndexFrom (fun arg_name => equals arg_name name) req.args 0 ∧
       _paramIndex req name .kIgnoreCase =
        firstMatchIndexFrom (fun arg_name => equalsIgnoreCase arg_name name) req.args 0)) ∧
    (∀ (arg_name v : String), arg_name ≠ "" → equalsIgnoreCase arg_name name = true →
      equals arg_name name = false →
      _paramIndex { url := req.url, args := [(arg_name, v)] } name .kIgnoreCase = 0 ∧
      _paramIndex { url := req.url, args := [(arg_name, v)] } name .kStrict = -1) := by
  have hs : _paramIndex req name .kStrict =
      firstMatchIndexFrom (fun arg_name => equals arg_name name) (examinedArgs req.args) 0 := by
    unfold _paramIndex
    rw [paramIndexFrom_eq_firstMatch]
    simp
  have hi : _paramIndex req name .kIgnoreCase =
      firstMatchIndexFrom (fun arg_name => equalsIgnoreCase arg_name name)
        (examinedArgs req.args) 0 := by
    unfold _paramIndex
    rw [paramIndexFrom_eq_firstMatch]
    simp
  refine ⟨hs, hi, ?_, ?_⟩
  · by_cases hex : ∃ a ∈ req.args, a.1 = ""
    · exact Or.inl hex
    · right
      have hall : ∀ a ∈ req.args, a.1 ≠ "" := fun a ha h => hex ⟨a, ha, h⟩
      rw [hs, hi, examinedArgs_of_nonempty _ hall]
      exact ⟨rfl, rfl⟩
  · intro arg_name v hne hic hst
    constructor
    · simp [_paramIndex, _paramIndexFrom, hne, hic]
    · simp [_paramIndex, _paramIndexFrom, hne, hst]

/-! ## Decimal texts -/

theorem digitValue_digitChar (d : Nat) (h : d < 10) :
    digitValue 10 (Nat.digitChar d) = some d := by
  interval_cases d <;> rfl

theorem digitChar_not_space_or_sign (d : Nat) (h : d < 10) (cs : List Char) :
    isspace (Nat.digitChar d) = false ∧
      scanSign (Nat.digitChar d :: cs) = (false, Nat.digitChar d :: cs) := by
  interval_cases d <;> exact ⟨rfl, rfl⟩

/-- Scanning the decimal digits that `Nat.toDigitsCore` puts in front of `ds` reads the
number back and continues with `ds`. -/
theorem scanDigits_toDigitsCore : ∀ (fuel n : Nat) (ds : List Char), n < fuel →
    ∃ L, 1 ≤ L ∧ ∀ k acc, scanDigits 10 (Nat.toDigitsCore 10 fuel n ds) k acc =
      scanDigits 10 ds (k + L) (acc * 10 ^ L + n) := by
  intro fuel
  induction fuel with
  | zero => intro n ds h; exact absurd h (Nat.not_lt_zero n)
  | succ fuel ih =>
    intro n ds hn
    have hd := digitValue_digitChar (n % 10) (Nat.mod_lt n (by decide))
    by_cases h0 : n / 10 = 0
    · refine ⟨1, le_rfl, fun k acc => ?_⟩
      have hlt : n < 10 := by omega
      simp only [Nat.toDigitsCore, h0, if_true, scanDigits, hd]
      rw [Nat.mod_eq_of_lt hlt, pow_one]
    · obtain ⟨L, hL, hscan⟩ := ih (n / 10) (Nat.digitChar (n % 10) :: ds) (by omega)
      refine ⟨L + 1, by omega, fun k acc => ?_⟩
      simp only [Nat.toDigitsCore, h0, if_false]
      rw [hscan k acc]
      simp only [scanDigits, hd]
      have e1 : k + L + 1 = k + (L + 1) := by omega
      have e2 : (acc * 10 ^ L + n / 10) * 10 + n % 10 = acc * 10 ^ (L + 1) + n := by
        have := Nat.div_add_mod n 10
        rw [pow_succ]
        nlinarith
      rw [e1, e2]

theorem toDigitsCore_head : ∀ (fuel n : Nat) (ds : List Char), n < fuel →
    ∃ d cs, d < 10 ∧ Nat.toDigitsCore 10 fuel n ds = Nat.digitChar d :: cs := by
  intro fuel
  induction fuel with
  | zero => intro n ds h; exact absurd h (Nat.not_lt_zero n)
  | succ fuel ih =>
    intro n ds hn
    by_cases h0 : n / 10 = 0
    · exact ⟨n % 10, ds, Nat.mod_lt n (by decide), by simp [Nat.toDigitsCore, h0]⟩
    · obtain ⟨d, cs, hd, h⟩ := ih (n / 10) (Nat.digitChar (n % 10) :: ds) (by omega)
      exact ⟨d, cs, hd, by simp only [Nat.toDigitsCore, h0, if_false]; exact h⟩

theorem repr_data (n : Nat) : (Nat.repr n).data = Nat.toDigits 10 n := rfl

/-- The conversion `%d` reads the decimal text of `n` back as `n`. -/
theorem sscanf_d_repr (n : Nat) : sscanf_d (Nat.repr n) = some (clampInt32 (n : Int)) := by
  obtain ⟨d, cs, hd, hhead⟩ := toDigitsCore_head (n + 1) n [] (Nat.lt_succ_self n)
  obtain ⟨L, hL, hscan⟩ := scanDigits_toDigitsCore (n + 1) n [] (Nat.lt_succ_self n)
  have hsc := hscan 0 0
  simp only [scanDigits, Nat.zero_add, Nat.zero_mul] at hsc
  obtain ⟨hsp, hsg⟩ := digitChar_not_space_or_sign d hd cs
  have hdw : List.dropWhile isspace (Nat.toDigits 10 n) = Nat.toDigits 10 n := by
    unfold Nat.toDigits
    rw [hhead, List.dropWhile_cons_of_neg (by simp [hsp])]
  have hss : scanSign (Nat.toDigits 10 n) = (false, Nat.toDigits 10 n) := by
    unfold Nat.toDigits
    rw [hhead]
    exact hsg
  have hsd : scanDigits 10 (Nat.toDigits 10 n) 0 0 = (L, n) := hsc
  unfold sscanf_d
  rw [repr_data, hdw, hss]
  simp only [hsd]
  rw [if_neg (by omega)]
  simp

/-- The conversion `%d` reads a minus sign and the decimal text of `n` as `-n`. -/
theorem sscanf_d_neg_repr (n : Nat) :
    sscanf_d ("-" ++ Nat.repr n) = some (clampInt32 (-(n : Int))) := by
  obtain ⟨L, hL, hscan⟩ := scanDigits_toDigitsCore (n + 1) n [] (Nat.lt_succ_self n)
  have hsc := hscan 0 0
  simp only [scanDigits, Nat.zero_add, Nat.zero_mul] at hsc
  have hsd : scanDigits 10 (Nat.toDigits 10 n) 0 0 = (L, n) := hsc
  have hdata : ("-" ++ Nat.repr n).data = '-' :: Nat.toDigits 10 n := by
    rw [String.data_append, repr_data]
    rfl
  have hdw : List.dropWhile isspace ('-' :: Nat.toDigits 10 n) = '-' :: Nat.toDigits 10 n :=
    List.dropWhile_cons_of_neg (by decide)
  unfold sscanf_d
  rw [hdata, hdw]
  simp only [scanSign, hsd]
  rw [if_neg (by omega)]
  simp

theorem sscanf_d_of_noLeadingInteger (s : String) (h : noLeadingInteger s = true) :
    sscanf_d s = none := by
  unfold noLeadingInteger at h
  unfold sscanf_d
  cases hss : scanSign (List.dropWhile isspace s.data) with
  | mk neg rest =>
    rw [hss] at h
    cases rest with
    | nil => simp [scanDigits]
    | cons c cs =>
      have hc : digitValue 10 c = none := by
        cases hv : digitValue 10 c with
        | none => rfl
        | some v => simp [hv] at h
      simp [scanDigits, hc]

/-- C16. For a parameter that is present, `GetParam` for uint32 converts the value text as a
signed decimal integer and rejects negatives: the decimal text of `n` with `0 ≤ n < 2^31`
gives found with value `n` (0 included); a minus sign followed by the decimal text of a
positive number, and a text with no leading integer, give not-found and leave the output
value as it was. -/
theorem GetParam_uint32_reads_nonnegative_decimal (req : AsyncWebServerRequest)
    (name : String) (value : Nat) (sp : Spelling_t) (hidx : 0 ≤ _paramIndex req name sp) :
    (∀ n, n < 2 ^ 31 → req.arg (_paramIndex req name sp) = Nat.repr n →
      GetParam_uint32 req name value sp = (true, n)) ∧
    (∀ n, 0 < n → req.arg (_paramIndex req name sp) = "-" ++ Nat.repr n →
      GetParam_uint32 req name value sp = (false, value)) ∧
    (noLeadingInteger (req.arg (_paramIndex req name sp)) = true →
      GetParam_uint32 req name value sp = (false, value)) := by
  refine ⟨fun n hn htext => ?_, fun n hn htext => ?_, fun hno => ?_⟩
  · have hcl : clampInt32 (n : Int) = (n : Int) := by
      unfold clampInt32
      rw [if_neg (by omega), if_neg (by omega)]
    unfold GetParam_uint32
    simp only [ge_iff_le, hidx, if_true, htext, sscanf_d_repr, hcl]
    simp
  · have hneg : clampInt32 (-(n : Int)) < 0 := by
      unfold clampInt32
      split_ifs <;> omega
    unfold GetParam_uint32
    simp only [ge_iff_le, hidx, if_true, htext, sscanf_d_neg_repr]
    rw [if_neg (by omega)]
  · unfold GetParam_uint32
    simp only [ge_iff_le, hidx, if_true, sscanf_d_of_noLeadingInteger _ hno]

theorem GetParam_uint32_reads_nonnegative_decimal_witness :
    GetParam_uint32 (identifiedRequest "/c" "0" "17") "ClientID" 9 .kStrict = (true, 0) ∧
    GetParam_uint32 (identifiedRequest "/c" "-3" "abc") "ClientID" 9 .kStrict = (false, 9) :=
  ⟨(GetParam_uint32_reads_nonnegative_decimal (identifiedRequest "/c" "0" "17") "ClientID" 9
      .kStrict (by decide)).1 0 (by decide) (by decide),
   (GetParam_uint32_reads_nonnegative_decimal (identifiedRequest "/c" "-3" "abc") "ClientID" 9
      .kStrict (by decide)).2.1 3 (by decide) (by decide)⟩

/-! ## String parameters -/

theorem take_set_self {α : Type} (l : List α) (m : Nat) (a : α) :
    (l.set m a).take m = l.take m := by
  rw [List.set_take]
  apply List.set_eq_of_length_le
  simp [List.length_take]

theorem take_set_of_le {α : Type} (l : List α) (m k : Nat) (a : α) (h : m ≤ k) :
    (l.set k a).take m = l.take m := by
  rcases Nat.lt_or_eq_of_le h with hlt | heq
  · exact List.take_set_of_lt a l hlt
  · subst heq
    exact take_set_self l m a

/-- What `toCharArray` leaves in a buffer of `n ≥ 1` bytes: the first `min len (n - 1)` bytes
of the string and a terminator after them. -/
theorem toCharArray_spec (s : String) (buf : List Char) (n : Nat) (hn : 1 ≤ n)
    (hbuf : buf.length = n) :
    (toCharArray s buf n).length = n ∧
    (toCharArray s buf n).take (min s.data.length (n - 1)) =
      s.data.take (min s.data.length (n - 1)) ∧
    (toCharArray s buf n)[min s.data.length (n - 1)]? = some NUL := by
  unfold toCharArray
  rw [if_neg (by omega)]
  by_cases hs : s.data.length ≤ 0
  · have h0 : s.data.length = 0 := by omega
    rw [if_pos hs, h0]
    simp only [Nat.zero_min, List.take_zero, List.length_set, hbuf, true_and]
    rw [List.getElem?_set_self (by omega)]
  · rw [if_neg hs, Nat.min_comm (n - 1) s.data.length]
    have hm : min s.data.length (n - 1) ≤ s.data.length := Nat.min_le_left _ _
    have hm' : min s.data.length (n - 1) ≤ n - 1 := Nat.min_le_right _ _
    have hlen : (List.take (min s.data.length (n - 1)) s.data ++
        List.drop (min s.data.length (n - 1)) buf).length = n := by
      rw [List.length_append, List.length_take, List.length_drop, hbuf, Nat.min_eq_left hm]
      omega
    refine ⟨by rw [List.length_set, hlen], ?_, ?_⟩
    · rw [take_set_self, List.take_append_of_le_length (by rw [List.length_take]; omega),
        List.take_take, Nat.min_self]
    · rw [List.getElem?_set_self (by rw [hlen]; omega)]

/-! ## Discovery -/

/-- On a literal without terminator bytes, `strncmp` over the length of the literal tests
that the first bytes of the other operand are the literal. -/
theorem strncmpEq_literal : ∀ (lit : List Char), (∀ c ∈ lit, c ≠ NUL) → ∀ a : List Char,
    (strncmpEq a lit lit.length = true ↔ a.take lit.length = lit) := by
  intro lit
  induction lit with
  | nil => intro _ a; simp [strncmpEq]
  | cons c lit ih =>
    intro hnul a
    have hc : c ≠ NUL := hnul c (List.mem_cons_self _ _)
    have ih' := ih (fun x hx => hnul x (List.mem_cons_of_mem _ hx))
    cases a with
    | nil =>
      simp only [List.length_cons, strncmpEq, List.headD_nil, List.headD_cons, ne_eq,
        List.take_nil]
      rw [if_pos (fun h => hc h.symm)]
      simp
    | cons x xs =>
      simp only [List.length_cons, strncmpEq, List.headD_cons, ne_eq, List.tail_cons,
        List.take_succ_cons, List.cons.injEq]
      by_cases hx : x = c
      · subst hx
        rw [if_neg (by simp), if_neg hc, ih' xs]
        simp
      · rw [if_pos hx]
        simp [hx]

theorem valid_iff (data : List Char) :
    AlpacaDiscoveryPacket.valid data = true ↔ data.take 15 = "alpacadiscovery".data := by
  have h := strncmpEq_literal "alpacadiscovery".data (by decide) data
  exact h

/-- C18. `OnAlpacaDiscovery` replies exactly when the datagram has at least 16 bytes and
its first 15 bytes are the literal "alpacadiscovery", byte for byte; a shorter datagram and a
datagram with another header get no reply, whatever the version byte and the bytes after it
are. -/
theorem discovery_replies_iff_valid_header (cfg : AlpacaServerConfig) (data : List Char) :
    (OnAlpacaDiscovery cfg data).isSome = true ↔
      (16 ≤ data.length ∧ data.take 15 = "alpacadiscovery".data) := by
  unfold OnAlpacaDiscovery
  simp only
  by_cases h0 : data.length = 0
  · rw [if_pos h0]
    simp
    omega
  · rw [if_neg h0]
    by_cases h16 : data.length < 16
    · rw [if_pos h16]
      simp
      omega
    · rw [if_neg h16]
      by_cases hv : AlpacaDiscoveryPacket.valid data = true
      · rw [if_pos hv]
        simp only [Option.isSome_some, true_iff]
        exact ⟨by omega, (valid_iff data).mp hv⟩
      · rw [if_neg hv]
        simp only [Option.isSome_none, Bool.false_eq_true, false_iff, not_and]
        intro _ h
        exact hv ((valid_iff data).mpr h)

theorem port_text_length (p : Nat) (hp : p ≤ 65535) :
    ("\x7b\"AlpacaPort\":" ++ Nat.repr p ++ "\x7d").data.length ≤ 20 := by
  have h := Nat.repr_length p 5 (by decide) (by omega)
  have h1 : ("\x7b\"AlpacaPort\":").data.length = 14 := by decide
  have h2 : ("\x7d").data.length = 1 := by decide
  simp only [String.data_append, List.length_append, h1, h2]
  have h3 : (Nat.repr p).data.length = (Nat.repr p).length := rfl
  omega

/-- C19. For every configured TCP port `p` in 0..65535, the reply to a valid discovery
datagram is exactly the text `{"AlpacaPort":p}` with `p` in decimal: the 32-byte reply buffer
does not cut it, and the number of bytes sent is the length of that text. -/
theorem discovery_reply_is_port_text (cfg : AlpacaServerConfig) (data : List Char)
    (hp : cfg._port_tcp ≤ 65535) (hlen : 16 ≤ data.length)
    (hhead : data.take 15 = "alpacadiscovery".data) :
    OnAlpacaDiscovery cfg data =
      some ("\x7b\"AlpacaPort\":" ++ Nat.repr cfg._port_tcp ++ "\x7d").data ∧
    ((OnAlpacaDiscovery cfg data).map List.length) =
      some ("\x7b\"AlpacaPort\":" ++ Nat.repr cfg._port_tcp ++ "\x7d").data.length := by
  have hv := (valid_iff data).mpr hhead
  have hfmt : fmt_d (cfg._port_tcp : Int) = Nat.repr cfg._port_tcp := by
    unfold fmt_d
    rw [if_neg (by omega)]
    rfl
  have hfit := port_text_length cfg._port_tcp hp
  have hr : OnAlpacaDiscovery cfg data =
      some ("\x7b\"AlpacaPort\":" ++ Nat.repr cfg._port_tcp ++ "\x7d").data := by
    unfold OnAlpacaDiscovery
    simp only
    rw [if_neg (by omega), if_neg (by omega), if_pos hv, hfmt,
      snprintf_of_fits _ _ (by omega), List.take_length]
  exact ⟨hr, by rw [hr]; rfl⟩

theorem discovery_reply_is_port_text_witness :
    OnAlpacaDiscovery sampleConfig sampleDatagram = some "\x7b\"AlpacaPort\":80\x7d".data :=
  (discovery_reply_is_port_text sampleConfig sampleDatagram (by decide) (by decide)
    (by decide)).1

/-! ## Settings -/

/-- C20 as stated fails. Reading the empty document into a configuration with log level
`SLOG_WARNING` (4) and the serial log off sets the log level to `SLOG_DEBUG` (7) and turns the
serial log on, although the keys LOG_level and SERIAL_log are absent. -/
theorem readJson_resets_log_settings :
    (JsonVariant.obj []).get "LOG_level" = .null ∧
    (JsonVariant.obj []).get "SERIAL_log" = .null ∧
    quietConfig._log_level = 4 ∧ quietConfig._serial_log = false ∧
    (_readJson quietConfig (.obj []))._log_level = 7 ∧
    (_readJson quietConfig (.obj []))._serial_log = true := by
  refine ⟨rfl, rfl, rfl, rfl, ?_, ?_⟩ <;> decide

/-- C20, amended. When `_readJson` reads a document, the server-level fields are merged one
by one: if the key Name, TCP_port, UDP_port or SYSLOG_host is absent, the corresponding
field keeps the value it had before the read; if LOG_level is absent the log level becomes
`SLOG_DEBUG`, and if SERIAL_log is absent the serial log is switched on, whatever they were
before. -/
theorem readJson_merges_fields_independently (cfg : AlpacaServerConfig) (root : JsonVariant) :
    (root.get "Name" ≠ .null ∨ (_readJson cfg root)._mng_server_name = cfg._mng_server_name) ∧
    (root.get "TCP_port" ≠ .null ∨ (_readJson cfg root)._port_tcp = cfg._port_tcp) ∧
    (root.get "UDP_port" ≠ .null ∨ (_readJson cfg root)._port_udp = cfg._port_udp) ∧
    (root.get "SYSLOG_host" ≠ .null ∨ (_readJson cfg root)._syslog_host = cfg._syslog_host) ∧
    (root.get "LOG_level" ≠ .null ∨ (_readJson cfg root)._log_level = SLOG_DEBUG) ∧
    (root.get "SERIAL_log" ≠ .null ∨ (_readJson cfg root)._serial_log = true) := by
  refine ⟨?_, ?_, ?_, ?_, ?_, ?_⟩
  · by_cases h : root.get "Name" = .null
    · right; simp [_readJson, h, orString]
    · exact Or.inl h
  · by_cases h : root.get "TCP_port" = .null
    · right; simp [_readJson, h, orUInt16]
    · exact Or.inl h
  · by_cases h : root.get "UDP_port" = .null
    · right; simp [_readJson, h, orUInt16]
    · exact Or.inl h
  · by_cases h : root.get "SYSLOG_host" = .null
    · right; simp [_readJson, h, orString]
    · exact Or.inl h
  · by_cases h : root.get "LOG_level" = .null
    · right
      simp only [_readJson, h, orInt]
      decide
    · exact Or.inl h
  · by_cases h : root.get "SERIAL_log" = .null
    · right; simp [_readJson, h, orInt]
    · exact Or.inl h

/-! ## One envelope per request -/

theorem respond_renderedWith (srv : AlpacaServer) (client : AlpacaClient_t)
    (rsp_status : AlpacaRspStatus_t) (value : String) (jason_string_value : JsonValue_t) :
    (_respond srv client rsp_status value jason_string_value).1._server_transaction_id =
      (srv._server_transaction_id + 1) % 2 ^ 32 ∧
    renderedWith ((srv._server_transaction_id + 1) % 2 ^ 32)
      (_respond srv client rsp_status value jason_string_value).2 :=
  ⟨rfl, client, rsp_status, value, jason_string_value, rfl⟩

/-- Every base-device handler hands exactly one response to the transport, an envelope
rendered with the incremented server transaction counter, and leaves the counter
incremented once. -/
theorem handleBase_renders_once (cmd : BaseCommand) (srv : AlpacaServer)
    (inst : DeviceInstance) (req : AsyncWebServerRequest) (ms : Nat) :
    ∃ r, (handleBase cmd srv inst req ms).2.2 = [r] ∧
      renderedWith ((srv._server_transaction_id + 1) % 2 ^ 32) r ∧
      (handleBase cmd srv inst req ms).1._server_transaction_id =
        (srv._server_transaction_id + 1) % 2 ^ 32 := by
  cases cmd <;> exact ⟨_, rfl, (respond_renderedWith srv _ _ _ _).2, rfl⟩

/-- C11 as stated fails. Two read requests, to two devices, on a server whose counter is at
2^31 - 2 are answered with one envelope each; the first carries ServerTransactionID
2147483647 and the second -2147483648, which is not the first increased by 1. -/
theorem consecutive_envelopes_not_increasing :
    (serve { _server_transaction_id := 2147483646 } (fun _ => sampleInstance) twoReads).2.2.map
        (fun r => r.content) =
      ["\x7b \"Value\": false, \"ClientTransactionID\": 1, " ++
         "\"ServerTransactionID\": 2147483647, \"ErrorNumber\": 0, \"ErrorMessage\": \"\"\x7d",
       "\x7b \"Value\": 3, \"ClientTransactionID\": 2, " ++
         "\"ServerTransactionID\": -2147483648, \"ErrorNumber\": 0, \"ErrorMessage\": \"\"\x7d"] := by
  decide

theorem serve_cons (srv : AlpacaServer) (devices : Nat → DeviceInstance) (r : Incoming)
    (rest : List Incoming) :
    serve srv devices (r :: rest) =
      ((serve (handleBase r.command srv (devices r.device) r.request r.millis).1
          (Function.update devices r.device
            (handleBase r.command srv (devices r.device) r.request r.millis).2.1) rest).1,
       (serve (handleBase r.command srv (devices r.device) r.request r.millis).1
          (Function.update devices r.device
            (handleBase r.command srv (devices r.device) r.request r.millis).2.1) rest).2.1,
       (handleBase r.command srv (devices r.device) r.request r.millis).2.2 ++
       (serve (handleBase r.command srv (devices r.device) r.request r.millis).1
          (Function.update devices r.device
            (handleBase r.command srv (devices r.device) r.request r.millis).2.1) rest).2.2) :=
  rfl

theorem serve_spec (reqs : List Incoming) :
    ∀ (srv : AlpacaServer) (devices : Nat → DeviceInstance),
      (serve srv devices reqs).2.2.length = reqs.length ∧
      (serve srv devices reqs).1._server_transaction_id % 2 ^ 32 =
        (srv._server_transaction_id + reqs.length) % 2 ^ 32 ∧
      ∀ k, k < reqs.length → ∃ r, (serve srv devices reqs).2.2[k]? = some r ∧
        renderedWith ((srv._server_transaction_id + k + 1) % 2 ^ 32) r := by
  induction reqs with
  | nil =>
    intro srv devices
    exact ⟨rfl, rfl, fun k hk => absurd hk (Nat.not_lt_zero k)⟩
  | cons r rest ih =>
    intro srv devices
    obtain ⟨r0, hsent, hren, hid⟩ :=
      handleBase_renders_once r.command srv (devices r.device) r.request r.millis
    obtain ⟨hlen, hfin, hk⟩ :=
      ih (handleBase r.command srv (devices r.device) r.request r.millis).1
        (Function.update devices r.device
          (handleBase r.command srv (devices r.device) r.request r.millis).2.1)
    rw [serve_cons, hsent]
    refine ⟨?_, ?_, ?_⟩
    · simp only [List.length_append, List.length_cons, List.length_nil, hlen]
      omega
    · simp only [List.length_cons]
      rw [hfin, hid]
      omega
    · intro k hklt
      cases k with
      | zero => exact ⟨r0, by simp, hren⟩
      | succ j =>
        obtain ⟨rj, hget, hrj⟩ := hk j (by simpa using hklt)
        refine ⟨rj, ?_, ?_⟩
        · simpa using hget
        · rw [hid] at hrj
          have hmod : ((srv._server_transaction_id + 1) % 2 ^ 32 + j + 1) % 2 ^ 32 =
              (srv._server_transaction_id + (j + 1) + 1) % 2 ^ 32 := by omega
          rw [hmod] at hrj
          exact hrj

/-- C11, amended. Each request handled by a base-device handler (PUT connect, PUT disconnect,
PUT connected, GET connected, GET connecting, GET name, description, driverinfo,
driverversion, interfaceversion, supportedactions, devicestate) sends exactly one envelope
on every control path, so `N` sequential requests, whatever devices and clients they come
from, are answered by `N` envelopes, and the server transaction counter with which the
`k`-th of them (from 0) is rendered is the initial counter plus `k + 1` modulo 2^32: it goes
up by exactly 1 modulo 2^32 from one envelope to the next. -/
theorem serve_renders_one_envelope_per_request (srv : AlpacaServer)
    (devices : Nat → DeviceInstance) (reqs : List Incoming) :
    (∀ (cmd : BaseCommand) (inst : DeviceInstance) (req : AsyncWebServerRequest) (ms : Nat),
      (handleBase cmd srv inst req ms).2.2.length = 1) ∧
    (serve srv devices reqs).2.2.length = reqs.length ∧
    (serve srv devices reqs).1._server_transaction_id % 2 ^ 32 =
      (srv._server_transaction_id + reqs.length) % 2 ^ 32 ∧
    (∀ k, k < reqs.length → ∃ r, (serve srv devices reqs).2.2[k]? = some r ∧
      renderedWith ((srv._server_transaction_id + k + 1) % 2 ^ 32) r) := by
  refine ⟨fun cmd inst req ms => ?_, serve_spec reqs srv devices⟩
  obtain ⟨r, hr, _⟩ := handleBase_renders_once cmd srv inst req ms
  rw [hr]
  rfl

/-! ## The wire cipher -/

theorem xor_lt_256 {a b : Nat} (ha : a < 256) (hb : b < 256) : a ^^^ b < 256 :=
  Nat.xor_lt_two_pow (n := 8) ha hb

theorem decryptFrom_encryptFrom (s : List Nat) :
    ∀ key, key < 256 → (∀ b ∈ s, b < 256) → decryptFrom key (encryptFrom key s) = s := by
  induction s with
  | nil => intro key _ _; rfl
  | cons c rest ih =>
    intro key hk hs
    have hc : c < 256 := hs c (List.mem_cons_self _ _)
    have hx : key ^^^ c < 256 := xor_lt_256 hk hc
    simp only [encryptFrom, decryptFrom, Nat.mod_eq_of_lt hc, Nat.mod_eq_of_lt hx]
    rw [ih (key ^^^ c) hx (fun b hb => hs b (List.mem_cons_of_mem _ hb))]
    congr 1
    rw [← Nat.xor_assoc, Nat.xor_self, Nat.zero_xor]
    exact Nat.mod_eq_of_lt hc

theorem encryptFrom_decryptFrom (s : List Nat) :
    ∀ key, key < 256 → (∀ b ∈ s, b < 256) → encryptFrom key (decryptFrom key s) = s := by
  induction s with
  | nil => intro key _ _; rfl
  | cons c rest ih =>
    intro key hk hs
    have hc : c < 256 := hs c (List.mem_cons_self _ _)
    have hx : key ^^^ c < 256 := xor_lt_256 hk hc
    simp only [encryptFrom, decryptFrom, Nat.mod_eq_of_lt hc, Nat.mod_eq_of_lt hx]
    have h1 : key ^^^ (key ^^^ c) = c := by
      rw [← Nat.xor_assoc, Nat.xor_self, Nat.zero_xor]
    rw [h1, Nat.mod_eq_of_lt hc, ih c hc (fun b hb => hs b (List.mem_cons_of_mem _ hb))]

theorem encryptFrom_length (s : List Nat) : ∀ key, (encryptFrom key s).length = s.length := by
  induction s with
  | nil => intro _; rfl
  | cons c rest ih => intro key; simp [encryptFrom, ih]

theorem decryptFrom_length (s : List Nat) : ∀ key, (decryptFrom key s).length = s.length := by
  induction s with
  | nil => intro _; rfl
  | cons c rest ih => intro key; simp [decryptFrom, ih]

theorem encryptFrom_getElem (s : List Nat) :
    ∀ key, key < 256 → (∀ b ∈ s, b < 256) → ∀ (i : Nat) (hi : i < s.length),
      (encryptFrom key s)[i]? =
        some ((if i = 0 then key else (encryptFrom key s).getD (i - 1) 0) ^^^ s[i]) := by
  induction s with
  | nil => intro key _ _ i hi; exact absurd hi (Nat.not_lt_zero _)
  | cons c rest ih =>
    intro key hk hs i hi
    have hc : c < 256 := hs c (List.mem_cons_self _ _)
    have hx : key ^^^ c < 256 := xor_lt_256 hk hc
    cases i with
    | zero => simp [encryptFrom, Nat.mod_eq_of_lt hc, Nat.mod_eq_of_lt hx]
    | succ j =>
      have hj : j < rest.length := by simpa using hi
      have h := ih (key ^^^ c) hx (fun b hb => hs b (List.mem_cons_of_mem _ hb)) j hj
      simp only [encryptFrom, Nat.mod_eq_of_lt hc, Nat.mod_eq_of_lt hx, List.getElem?_cons_succ,
        List.getElem_cons_succ, h, Nat.succ_ne_zero, if_false, Nat.add_sub_cancel]
      cases j with
      | zero => simp
      | succ k => simp

/-- C28: for every byte string `s` (every element below 256), `decrypt (encrypt s) = s`
and `encrypt (decrypt s) = s`, both functions keep the length of their input, and
`encrypt` starts from key 171 and XORs each byte with the previous ciphertext byte. -/
theorem cipher_round_trip (s : List Nat) (hs : ∀ b ∈ s, b < 256) :
    decrypt (encrypt s) = s ∧ encrypt (decrypt s) = s ∧
    (encrypt s).length = s.length ∧ (decrypt s).length = s.length ∧
    (∀ (i : Nat) (hi : i < s.length),
      (encrypt s)[i]? = some ((if i = 0 then 171 else (encrypt s).getD (i - 1) 0) ^^^ s[i])) := by
  refine ⟨decryptFrom_encryptFrom s 171 (by decide) hs,
    encryptFrom_decryptFrom s 171 (by decide) hs,
    encryptFrom_length s 171, decryptFrom_length s 171, ?_⟩
  intro i hi
  exact encryptFrom_getElem s 171 (by decide) hs i hi

theorem cipher_round_trip_witness :
    (∀ b ∈ [123, 125, 0, 255], b < 256) ∧
    decrypt (encrypt [123, 125, 0, 255]) = [123, 125, 0, 255] ∧
    encrypt [123, 125, 0, 255] = [208, 173, 173, 82] :=
  ⟨by decide, (cipher_round_trip [123, 125, 0, 255] (by decide)).1, by decide⟩

/-! ## The switch count and the switch capacity -/

theorem constructLoop_counts {D : Type} (ops : DoubleOps D) (millis : Nat) (n : Nat) :
    ∀ (u : Nat) (sw : AlpacaSwitch D),
      (constructLoop ops millis n u sw)._max_switch_devices = sw._max_switch_devices ∧
      (constructLoop ops millis n u sw)._switch_capacity = sw._switch_capacity := by
  induction n with
  | zero => intro u sw; exact ⟨rfl, rfl⟩
  | succ n ih =>
    intro u sw
    simp only [constructLoop]
    refine ⟨(ih _ _).1.trans ?_, (ih _ _).2.trans ?_⟩ <;>
    · unfold _InitSwitchDevicesInternals
      split_ifs <;> rfl

theorem getAndCheckId_counts {D : Type} (sw : AlpacaSwitch D) (request : AsyncWebServerRequest)
    (id : Nat) (spelling : Spelling_t) :
    (_getAndCheckId sw request id spelling).2.2._max_switch_devices = sw._max_switch_devices ∧
    (_getAndCheckId sw request id spelling).2.2._switch_capacity = sw._switch_capacity ∧
    (_getAndCheckId sw request id spelling).2.2._p_switch_devices = sw._p_switch_devices := by
  unfold _getAndCheckId
  simp only
  split_ifs <;> exact ⟨rfl, rfl, rfl⟩

theorem writeBranch_counts {D : Type} (ops : DoubleOps D)
    (write :
      (Nat → SwitchDevice_t D) → Nat → D → SwitchAsyncType_t → Bool × (Nat → SwitchDevice_t D))
    (sw : AlpacaSwitch D) (request : AsyncWebServerRequest) (id : Nat) (value : D)
    (bool_value : Bool) (async_type : SwitchAsyncType_t) (set_millis : Nat) :
    (writeBranch ops write sw request id value bool_value async_type
      set_millis).1._max_switch_devices = sw._max_switch_devices ∧
    (writeBranch ops write sw request id value bool_value async_type
      set_millis).1._switch_capacity = sw._switch_capacity := by
  unfold writeBranch
  simp only
  split_ifs <;> exact ⟨rfl, rfl⟩

theorem setSwitchBody_counts {D : Type} (ops : DoubleOps D)
    (write :
      (Nat → SwitchDevice_t D) → Nat → D → SwitchAsyncType_t → Bool × (Nat → SwitchDevice_t D))
    (sw : AlpacaSwitch D) (request : AsyncWebServerRequest) (id : Nat)
    (value_type : SwitchValueType_t) (async_type : SwitchAsyncType_t) (set_millis : Nat)
    (indeterminate : Bool) :
    (setSwitchBody ops write sw request id value_type async_type set_millis
      indeterminate).1._max_switch_devices = sw._max_switch_devices ∧
    (setSwitchBody ops write sw request id value_type async_type set_millis
      indeterminate).1._switch_capacity = sw._switch_capacity := by
  unfold setSwitchBody
  simp only
  split_ifs <;> first | exact ⟨rfl, rfl⟩ | exact writeBranch_counts _ _ _ _ _ _ _ _ _

theorem putSetSwitch_counts {D : Type} (ops : DoubleOps D)
    (write :
      (Nat → SwitchDevice_t D) → Nat → D → SwitchAsyncType_t → Bool × (Nat → SwitchDevice_t D))
    (sw : AlpacaSwitch D) (request : AsyncWebServerRequest) (value_type : SwitchValueType_t)
    (async_type : SwitchAsyncType_t) (millis set_millis : Nat) (indeterminate : Bool) :
    (_alpacaPutSetSwitch_core ops write sw request value_type async_type millis set_millis
      indeterminate).1._max_switch_devices = sw._max_switch_devices ∧
    (_alpacaPutSetSwitch_core ops write sw request value_type async_type millis set_millis
      indeterminate).1._switch_capacity = sw._switch_capacity := by
  unfold _alpacaPutSetSwitch_core
  simp only
  split_ifs
  · exact ⟨(setSwitchBody_counts _ _ _ _ _ _ _ _ _).1.trans (getAndCheckId_counts _ _ _ _).1,
      (setSwitchBody_counts _ _ _ _ _ _ _ _ _).2.trans (getAndCheckId_counts _ _ _ _).2.1⟩
  · exact ⟨(getAndCheckId_counts _ _ _ _).1, (getAndCheckId_counts _ _ _ _).2.1⟩
  · exact ⟨rfl, rfl⟩

theorem putCancleAsync_counts {D : Type} (sw : AlpacaSwitch D)
    (request : AsyncWebServerRequest) (millis : Nat) :
    (_alpacaPutCancleAsync_core sw request millis).1._max_switch_devices =
      sw._max_switch_devices ∧
    (_alpacaPutCancleAsync_core sw request millis).1._switch_capacity = sw._switch_capacity := by
  unfold _alpacaPutCancleAsync_core
  simp only
  split_ifs
  · exact ⟨(getAndCheckId_counts _ _ _ _).1, (getAndCheckId_counts _ _ _ _).2.1⟩
  · exact ⟨(getAndCheckId_counts _ _ _ _).1, (getAndCheckId_counts _ _ _ _).2.1⟩
  · exact ⟨(getAndCheckId_counts _ _ _ _).1, (getAndCheckId_counts _ _ _ _).2.1⟩
  · exact ⟨rfl, rfl⟩

theorem SetMaxSwitchDevices_count {D : Type} (sw : AlpacaSwitch D) (new_max : Nat) :
    (SetMaxSwitchDevices sw new_max)._max_switch_devices = min new_max sw._switch_capacity ∧
    (SetMaxSwitchDevices sw new_max)._switch_capacity = sw._switch_capacity := by
  unfold SetMaxSwitchDevices
  refine ⟨?_, rfl⟩
  show (if new_max ≤ sw._switch_capacity then new_max else sw._switch_capacity) = _
  split_ifs with h
  · exact (Nat.min_eq_left h).symm
  · exact (Nat.min_eq_right (Nat.le_of_lt (Nat.lt_of_not_le h))).symm

theorem reachable_count_le_capacity {D : Type} (ops : DoubleOps D)
    (write :
      (Nat → SwitchDevice_t D) → Nat → D → SwitchAsyncType_t → Bool × (Nat → SwitchDevice_t D))
    (sw : AlpacaSwitch D) (h : SwitchReachable ops write sw) :
    sw._max_switch_devices ≤ sw._switch_capacity := by
  induction h with
  | construct base allocated num millis =>
    unfold AlpacaSwitch.construct
    rw [(constructLoop_counts ops millis num 0 _).1, (constructLoop_counts ops millis num 0 _).2]
  | setMax h new_max ih =>
    rw [(SetMaxSwitchDevices_count _ new_max).1, (SetMaxSwitchDevices_count _ new_max).2]
    exact Nat.min_le_right _ _
  | putSetSwitch h request value_type async_type millis set_millis indeterminate ih =>
    rw [(putSetSwitch_counts _ _ _ _ _ _ _ _ _).1, (putSetSwitch_counts _ _ _ _ _ _ _ _ _).2]
    exact ih
  | putCancleAsync h request millis ih =>
    rw [(putCancleAsync_counts _ _ _).1, (putCancleAsync_counts _ _ _).2]
    exact ih

theorem getAndCheckId_result {D : Type} (sw : AlpacaSwitch D) (request : AsyncWebServerRequest)
    (id : Nat) (spelling : Spelling_t) :
    ((_getAndCheckId sw request id spelling).1 = true ↔
      ((GetParam_uint32 request "Id" id spelling).1 = true ∧
       (GetParam_uint32 request "Id" id spelling).2 < sw._max_switch_devices)) ∧
    (_getAndCheckId sw request id spelling).2.1 = (GetParam_uint32 request "Id" id spelling).2 ∧
    ((_getAndCheckId sw request id spelling).1 = false →
      (_getAndCheckId sw request id spelling).2.2._rsp_status.error_code = .InvalidValue ∧
      (_getAndCheckId sw request id spelling).2.2._rsp_status.http_status =
        .kInvalidRequest) := by
  unfold _getAndCheckId
  simp only
  split_ifs with h1 h2
  · exact ⟨⟨fun _ => ⟨h1, h2.2⟩, fun _ => rfl⟩, rfl, fun h => absurd h (by simp)⟩
  · refine ⟨⟨fun h => absurd h (by simp), fun h => absurd ⟨Nat.zero_le _, h.2⟩ h2⟩, rfl,
      fun _ => ⟨rfl, rfl⟩⟩
  · exact ⟨⟨fun h => absurd h (by simp), fun h => absurd h.1 h1⟩, rfl, fun _ => ⟨rfl, rfl⟩⟩

/-- C30: `SetMaxSwitchDevices n` sets the count to `min n capacity`; in every state reachable
from construction the count is at most the capacity; `_getAndCheckId` accepts exactly when the
parameter `Id` is present (read by `GetParam`) and below the count, an accepted `Id` is below
the capacity, the size of the allocated array, and a rejection sets ErrorNumber InvalidValue
and HTTP status 400. -/
theorem switch_count_within_capacity {D : Type} (ops : DoubleOps D)
    (write :
      (Nat → SwitchDevice_t D) → Nat → D → SwitchAsyncType_t → Bool × (Nat → SwitchDevice_t D))
    (sw : AlpacaSwitch D) (h : SwitchReachable ops write sw) (new_max : Nat)
    (request : AsyncWebServerRequest) (id : Nat) (spelling : Spelling_t) :
    (SetMaxSwitchDevices sw new_max)._max_switch_devices = min new_max sw._switch_capacity ∧
    sw._max_switch_devices ≤ sw._switch_capacity ∧
    ((_getAndCheckId sw request id spelling).1 = true ↔
      ((GetParam_uint32 request "Id" id spelling).1 = true ∧
       (GetParam_uint32 request "Id" id spelling).2 < sw._max_switch_devices)) ∧
    ((_getAndCheckId sw request id spelling).1 = true →
      (_getAndCheckId sw request id spelling).2.1 < sw._switch_capacity) ∧
    ((_getAndCheckId sw request id spelling).1 = false →
      (_getAndCheckId sw request id spelling).2.2._rsp_status.error_code.toInt = 0x401 ∧
      (_getAndCheckId sw request id spelling).2.2._rsp_status.http_status.toNat = 400) := by
  have hle := reachable_count_le_capacity ops write sw h
  have hr := getAndCheckId_result sw request id spelling
  refine ⟨(SetMaxSwitchDevices_count sw new_max).1, hle, hr.1, fun ht => ?_, fun hf => ?_⟩
  · rw [hr.2.1]
    exact Nat.lt_of_lt_of_le (hr.1.mp ht).2 hle
  · rw [(hr.2.2 hf).1, (hr.2.2 hf).2]
    exact ⟨rfl, rfl⟩

set_option maxRecDepth 20000 in
theorem switch_count_within_capacity_witness :
    (SetMaxSwitchDevices (SetMaxSwitchDevices (AlpacaSwitch.construct integerDoubles emptyDevice
      (fun _ => zeroedSwitchDevice) 2 0) 1) 5)._max_switch_devices = min 5 2 ∧
    (_getAndCheckId (SetMaxSwitchDevices (AlpacaSwitch.construct integerDoubles emptyDevice
        (fun _ => zeroedSwitchDevice) 2 0) 1)
      { url := "/api/v1/switch/0/getswitch", args := [("Id", "1")] } 0 .kStrict).1 = false ∧
    ((_getAndCheckId (SetMaxSwitchDevices (AlpacaSwitch.construct integerDoubles emptyDevice
        (fun _ => zeroedSwitchDevice) 2 0) 1)
      { url := "/api/v1/switch/0/getswitch", args := [("Id", "1")] } 0 .kStrict).1 = false →
     (_getAndCheckId (SetMaxSwitchDevices (AlpacaSwitch.construct integerDoubles emptyDevice
        (fun _ => zeroedSwitchDevice) 2 0) 1)
      { url := "/api/v1/switch/0/getswitch", args := [("Id", "1")] } 0
        .kStrict).2.2._rsp_status.error_code.toInt = 0x401 ∧
     (_getAndCheckId (SetMaxSwitchDevices (AlpacaSwitch.construct integerDoubles emptyDevice
        (fun _ => zeroedSwitchDevice) 2 0) 1)
      { url := "/api/v1/switch/0/getswitch", args := [("Id", "1")] } 0
        .kStrict).2.2._rsp_status.http_status.toNat = 400) :=
  ⟨(switch_count_within_capacity integerDoubles writeSucceeds _
      (SwitchReachable.setMax (SwitchReachable.construct emptyDevice
        (fun _ => zeroedSwitchDevice) 2 0) 1) 5
      { url := "/api/v1/switch/0/getswitch", args := [("Id", "1")] } 0 .kStrict).1,
   by decide,
   (switch_count_within_capacity integerDoubles writeSucceeds _
      (SwitchReachable.setMax (SwitchReachable.construct emptyDevice
        (fun _ => zeroedSwitchDevice) 2 0) 1) 5
      { url := "/api/v1/switch/0/getswitch", args := [("Id", "1")] } 0 .kStrict).2.2.2.2⟩

/-! ## Mutating switch requests and session validation -/

theorem putSetSwitch_core_of_idx_zero {D : Type} (ops : DoubleOps D)
    (write :
      (Nat → SwitchDevice_t D) → Nat → D → SwitchAsyncType_t → Bool × (Nat → SwitchDevice_t D))
    (sw : AlpacaSwitch D) (request : AsyncWebServerRequest) (value_type : SwitchValueType_t)
    (async_type : SwitchAsyncType_t) (millis set_millis : Nat) (indeterminate : Bool)
    (h : (checkClientDataAndConnection (switchPrologue sw) request .kStrict millis).2 = 0) :
    _alpacaPutSetSwitch_core ops write sw request value_type async_type millis set_millis
        indeterminate =
      ({ sw with
         toAlpacaDevice :=
           (checkClientDataAndConnection (switchPrologue sw) request .kStrict millis).1 },
       0, []) := by
  unfold _alpacaPutSetSwitch_core
  simp only [h]
  rw [if_neg (by decide)]

theorem idx_zero_of_no_positive_client_id (dev : AlpacaDevice) (request : AsyncWebServerRequest)
    (sp : Spelling_t) (millis : Nat) (h : presentAndPositive request "ClientID" sp = false) :
    (checkClientDataAndConnection dev request sp millis).2 = 0 ∧
    (checkClientDataAndConnection dev request sp millis).1._rsp_status.error_code.toInt =
      0x401 := by
  have hn : ¬ ((GetParam_int32 request "ClientID" 0 sp).1 = true ∧
      0 < (GetParam_int32 request "ClientID" 0 sp).2) := by
    rw [GetParam_int32_positive, h]
    simp
  constructor
  · rw [checkClientDataAndConnection_idx, if_neg]
    rintro ⟨h1, h2, _⟩
    exact hn ⟨h1, h2⟩
  · rw [checkClientDataAndConnection_status]
    split_ifs with h1 h2 h3 h4
    · rfl
    · rfl
    · exact absurd ⟨by simpa using h1, not_le.mp h2⟩ hn
    · exact absurd ⟨by simpa using h1, not_le.mp h2⟩ hn
    · exact absurd ⟨by simpa using h1, not_le.mp h2⟩ hn

/-- C25 (as amended): in `_alpacaPutSetSwitch`, whenever `checkClientDataAndConnection`
returns client index 0, the physical write `_writeSwitchValue` is not invoked and no switch
device changes (so neither `value` nor `state_change_complete` nor `has_been_cancelled` of any
switch); and a ClientID that is missing or not positive makes the returned index 0 and the
ErrorNumber 0x401. -/
theorem set_switch_without_connected_client_writes_nothing {D : Type} (ops : DoubleOps D)
    (write :
      (Nat → SwitchDevice_t D) → Nat → D → SwitchAsyncType_t → Bool × (Nat → SwitchDevice_t D))
    (srv : AlpacaServer) (sw : AlpacaSwitch D) (request : AsyncWebServerRequest)
    (value_type : SwitchValueType_t) (async_type : SwitchAsyncType_t) (millis set_millis : Nat)
    (indeterminate : Bool) :
    ((checkClientDataAndConnection (switchPrologue sw) request .kStrict millis).2 = 0 →
      (_alpacaPutSetSwitch ops write srv sw request value_type async_type millis set_millis
        indeterminate).2.2.2 = [] ∧
      (_alpacaPutSetSwitch ops write srv sw request value_type async_type millis set_millis
        indeterminate).2.1._p_switch_devices = sw._p_switch_devices) ∧
    (presentAndPositive request "ClientID" .kStrict = false →
      (checkClientDataAndConnection (switchPrologue sw) request .kStrict millis).2 = 0 ∧
      (checkClientDataAndConnection (switchPrologue sw) request .kStrict
        millis).1._rsp_status.error_code.toInt = 0x401) := by
  refine ⟨fun h => ?_, fun h => idx_zero_of_no_positive_client_id _ _ _ _ h⟩
  have hc := putSetSwitch_core_of_idx_zero ops write sw request value_type async_type millis
    set_millis indeterminate h
  constructor
  · show (_alpacaPutSetSwitch_core ops write sw request value_type async_type millis set_millis
      indeterminate).2.2 = []
    rw [hc]
  · show (_alpacaPutSetSwitch_core ops write sw request value_type async_type millis set_millis
      indeterminate).1._p_switch_devices = sw._p_switch_devices
    rw [hc]

set_option maxRecDepth 20000 in
theorem set_switch_without_connected_client_writes_nothing_witness :
    presentAndPositive writeWithoutClientID "ClientID" .kStrict = false ∧
    (_alpacaPutSetSwitch integerDoubles writeSucceeds ⟨0⟩ sampleSwitch writeWithoutClientID
      .kDouble .kNoAsyncType 20 21 false).2.2.2 = [] ∧
    (_alpacaPutSetSwitch integerDoubles writeSucceeds ⟨0⟩ sampleSwitch writeWithoutClientID
      .kDouble .kNoAsyncType 20 21 false).2.1._p_switch_devices =
        sampleSwitch._p_switch_devices :=
  ⟨by decide,
   (set_switch_without_connected_client_writes_nothing integerDoubles writeSucceeds ⟨0⟩
      sampleSwitch writeWithoutClientID .kDouble .kNoAsyncType 20 21 false).1
    ((set_switch_without_connected_client_writes_nothing integerDoubles writeSucceeds ⟨0⟩
      sampleSwitch writeWithoutClientID .kDouble .kNoAsyncType 20 21 false).2 (by decide)).1⟩

set_option maxRecDepth 20000 in
/-- C25 (as written) fails: client 5 is connected and sends setswitchvalue without a
ClientTransactionID. `checkClientDataAndConnection` leaves ErrorNumber 0x401 and returns
slot 1, the handler invokes `_writeSwitchValue(0, 1.0, kNoAsyncType)` and the value of switch 0
changes from 0.0 to 1.0, while the envelope reports ErrorNumber 1025. -/
theorem set_switch_written_despite_validation_error :
    (checkClientDataAndConnection (switchPrologue sampleSwitch) writeWithoutTransactionID
      .kStrict 20).1._rsp_status.error_code.toInt = 0x401 ∧
    (_alpacaPutSetSwitch integerDoubles writeSucceeds ⟨0⟩ sampleSwitch writeWithoutTransactionID
      .kDouble .kNoAsyncType 20 21 false).2.2.2 =
        [{ id := 0, value := 1, async_type := .kNoAsyncType }] ∧
    (sampleSwitch._p_switch_devices 0).value = 0 ∧
    ((_alpacaPutSetSwitch integerDoubles writeSucceeds ⟨0⟩ sampleSwitch
      writeWithoutTransactionID .kDouble .kNoAsyncType 20 21
      false).2.1._p_switch_devices 0).value = 1 ∧
    (_alpacaPutSetSwitch integerDoubles writeSucceeds ⟨0⟩ sampleSwitch writeWithoutTransactionID
      .kDouble .kNoAsyncType 20 21 false).2.2.1.content =
        "\x7b \"ClientTransactionID\": 0, \"ServerTransactionID\": 1, \"ErrorNumber\": 1025, \"ErrorMessage\": \"/api/v1/switch/0/setswitchvalue - 'ClientTransactionID' not found\"\x7d" := by
  refine ⟨by decide, by decide, by decide, by decide, by decide⟩

/-! ## The spelling policy of the PUT handler for cancleasync -/

set_option maxRecDepth 20000 in
/-- C24: the handler registered for HTTP PUT under `cancleasync` validates with `kIgnoreCase`.
For a request of the connected client 5 with the parameter names in lower case, validation
with `kStrict` returns index 0 with ErrorNumber 0x401, but the handler answers HTTP 200 with
ErrorNumber 0 and cancels the pending change of switch 0. -/
theorem cancleasync_accepts_lower_case_names :
    (checkClientDataAndConnection (switchPrologue pendingSwitch) lowerCaseCancel .kStrict
      30).2 = 0 ∧
    (checkClientDataAndConnection (switchPrologue pendingSwitch) lowerCaseCancel .kStrict
      30).1._rsp_status.error_code.toInt = 0x401 ∧
    (pendingSwitch._p_switch_devices 0).has_been_cancelled = false ∧
    ((_alpacaPutCancleAsync ⟨1⟩ pendingSwitch lowerCaseCancel 30).2.1._p_switch_devices
      0).has_been_cancelled = true ∧
    (_alpacaPutCancleAsync ⟨1⟩ pendingSwitch lowerCaseCancel 30).2.2 =
      { code := 200, contentType := "application/json",
        content := "\x7b \"ClientTransactionID\": 7, \"ServerTransactionID\": 2, \"ErrorNumber\": 0, \"ErrorMessage\": \"\"\x7d" } := by
  refine ⟨by decide, by decide, by decide, by decide, by decide⟩

/-! ## Disconnect after a repeated connect -/

set_option maxRecDepth 20000 in
/-- C27: from the empty table, client 5 connects twice (the second connect reports
`already connected` and fills slot 2 as well) and then disconnects with a positive
ClientTransactionID. The disconnect clears slot 1 only: client 5 still occupies slot 2, a
following read with ClientID 5 returns slot index 2 and GET connected answers `true`. -/
theorem disconnect_leaves_second_slot_of_client :
    (reconnectedThenDisconnected._clients 1).client_id = 0 ∧
    (reconnectedThenDisconnected._clients 2).client_id = 5 ∧
    (readPrologue reconnectedThenDisconnected
      (identifiedRequest "/api/v1/switch/0/connected" "5" "4") 40).2 = 2 ∧
    (AlpacaGetConnected ⟨3⟩ reconnectedThenDisconnected
      (identifiedRequest "/api/v1/switch/0/connected" "5" "4") 40).2.2 =
      { code := 200, contentType := "application/json",
        content := "\x7b \"Value\": true, \"ClientTransactionID\": 4, \"ServerTransactionID\": 4, \"ErrorNumber\": 0, \"ErrorMessage\": \"\"\x7d" } := by
  refine ⟨by decide, by decide, by decide, by decide⟩

/-! ## The echoed client transaction id -/

theorem clampInt32_range (v : Int) : -(2 ^ 31) ≤ clampInt32 v ∧ clampInt32 v ≤ 2 ^ 31 - 1 := by
  unfold clampInt32
  split_ifs <;> constructor <;> omega

theorem sscanf_d_le (s : String) (v : Int) (h : sscanf_d s = some v) : v ≤ 2 ^ 31 - 1 := by
  unfold sscanf_d at h
  simp only at h
  split_ifs at h <;>
  · rw [← Option.some.inj h]
    exact (clampInt32_range _).2

theorem sscanf_i_le (s : String) (v : Int) (h : sscanf_i s = some v) : v ≤ 2 ^ 31 - 1 := by
  unfold sscanf_i at h
  simp only at h
  split at h
  · rw [← Option.some.inj h]; exact (clampInt32_range _).2
  · rw [← Option.some.inj h]; exact (clampInt32_range _).2
  · rw [← Option.some.inj h]; exact (clampInt32_range _).2
  · split_ifs at h <;>
    · rw [← Option.some.inj h]
      exact (clampInt32_range _).2

/-- What `GetParam` for uint32 leaves in a variable that held 0: the number to echo, which is
below 2^31. -/
theorem GetParam_uint32_echo (request : AsyncWebServerRequest) (sp : Spelling_t) :
    (((GetParam_uint32 request "ClientTransactionID" 0 sp).2 : Nat) : Int) =
      convertedTransactionID sscanf_d request sp ∧
    (GetParam_uint32 request "ClientTransactionID" 0 sp).2 < 2 ^ 31 ∧
    ((GetParam_uint32 request "ClientTransactionID" 0 sp).1 = false →
      (GetParam_uint32 request "ClientTransactionID" 0 sp).2 = 0) := by
  unfold GetParam_uint32 convertedTransactionID
  simp only [ge_iff_le]
  split_ifs with hidx
  · cases hs : sscanf_d (request.arg (_paramIndex request "ClientTransactionID" sp)) with
    | none => simp
    | some v =>
      have hle := sscanf_d_le _ _ hs
      simp only
      split_ifs with hv
      · refine ⟨Int.toNat_of_nonneg hv, ?_, fun h => absurd h (by simp)⟩
        omega
      · simp
  · simp

/-- What `checkClientDataAndConnection` stores as client transaction id: the number to echo,
which is below 2^31. -/
theorem GetParam_int32_echo (request : AsyncWebServerRequest) (sp : Spelling_t) :
    (((if (GetParam_int32 request "ClientTransactionID" 0 sp).2 ≥ 0 then
        (GetParam_int32 request "ClientTransactionID" 0 sp).2.toNat else 0 : Nat) : Int) =
      convertedTransactionID sscanf_i request sp) ∧
    (if (GetParam_int32 request "ClientTransactionID" 0 sp).2 ≥ 0 then
        (GetParam_int32 request "ClientTransactionID" 0 sp).2.toNat else 0) < 2 ^ 31 := by
  unfold GetParam_int32 convertedTransactionID
  by_cases hidx : 0 ≤ _paramIndex request "ClientTransactionID" sp
  · cases hs : sscanf_i (request.arg (_paramIndex request "ClientTransactionID" sp)) with
    | none => simp [hidx, hs]
    | some v =>
      have hle := sscanf_i_le _ _ hs
      by_cases hv : 0 ≤ v
      · simp only [ge_iff_le, hidx, if_true, hs, hv]
        exact ⟨Int.toNat_of_nonneg hv, by omega⟩
      · simp [hidx, hs, hv]
  · simp [hidx]

theorem checkClientDataAndConnection_slot (dev : AlpacaDevice) (request : AsyncWebServerRequest)
    (sp : Spelling_t) (ms : Nat) :
    ((checkClientDataAndConnection dev request sp ms).1._clients
      (checkClientDataAndConnection dev request sp ms).2).client_transaction_id =
      if (GetParam_int32 request "ClientTransactionID" 0 sp).2 ≥ 0 then
        (GetParam_int32 request "ClientTransactionID" 0 sp).2.toNat else 0 := by
  unfold checkClientDataAndConnection
  simp only [Function.update_same]

theorem envelopeOpening_length (shape : JsonValue_t) (value : String) :
    (envelopeOpening shape value).data.length ≤ value.data.length + 15 := by
  have h1 : ("\x7b ").data.length = 2 := by decide
  have h2 : ("\x7b \"Value\": \"").data.length = 12 := by decide
  have h3 : ("\", ").data.length = 3 := by decide
  have h4 : ("\x7b \"Value\": ").data.length = 11 := by decide
  have h5 : (", ").data.length = 2 := by decide
  unfold envelopeOpening
  split_ifs
  · omega
  · simp only [String.data_append, List.length_append, h2, h3]; omega
  · simp only [String.data_append, List.length_append, h4, h5]; omega

theorem envelopeText_eq_opening (shape : JsonValue_t) (value a b c d : String) :
    envelopeText shape value a b c d =
      (envelopeOpening shape value ++ "\"ClientTransactionID\": " ++ a ++
        ", \"ServerTransactionID\": ") ++
      (b ++ ", \"ErrorNumber\": " ++ c ++ ", \"ErrorMessage\": \"" ++ d ++ "\"\x7d") := by
  have e1 : "\x7b \"ClientTransactionID\": " = "\x7b " ++ "\"ClientTransactionID\": " := by decide
  have e2 : "\", \"ClientTransactionID\": " = "\", " ++ "\"ClientTransactionID\": " := by decide
  have e3 : ", \"ClientTransactionID\": " = ", " ++ "\"ClientTransactionID\": " := by decide
  cases shape
  · simp only [envelopeText, envelopeOpening, if_true, e1, String.append_assoc]
  · simp only [envelopeText, envelopeOpening, reduceCtorEq, if_false, if_true, e2,
      String.append_assoc]
  · simp only [envelopeText, envelopeOpening, reduceCtorEq, if_false, e3, String.append_assoc]

theorem fmt_d_natCast (n : Nat) : fmt_d (n : Int) = Nat.repr n := by
  unfold fmt_d
  rw [if_neg (by omega)]
  rfl

/-- Rendering from a slot whose client transaction id `n` is below 2^31, with a value of at
most 2058 characters: the envelope carries `n` in its ClientTransactionID field. -/
theorem respond_echoes (srv : AlpacaServer) (client : AlpacaClient_t)
    (rsp_status : AlpacaRspStatus_t) (value : String) (shape : JsonValue_t)
    (hlt : client.client_transaction_id < 2 ^ 31) (hfit : value.data.length ≤ 2058) :
    echoesClientTransactionID shape value (client.client_transaction_id : Int)
      (_respond srv client rsp_status value shape).2 := by
  have hlen : (envelopeOpening shape value ++ "\"ClientTransactionID\": " ++
      Nat.repr client.client_transaction_id ++ ", \"ServerTransactionID\": ").data.length ≤
      2058 + 256 - 1 := by
    have h1 := envelopeOpening_length shape value
    have h2 : ("\"ClientTransactionID\": ").data.length = 23 := by decide
    have h3 : (", \"ServerTransactionID\": ").data.length = 25 := by decide
    have h4 := Nat.repr_length client.client_transaction_id 10 (by decide) (by omega)
    have h5 : (Nat.repr client.client_transaction_id).data.length =
      (Nat.repr client.client_transaction_id).length := rfl
    simp only [String.data_append, List.length_append, h2, h3]
    omega
  unfold echoesClientTransactionID
  refine ⟨String.mk (List.take (2058 + 256 - 1 - (envelopeOpening shape value ++
    "\"ClientTransactionID\": " ++ Nat.repr client.client_transaction_id ++
    ", \"ServerTransactionID\": ").data.length)
    (fmt_d (asInt32 ((srv._server_transaction_id + 1) % 2 ^ 32)) ++ ", \"ErrorNumber\": " ++
      fmt_d rsp_status.error_code.toInt ++ ", \"ErrorMessage\": \"" ++ rsp_status.error_msg ++
      "\"\x7d").data), ?_⟩
  apply String.ext
  simp only [_respond, snprintf, envelopeText_eq_opening, fmt_d_asInt32_of_lt _ hlt,
    fmt_d_natCast]
  rw [String.data_append, List.take_append_eq_append_take, List.take_of_length_le hlen]
  rfl

theorem AlpacaPutConnect_core_slot (dev : AlpacaDevice) (request : AsyncWebServerRequest)
    (millis : Nat) :
    ((AlpacaPutConnect_core dev request millis).1._clients
      (AlpacaPutConnect_core dev request millis).2).client_transaction_id =
      (GetParam_uint32 request "ClientTransactionID" 0 .kStrict).2 := by
  have he := (GetParam_uint32_echo request .kStrict).2.2
  unfold AlpacaPutConnect_core
  generalize GetParam_uint32 request "ClientID" 0 .kStrict = gc at *
  generalize GetParam_uint32 request "ClientTransactionID" 0 .kStrict = gt at *
  obtain ⟨g1, c⟩ := gc
  obtain ⟨g2, t⟩ := gt
  simp only
  split_ifs with h
  · simp only [connectBranch, Function.update_same]
  · simp only [identificationError, Function.update_same]
    cases g2
    · simp only [Bool.false_eq_true, if_false]
      exact (he rfl).symm
    · simp only [if_true]

theorem AlpacaPutDisconnect_core_slot (dev : AlpacaDevice) (request : AsyncWebServerRequest)
    (millis : Nat) :
    ((AlpacaPutDisconnect_core dev request millis).1._clients 0).client_transaction_id =
      (GetParam_uint32 request "ClientTransactionID" 0 .kStrict).2 := by
  have he := (GetParam_uint32_echo request .kStrict).2.2
  unfold AlpacaPutDisconnect_core
  generalize GetParam_uint32 request "ClientID" 0 .kStrict = gc at *
  generalize GetParam_uint32 request "ClientTransactionID" 0 .kStrict = gt at *
  obtain ⟨g1, c⟩ := gc
  obtain ⟨g2, t⟩ := gt
  simp only
  split_ifs with h
  · simp only [Function.update_same]
  · simp only [identificationError, Function.update_same]
    cases g2
    · simp only [Bool.false_eq_true, if_false]
      exact (he rfl).symm
    · simp only [if_true]

theorem AlpacaPutConnected_core_slot (dev : AlpacaDevice) (request : AsyncWebServerRequest)
    (millis : Nat) :
    ((AlpacaPutConnected_core dev request millis).1._clients
      (AlpacaPutConnected_core dev request millis).2).client_transaction_id =
      (GetParam_uint32 request "ClientTransactionID" 0 .kStrict).2 := by
  have he := (GetParam_uint32_echo request .kStrict).2.2
  unfold AlpacaPutConnected_core
  generalize GetParam_uint32 request "ClientID" 0 .kStrict = gc at *
  generalize GetParam_uint32 request "ClientTransactionID" 0 .kStrict = gt at *
  generalize GetParam_bool request "Connected" false .kStrict = gb at *
  obtain ⟨g1, c⟩ := gc
  obtain ⟨g2, t⟩ := gt
  obtain ⟨g3, b⟩ := gb
  simp only
  have hid : ((identificationError (handlerPrologue dev) request g1 c g2 t)._clients
      0).client_transaction_id = t := by
    simp only [identificationError, Function.update_same]
    cases g2
    · simp only [Bool.false_eq_true, if_false]
      exact (he rfl).symm
    · simp only [if_true]
  split_ifs with h h2 h3
  · simp only [connectBranch, Function.update_same]
  · simp only [Function.update_same]
  · exact hid
  · exact hid

theorem getAndCheckId_clients {D : Type} (sw : AlpacaSwitch D) (request : AsyncWebServerRequest)
    (id : Nat) (spelling : Spelling_t) :
    (_getAndCheckId sw request id spelling).2.2._clients = sw._clients := by
  unfold _getAndCheckId
  simp only
  split_ifs <;> rfl

theorem writeBranch_clients {D : Type} (ops : DoubleOps D)
    (write :
      (Nat → SwitchDevice_t D) → Nat → D → SwitchAsyncType_t → Bool × (Nat → SwitchDevice_t D))
    (sw : AlpacaSwitch D) (request : AsyncWebServerRequest) (id : Nat) (value : D)
    (bool_value : Bool) (async_type : SwitchAsyncType_t) (set_millis : Nat) :
    (writeBranch ops write sw request id value bool_value async_type set_millis).1._clients =
      sw._clients := by
  unfold writeBranch
  simp only
  split_ifs <;> rfl

theorem setSwitchBody_clients {D : Type} (ops : DoubleOps D)
    (write :
      (Nat → SwitchDevice_t D) → Nat → D → SwitchAsyncType_t → Bool × (Nat → SwitchDevice_t D))
    (sw : AlpacaSwitch D) (request : AsyncWebServerRequest) (id : Nat)
    (value_type : SwitchValueType_t) (async_type : SwitchAsyncType_t) (set_millis : Nat)
    (indeterminate : Bool) :
    (setSwitchBody ops write sw request id value_type async_type set_millis
      indeterminate).1._clients = sw._clients := by
  unfold setSwitchBody
  simp only
  split_ifs <;> first | rfl | exact writeBranch_clients _ _ _ _ _ _ _ _ _

/-- The switch handler for setswitch, setswitchvalue, setasync and setasyncvalue renders from
the slot that `checkClientDataAndConnection` returned, with the table as that call left it. -/
theorem putSetSwitch_core_slot {D : Type} (ops : DoubleOps D)
    (write :
      (Nat → SwitchDevice_t D) → Nat → D → SwitchAsyncType_t → Bool × (Nat → SwitchDevice_t D))
    (sw : AlpacaSwitch D) (request : AsyncWebServerRequest) (value_type : SwitchValueType_t)
    (async_type : SwitchAsyncType_t) (millis set_millis : Nat) (indeterminate : Bool) :
    (_alpacaPutSetSwitch_core ops write sw request value_type async_type millis set_millis
      indeterminate).1._clients
      (_alpacaPutSetSwitch_core ops write sw request value_type async_type millis set_millis
        indeterminate).2.1 =
    (checkClientDataAndConnection (switchPrologue sw) request .kStrict millis).1._clients
      (checkClientDataAndConnection (switchPrologue sw) request .kStrict millis).2 := by
  unfold _alpacaPutSetSwitch_core
  simp only
  split_ifs
  · rw [setSwitchBody_clients, getAndCheckId_clients]
  · rw [getAndCheckId_clients]
  · rfl

/-! ## Device numbers -/

theorem asInt8_of_small (c : Nat) (h : c ≤ 127) : asInt8 (c : Int) = (c : Int) := by
  unfold asInt8
  omega

theorem AddDevice_registeredAs (objs : Nat → DeviceIdentity) (uid : String) (pre : List Nat)
    (reg : DeviceRegistry) (d : Nat) (hinv : registeredAs objs pre reg) (hd : d ∉ pre)
    (hlen : pre.length < kAlpacaMaxDevices) :
    registeredAs objs (pre ++ [d]) (AddDevice reg uid d) := by
  obtain ⟨h1, h2, h3⟩ := hinv
  have hpred : (fun p => (reg.objects p)._device_type == (reg.objects d)._device_type) =
      (fun p => (objs p)._device_type == (objs d)._device_type) := by
    funext p
    rw [h2 p, h2 d]
  unfold AddDevice
  rw [if_neg (by rw [h1]; exact Nat.ne_of_lt hlen)]
  refine ⟨by simp only [h1], fun p => ?_, fun k hk => ?_⟩
  · by_cases hp : p = d
    · subst hp
      simp only [Function.update_same, SetDeviceNumber, h2]
    · simp only [Function.update_noteq hp, h2]
  · rw [List.length_append, List.length_singleton] at hk
    rcases Nat.lt_or_eq_of_le (Nat.le_of_lt_succ hk) with hlt | heq
    · have hget : (pre ++ [d]).getD k 0 = pre.getD k 0 := List.getD_append _ _ _ _ hlt
      have hmem : pre.getD k 0 ∈ pre := by
        rw [List.getD_eq_getElem _ _ hlt]
        exact List.getElem_mem _
      have hne : pre.getD k 0 ≠ d := fun h => hd (h ▸ hmem)
      have hsame : sameTypeBefore objs (pre ++ [d]) k = sameTypeBefore objs pre k := by
        unfold sameTypeBefore
        rw [hget, List.take_append_of_le_length (Nat.le_of_lt hlt)]
      show (Function.update reg.objects d _ ((pre ++ [d]).getD k 0))._device_number = _
      rw [hget, Function.update_noteq hne, hsame]
      exact h3 k hlt
    · subst heq
      have hget : (pre ++ [d]).getD pre.length 0 = d := by
        rw [List.getD_append_right _ _ _ _ (Nat.le_refl _)]
        simp
      have hsame : sameTypeBefore objs (pre ++ [d]) pre.length =
          (pre.filter (fun p => (objs p)._device_type == (objs d)._device_type)).length := by
        unfold sameTypeBefore
        rw [hget, List.take_left']
        rfl
      have hsmall : (pre.filter
          (fun p => (objs p)._device_type == (objs d)._device_type)).length ≤ 127 := by
        have := List.length_filter_le
          (fun p => (objs p)._device_type == (objs d)._device_type) pre
        unfold kAlpacaMaxDevices at hlen
        omega
      show (Function.update reg.objects d _ ((pre ++ [d]).getD pre.length 0))._device_number = _
      rw [hget, Function.update_same, hsame]
      simp only [SetDeviceNumber, hpred, h1, asInt8_of_small _ hsmall]

theorem foldl_registeredAs (objs : Nat → DeviceIdentity) (uid : String) :
    ∀ (rest pre : List Nat) (reg : DeviceRegistry), registeredAs objs pre reg →
      (pre ++ rest).Nodup → (pre ++ rest).length ≤ kAlpacaMaxDevices →
      registeredAs objs (pre ++ rest) (rest.foldl (fun r d => AddDevice r uid d) reg) := by
  intro rest
  induction rest with
  | nil => intro pre reg h _ _; simpa using h
  | cons d rest ih =>
    intro pre reg h hnodup hlen
    have heq : pre ++ d :: rest = (pre ++ [d]) ++ rest := by simp
    rw [heq] at hnodup hlen ⊢
    have hd : d ∉ pre := by
      have h1 := (List.nodup_append.mp hnodup).1
      have h2 := List.nodup_append.mp h1
      intro hmem
      exact h2.2.2 hmem (List.mem_singleton_self d)
    have hl : pre.length < kAlpacaMaxDevices := by
      simp only [List.length_append, List.length_singleton] at hlen
      omega
    exact ih (pre ++ [d]) _ (AddDevice_registeredAs objs uid pre reg d h hd hl) hnodup hlen

theorem sameTypeBefore_lt (objs : Nat → DeviceIdentity) (devices : List Nat) (j k : Nat)
    (hjk : j < k) (hk : k < devices.length)
    (ht : (objs (devices.getD j 0))._device_type = (objs (devices.getD k 0))._device_type) :
    sameTypeBefore objs devices j < sameTypeBefore objs devices k := by
  have hj : j < devices.length := Nat.lt_trans hjk hk
  unfold sameTypeBefore
  rw [ht]
  have hpre : (devices.take (j + 1)).Sublist (devices.take k) :=
    (List.take_prefix_take_left devices (Nat.succ_le_of_lt hjk)).sublist
  have hlen := (hpre.filter
    (fun p => (objs p)._device_type == (objs (devices.getD k 0))._device_type)).length_le
  have hsucc : devices.take (j + 1) = devices.take j ++ [devices.getD j 0] := by
    rw [List.take_succ, List.getD_eq_getElem _ _ hj, List.getElem?_eq_getElem hj]
    rfl
  rw [hsucc, List.filter_append, List.length_append] at hlen
  have hone : ([devices.getD j 0].filter
      (fun p => (objs p)._device_type == (objs (devices.getD k 0))._device_type)).length = 1 := by
    rw [List.filter_cons_of_pos (by rw [ht]; exact beq_self_eq_true _)]
    rfl
  omega

/-- C23: for pairwise distinct device objects, at most `kAlpacaMaxDevices` of them, added in
order to a server without devices: the registry holds them in the order of the calls, each
device keeps its type and carries as `_device_number` the number of devices of its type added
before it (so 0 for the first of a type, then 1, 2, ...), and no two of the devices agree in
both type and number. -/
theorem device_numbers_count_same_type (uid : String) (objs : Nat → DeviceIdentity)
    (devices : List Nat) (hnodup : devices.Nodup)
    (hlen : devices.length ≤ kAlpacaMaxDevices) :
    (registerAll uid objs devices)._device = devices ∧
    (∀ k, k < devices.length →
      ((registerAll uid objs devices).objects (devices.getD k 0))._device_type =
        (objs (devices.getD k 0))._device_type ∧
      ((registerAll uid objs devices).objects (devices.getD k 0))._device_number =
        (sameTypeBefore objs devices k : Int)) ∧
    (∀ j k, j < k → k < devices.length →
      ¬ (((registerAll uid objs devices).objects (devices.getD j 0))._device_type =
          ((registerAll uid objs devices).objects (devices.getD k 0))._device_type ∧
         ((registerAll uid objs devices).objects (devices.getD j 0))._device_number =
          ((registerAll uid objs devices).objects (devices.getD k 0))._device_number)) := by
  have hinit : registeredAs objs [] { _device := [], objects := objs } :=
    ⟨rfl, fun _ => rfl, fun k hk => absurd hk (Nat.not_lt_zero k)⟩
  have h := foldl_registeredAs objs uid devices [] _ hinit (by simpa using hnodup)
    (by simpa using hlen)
  rw [List.nil_append] at h
  obtain ⟨h1, h2, h3⟩ := h
  refine ⟨h1, fun k hk => ⟨h2 _, h3 k hk⟩, fun j k hjk hk => ?_⟩
  rintro ⟨ht, hn⟩
  have hj : j < devices.length := Nat.lt_trans hjk hk
  have hlt := sameTypeBefore_lt objs devices j k hjk hk (by
    have := ht
    unfold registerAll at this
    rw [h2, h2] at this
    exact this)
  have hnum : (sameTypeBefore objs devices j : Int) = (sameTypeBefore objs devices k : Int) := by
    have := hn
    unfold registerAll at this
    rw [h3 j hj, h3 k hk] at this
    exact this
  omega

theorem device_numbers_count_same_type_witness :
    [100, 200, 300].Nodup ∧ [100, 200, 300].length ≤ kAlpacaMaxDevices ∧
    ((registerAll "A0B1C2D3E4F5" threeDevices [100, 200, 300]).objects 100)._device_number = 0 ∧
    ((registerAll "A0B1C2D3E4F5" threeDevices [100, 200, 300]).objects 200)._device_number = 0 ∧
    ((registerAll "A0B1C2D3E4F5" threeDevices [100, 200, 300]).objects 300)._device_number = 1 ∧
    ((registerAll "A0B1C2D3E4F5" threeDevices [100, 200, 300]).objects 300)._device_uid =
      "switch-A0B1C2D3E4F501" :=
  ⟨by decide, by decide,
   ((device_numbers_count_same_type "A0B1C2D3E4F5" threeDevices [100, 200, 300] (by decide)
      (by decide)).2.1 0 (by decide)).2,
   ((device_numbers_count_same_type "A0B1C2D3E4F5" threeDevices [100, 200, 300] (by decide)
      (by decide)).2.1 1 (by decide)).2,
   ((device_numbers_count_same_type "A0B1C2D3E4F5" threeDevices [100, 200, 300] (by decide)
      (by decide)).2.1 2 (by decide)).2,
   by decide⟩

/-! ## JSON objects: lookup after assignment -/

theorem lookup_setMember_self (key : String) (v : JsonVariant)
    (m : List (String × JsonVariant)) : (setMember key v m).lookup key = some v := by
  induction m with
  | nil => simp [setMember, List.lookup]
  | cons kw rest ih =>
    obtain ⟨k, w⟩ := kw
    simp only [setMember]
    by_cases h : k = key
    · subst h
      simp [List.lookup]
    · have h1 : (k == key) = false := by simp [h]
      have h2 : (key == k) = false := by simp [Ne.symm h]
      simp only [h1, Bool.false_eq_true, if_false, List.lookup_cons, h2, ih]

theorem lookup_setMember_ne (key k' : String) (v : JsonVariant)
    (m : List (String × JsonVariant)) (hne : k' ≠ key) :
    (setMember key v m).lookup k' = m.lookup k' := by
  induction m with
  | nil =>
    have h2 : (k' == key) = false := by simp [hne]
    simp [setMember, List.lookup, h2]
  | cons kw rest ih =>
    obtain ⟨k, w⟩ := kw
    simp only [setMember]
    by_cases h : k = key
    · subst h
      have h2 : (k' == k) = false := by simp [hne]
      simp [List.lookup, h2]
    · have h1 : (k == key) = false := by simp [h]
      simp only [h1, Bool.false_eq_true, if_false, List.lookup_cons, ih]

theorem get_set_self (m : List (String × JsonVariant)) (key : String) (v : JsonVariant) :
    ((JsonVariant.obj m).set key v).get key = v := by
  simp only [JsonVariant.set, JsonVariant.get, lookup_setMember_self, Option.getD_some]

theorem get_set_ne (root : JsonVariant) (key k' : String) (v : JsonVariant)
    (hne : k' ≠ key) : (root.set key v).get k' = root.get k' := by
  cases root with
  | obj m => simp only [JsonVariant.set, JsonVariant.get, lookup_setMember_ne _ _ _ _ hne]
  | null => rfl
  | bool _ => rfl
  | int _ => rfl
  | str _ => rfl
  | arr _ => rfl

theorem set_obj (m : List (String × JsonVariant)) (key : String) (v : JsonVariant) :
    (JsonVariant.obj m).set key v = .obj (setMember key v m) := rfl

/-! ## The enabled keys -/

theorem enabledList_append (a b : List JsonVariant) :
    enabledList (a ++ b) = enabledList a ++ enabledList b := by
  induction a with
  | nil => rfl
  | cons x rest ih =>
    cases x with
    | str s =>
      show enabledList (JsonVariant.str s :: (rest ++ b)) = _
      simp only [enabledList]
      split_ifs
      · exact ih
      · rw [ih]
        rfl
    | null => simpa [enabledList] using ih
    | bool _ => simpa [enabledList] using ih
    | int _ => simpa [enabledList] using ih
    | arr _ => simpa [enabledList] using ih
    | obj _ => simpa [enabledList] using ih

theorem enabledList_strs (l : List KasaPlug)
    (hne : ∀ p ∈ l, (cleanedStableKey p).data.isEmpty = false) :
    enabledList (l.map (fun p => JsonVariant.str (cleanedStableKey p))) =
      l.map cleanedStableKey := by
  induction l with
  | nil => rfl
  | cons p rest ih =>
    simp only [List.map_cons, enabledList, hne p (List.mem_cons_self _ _), Bool.false_eq_true,
      if_false, ih (fun q hq => hne q (List.mem_cons_of_mem _ hq))]

theorem writeLoop_enabled_keys (l : List KasaPlug)
    (hne : ∀ p ∈ l, (cleanedStableKey p).data.isEmpty = false) :
    ∀ (i : Nat) (s m : List (String × JsonVariant)) (e : List JsonVariant),
      (writeLoop i l (s, m, e)).2.2 =
        e ++ (l.filter (fun p => p.enabled)).map (fun p => JsonVariant.str (cleanedStableKey p)) := by
  induction l with
  | nil => intro i s m e; simp [writeLoop]
  | cons p rest ih =>
    intro i s m e
    have hp := hne p (List.mem_cons_self _ _)
    have hw : writeStableKey i p = cleanedStableKey p := by
      unfold writeStableKey
      rw [hp]
      rfl
    simp only [writeLoop, hw]
    rw [ih (fun q hq => hne q (List.mem_cons_of_mem _ hq))]
    cases hen : p.enabled
    · simp [List.filter, hen]
    · simp [List.filter, hen]

theorem written_enabled_keys (discovered : List KasaPlug) (hpos : discovered.length > 0) :
    (Switch.AlpacaWriteJson discovered (.obj [])).get "KasaEnabledKeys" =
      .arr (writeLoop 0 discovered ([], [], [])).2.2 ∧
    (Switch.AlpacaWriteJson discovered (.obj [])).get "KasaDiscoveryTrigger" = .null ∧
    (Switch.AlpacaWriteJson discovered (.obj [])).get "KasaRecheckSaved" = .null := by
  unfold Switch.AlpacaWriteJson
  rw [if_pos hpos]
  refine ⟨?_, ?_, ?_⟩
  · simp only [set_obj]
    exact get_set_self _ _ _
  · rw [get_set_ne _ _ _ _ (by decide), get_set_ne _ _ _ _ (by decide),
      get_set_ne _ _ _ _ (by decide), get_set_ne _ _ _ _ (by decide),
      get_set_ne _ _ _ _ (by decide), get_set_ne _ _ _ _ (by decide)]
    rfl
  · rw [get_set_ne _ _ _ _ (by decide), get_set_ne _ _ _ _ (by decide),
      get_set_ne _ _ _ _ (by decide), get_set_ne _ _ _ _ (by decide),
      get_set_ne _ _ _ _ (by decide), get_set_ne _ _ _ _ (by decide)]
    rfl

/-- With no empty key and no key shared by plugs whose flags differ, the flag computed from
the enabled keys is the plug's own flag. -/
theorem enabled_flag_recovered (discovered : List KasaPlug)
    (hne : ∀ p ∈ discovered, (cleanedStableKey p).data.isEmpty = false)
    (hshare : ∀ p ∈ discovered, ∀ q ∈ discovered,
      cleanedStableKey p = cleanedStableKey q → p.enabled = q.enabled)
    (p : KasaPlug) (hp : p ∈ discovered) :
    (enabledList (writeLoop 0 discovered ([], [], [])).2.2).contains (readStableKey p) =
      p.enabled := by
  have hr : readStableKey p = cleanedStableKey p := by
    unfold readStableKey
    rw [hne p hp]
    rfl
  rw [writeLoop_enabled_keys discovered hne, List.nil_append, hr,
    enabledList_strs _ (fun q hq => hne q (List.mem_filter.mp hq).1)]
  cases hen : p.enabled
  · rw [Bool.eq_false_iff]
    intro hc
    have hmem := List.elem_iff.mp hc
    obtain ⟨q, hq, hqk⟩ := List.mem_map.mp hmem
    have hq' := List.mem_filter.mp hq
    have := hshare q hq'.1 p hp hqk
    rw [hq'.2, hen] at this
    exact absurd this (by decide)
  · exact List.elem_iff.mpr (List.mem_map.mpr ⟨p, List.mem_filter.mpr ⟨hp, hen⟩, rfl⟩)

/-- C29 (as amended): for every list of discovered plugs in which at least one plug is
enabled, no stable key is empty before the fallback and plugs with the same stable key have
the same enabled flag, `Switch::AlpacaReadJson` applied to what `Switch::AlpacaWriteJson`
produced for the list (the whole object, or its `KasaEnabledKeys` array alone) returns from
the path of the enabled keys and leaves the list, so every enabled flag, as it was; and the
stable key that the read hook computes for a plug is the key that the write hook emitted for
it. -/
theorem enabled_selection_round_trip (discovered : List KasaPlug)
    (hen : ∃ p ∈ discovered, p.enabled = true)
    (hne : ∀ p ∈ discovered, (cleanedStableKey p).data.isEmpty = false)
    (hshare : ∀ p ∈ discovered, ∀ q ∈ discovered,
      cleanedStableKey p = cleanedStableKey q → p.enabled = q.enabled) :
    Switch.AlpacaReadJson discovered (Switch.AlpacaWriteJson discovered (.obj [])) =
      some discovered ∧
    Switch.AlpacaReadJson discovered
      (.obj [("KasaEnabledKeys",
        (Switch.AlpacaWriteJson discovered (.obj [])).get "KasaEnabledKeys")]) =
      some discovered ∧
    (∀ (i : Nat) (p : KasaPlug), p ∈ discovered → readStableKey p = writeStableKey i p) := by
  obtain ⟨p0, hp0, hp0e⟩ := hen
  have hpos : discovered.length > 0 := List.length_pos_of_mem hp0
  obtain ⟨hk, ht, hrc⟩ := written_enabled_keys discovered hpos
  have hitems : (writeLoop 0 discovered ([], [], [])).2.2.length > 0 := by
    rw [writeLoop_enabled_keys discovered hne, List.nil_append, List.length_map]
    exact List.length_pos_of_mem (List.mem_filter.mpr ⟨hp0, hp0e⟩)
  have hmap : discovered.map (fun plug =>
      { plug with
        enabled := (enabledList (writeLoop 0 discovered ([], [], [])).2.2).contains
          (readStableKey plug) }) = discovered := by
    conv_rhs => rw [← List.map_id discovered]
    apply List.map_congr_left
    intro p hp
    rw [enabled_flag_recovered discovered hne hshare p hp]
    rfl
  refine ⟨?_, ?_, fun i p hp => ?_⟩
  · unfold Switch.AlpacaReadJson
    rw [ht, hrc, hk]
    simp only [asBool, Bool.false_eq_true, if_false, hitems, if_true, hmap]
  · unfold Switch.AlpacaReadJson
    rw [hk]
    have h1 : (JsonVariant.obj [("KasaEnabledKeys",
        JsonVariant.arr (writeLoop 0 discovered ([], [], [])).2.2)]).get "KasaDiscoveryTrigger" =
        .null := rfl
    have h2 : (JsonVariant.obj [("KasaEnabledKeys",
        JsonVariant.arr (writeLoop 0 discovered ([], [], [])).2.2)]).get "KasaRecheckSaved" =
        .null := rfl
    have h3 : (JsonVariant.obj [("KasaEnabledKeys",
        JsonVariant.arr (writeLoop 0 discovered ([], [], [])).2.2)]).get "KasaEnabledKeys" =
        .arr (writeLoop 0 discovered ([], [], [])).2.2 := rfl
    rw [h1, h2, h3]
    simp only [asBool, Bool.false_eq_true, if_false, hitems, if_true, hmap]
  · unfold readStableKey writeStableKey
    rw [hne p hp]
    rfl

theorem enabled_selection_round_trip_witness :
    (∃ p ∈ twoPlugs, p.enabled = true) ∧
    Switch.AlpacaReadJson twoPlugs (Switch.AlpacaWriteJson twoPlugs (.obj [])) =
      some twoPlugs ∧
    (enabledList (writeLoop 0 twoPlugs ([], [], [])).2.2) = ["192_168_1_20_Lamp_1"] :=
  ⟨by decide,
   (enabled_selection_round_trip twoPlugs (by decide) (by decide) (by decide)).1,
   by decide⟩

/-- C29 (as written) fails for two plugs behind one address whose names differ in a cleaned
character, the first enabled and the second not: both hooks give both plugs the stable key
`192_168_1_20_Lamp_1`, so the array written holds that key once and reading it back enables
the second plug as well. -/
theorem enabled_selection_shared_key_enables_both :
    (∃ p ∈ twoLamps, p.enabled = true) ∧
    twoLamps.map (fun p => p.enabled) = [true, false] ∧
    twoLamps.map readStableKey = ["192_168_1_20_Lamp_1", "192_168_1_20_Lamp_1"] ∧
    enabledList (writeLoop 0 twoLamps ([], [], [])).2.2 = ["192_168_1_20_Lamp_1"] ∧
    (Switch.AlpacaReadJson twoLamps (Switch.AlpacaWriteJson twoLamps (.obj []))).map
      (fun l => l.map (fun p => p.enabled)) = some [true, true] := by
  refine ⟨by decide, by decide, by decide, by decide, by decide⟩

/-! ## Loading the settings -/

theorem AlpacaReadJson_fields (d : DeviceSettings) (root : JsonVariant) :
    (AlpacaReadJson d root)._device_uid = d._device_uid ∧
    (asCString ((root.get "General").get "Name") = none →
      (AlpacaReadJson d root)._device_name = d._device_name) ∧
    (asCString ((root.get "General").get "Description") = none →
      (AlpacaReadJson d root)._device_description = d._device_description) ∧
    (∀ name, asCString ((root.get "General").get "Name") = some name →
      (AlpacaReadJson d root)._device_name = strlcpy 33 name) ∧
    (∀ desc, asCString ((root.get "General").get "Description") = some desc →
      (AlpacaReadJson d root)._device_description = strlcpy 129 desc) := by
  unfold AlpacaReadJson
  cases h1 : asCString ((root.get "General").get "Name") <;>
  cases h2 : asCString ((root.get "General").get "Description") <;>
  simp

/-- C22: on `LoadSettings`, the read hook of a registered device is called exactly when the
document has an object under the device's unique id; a device without such an object keeps
its members, name and description included; and for a device that has one, a missing (or
non-string) `General.Name` leaves the name as it was and a missing (or non-string)
`General.Description` leaves the description as it was. -/
theorem load_calls_hook_only_for_sub_object (cfg : AlpacaServerConfig)
    (devices : List DeviceSettings) (root : JsonVariant) (i : Nat) (d : DeviceSettings)
    (hd : devices.get? i = some d) :
    (i ∈ (LoadSettings cfg devices root).2.2 ↔ isObject (root.get d._device_uid) = true) ∧
    (isObject (root.get d._device_uid) = false →
      (LoadSettings cfg devices root).2.1.get? i = some d) ∧
    (isObject (root.get d._device_uid) = true →
      ∃ d', (LoadSettings cfg devices root).2.1.get? i = some d' ∧
        d' = AlpacaReadJson d (root.get d._device_uid) ∧
        (asCString (((root.get d._device_uid).get "General").get "Name") = none →
          d'._device_name = d._device_name) ∧
        (asCString (((root.get d._device_uid).get "General").get "Description") = none →
          d'._device_description = d._device_description)) := by
  have hi : i < devices.length := by
    rw [List.get?_eq_getElem?] at hd
    exact (List.getElem?_eq_some_iff.mp hd).1
  have hmap : (LoadSettings cfg devices root).2.1.get? i =
      some (if isObject (root.get d._device_uid) then AlpacaReadJson d (root.get d._device_uid)
        else d) := by
    simp only [LoadSettings, List.get?_eq_getElem?, List.getElem?_map] at hd ⊢
    rw [hd]
    rfl
  refine ⟨?_, fun hf => ?_, fun ht => ?_⟩
  · simp only [LoadSettings, List.mem_filter, List.mem_range, hd, hi, true_and]
  · rw [hmap, hf]
    rfl
  · refine ⟨AlpacaReadJson d (root.get d._device_uid), ?_, rfl,
      (AlpacaReadJson_fields d _).2.1, (AlpacaReadJson_fields d _).2.2.1⟩
    rw [hmap, ht]
    rfl

theorem load_calls_hook_only_for_sub_object_witness :
    [bootSwitch, { bootSwitch with _device_uid := "switch-A0B1C2D3E4F501" }].get? 0 =
      some bootSwitch ∧
    (0 ∈ (LoadSettings sampleConfig
      [bootSwitch, { bootSwitch with _device_uid := "switch-A0B1C2D3E4F501" }]
      partialDocument).2.2 ↔ isObject (partialDocument.get bootSwitch._device_uid) = true) ∧
    (LoadSettings sampleConfig
      [bootSwitch, { bootSwitch with _device_uid := "switch-A0B1C2D3E4F501" }]
      partialDocument).2.1 =
      [{ bootSwitch with _device_description := "Roof power" },
       { bootSwitch with _device_uid := "switch-A0B1C2D3E4F501" }] ∧
    (LoadSettings sampleConfig
      [bootSwitch, { bootSwitch with _device_uid := "switch-A0B1C2D3E4F501" }]
      partialDocument).2.2 = [0] :=
  ⟨rfl,
   (load_calls_hook_only_for_sub_object sampleConfig
      [bootSwitch, { bootSwitch with _device_uid := "switch-A0B1C2D3E4F501" }] partialDocument 0
      bootSwitch rfl).1,
   by decide, by decide⟩

/-! ## Saving and loading the settings of the switch device -/

set_option maxRecDepth 20000 in
/-- C21: the switch device of the program is an object of class `Switch`, whose
`AlpacaWriteJson` writes no `General` object. With the device renamed to `Roof`, the document
that `SaveSettings` builds restores the server configuration on `LoadSettings`, and the read
hook of the device is called, but name and description of the device stay what they were
before the load (after a restart `switch-0` and `Alpaca Switch Template`), not what was
saved. A device whose class inherits `AlpacaDevice::AlpacaWriteJson` gets both back. -/
theorem switch_name_not_restored :
    isObject (((SaveSettings quietConfig "A0B1C2D3E4F5"
      [{ settings := renamedSwitch, discovered_switches := some twoPlugs }]).get
        "switch-A0B1C2D3E4F500").get "General") = false ∧
    LoadSettings sampleConfig [bootSwitch]
      (SaveSettings quietConfig "A0B1C2D3E4F5"
        [{ settings := renamedSwitch, discovered_switches := some twoPlugs }]) =
      (quietConfig, [bootSwitch], [0]) ∧
    LoadSettings sampleConfig [bootSwitch]
      (SaveSettings quietConfig "A0B1C2D3E4F5"
        [{ settings := renamedSwitch, discovered_switches := some [] }]) =
      (quietConfig, [bootSwitch], [0]) ∧
    LoadSettings sampleConfig [bootSwitch]
      (SaveSettings quietConfig "A0B1C2D3E4F5"
        [{ settings := renamedSwitch, discovered_switches := none }]) =
      (quietConfig, [renamedSwitch], [0]) := by
  refine ⟨by decide, by decide, by decide, by decide⟩

/-! ## The round trip of the settings for devices that inherit the write hook -/

theorem isObject_set (root : JsonVariant) (key : String) (v : JsonVariant) :
    isObject (root.set key v) = isObject root := by
  cases root <;> rfl

theorem get_set_self_of_isObject (root : JsonVariant) (key : String) (v : JsonVariant)
    (h : isObject root = true) : (root.set key v).get key = v := by
  cases root with
  | obj m => exact get_set_self m key v
  | null => exact absurd h (by decide)
  | bool _ => exact absurd h (by simp [isObject])
  | int _ => exact absurd h (by simp [isObject])
  | str _ => exact absurd h (by simp [isObject])
  | arr _ => exact absurd h (by simp [isObject])

theorem foldl_set_isObject {α : Type} (uid : α → String) (hook : α → JsonVariant) (l : List α) :
    ∀ root : JsonVariant,
      isObject (l.foldl (fun r d => r.set (uid d) (hook d)) root) = isObject root := by
  induction l with
  | nil => intro root; rfl
  | cons x rest ih => intro root; rw [List.foldl_cons, ih, isObject_set]

theorem foldl_set_get_of_not_mem {α : Type} (uid : α → String) (hook : α → JsonVariant)
    (l : List α) (k : String) (hk : k ∉ l.map uid) :
    ∀ root : JsonVariant, (l.foldl (fun r d => r.set (uid d) (hook d)) root).get k = root.get k := by
  induction l with
  | nil => intro root; rfl
  | cons x rest ih =>
    intro root
    rw [List.map_cons, List.mem_cons, not_or] at hk
    rw [List.foldl_cons, ih hk.2, get_set_ne _ _ _ _ hk.1]

theorem foldl_set_get_of_mem {α : Type} (uid : α → String) (hook : α → JsonVariant)
    (l : List α) (hnodup : (l.map uid).Nodup) (d : α) (hd : d ∈ l) :
    ∀ root : JsonVariant, isObject root = true →
      (l.foldl (fun r d => r.set (uid d) (hook d)) root).get (uid d) = hook d := by
  induction l with
  | nil => exact absurd hd (List.not_mem_nil d)
  | cons x rest ih =>
    intro root hroot
    rw [List.map_cons, List.nodup_cons] at hnodup
    rw [List.foldl_cons]
    rcases List.mem_cons.mp hd with hx | hrest
    · subst hx
      rw [foldl_set_get_of_not_mem uid hook rest _ hnodup.1,
        get_set_self_of_isObject _ _ _ hroot]
    · exact ih hnodup.2 hrest _ (by rw [isObject_set]; exact hroot)

theorem strlcpy_of_fits (size : Nat) (src : String) (h : src.data.length ≤ size - 1) :
    strlcpy size src = src := by
  unfold strlcpy
  rw [List.take_of_length_le h]

theorem writeJson_members (cfg : AlpacaServerConfig) (_uid : String) :
    (_writeJson cfg _uid (.obj [])).get "Name" = .str cfg._mng_server_name ∧
    (_writeJson cfg _uid (.obj [])).get "TCP_port" = .int cfg._port_tcp ∧
    (_writeJson cfg _uid (.obj [])).get "UDP_port" = .int cfg._port_udp ∧
    (_writeJson cfg _uid (.obj [])).get "SYSLOG_host" = .str cfg._syslog_host ∧
    (_writeJson cfg _uid (.obj [])).get "LOG_level" = .int cfg._log_level ∧
    (_writeJson cfg _uid (.obj [])).get "SERIAL_log" =
      .int (if cfg._serial_log then 1 else 0) ∧
    isObject (_writeJson cfg _uid (.obj [])) = true :=
  ⟨rfl, rfl, rfl, rfl, rfl, rfl, rfl⟩

theorem readJson_of_members (cfg0 cfg : AlpacaServerConfig) (root : JsonVariant)
    (hports : cfg._port_tcp ≤ 65535 ∧ cfg._port_udp ≤ 65535)
    (hlog : SLOG_WARNING ≤ cfg._log_level ∧ cfg._log_level ≤ SLOG_DEBUG)
    (h1 : root.get "Name" = .str cfg._mng_server_name)
    (h2 : root.get "TCP_port" = .int cfg._port_tcp)
    (h3 : root.get "UDP_port" = .int cfg._port_udp)
    (h4 : root.get "SYSLOG_host" = .str cfg._syslog_host)
    (h5 : root.get "LOG_level" = .int cfg._log_level)
    (h6 : root.get "SERIAL_log" = .int (if cfg._serial_log then 1 else 0)) :
    _readJson cfg0 root = cfg := by
  obtain ⟨hp1, hp2⟩ := hports
  obtain ⟨hl1, hl2⟩ := hlog
  unfold SLOG_WARNING at hl1
  unfold SLOG_DEBUG at hl2
  have e1 : orUInt16 (.int cfg._port_tcp) cfg0._port_tcp = cfg._port_tcp := by
    unfold orUInt16
    simp only
    rw [if_pos (by omega)]
    exact Int.toNat_natCast _
  have e2 : orUInt16 (.int cfg._port_udp) cfg0._port_udp = cfg._port_udp := by
    unfold orUInt16
    simp only
    rw [if_pos (by omega)]
    exact Int.toNat_natCast _
  have e3 : orInt (.int cfg._log_level) SLOG_DEBUG = cfg._log_level := by
    unfold orInt
    simp only
    rw [if_pos (by omega)]
  have e4 : SetLvlMsk ((((cfg._log_level : Int) % 2 ^ 16).toNat) % 2 ^ 8) = cfg._log_level := by
    have : (((cfg._log_level : Int) % 2 ^ 16).toNat) % 2 ^ 8 = cfg._log_level := by omega
    rw [this]
    unfold SetLvlMsk SLOG_WARNING SLOG_DEBUG
    rw [if_pos ⟨hl1, hl2⟩]
  have e5 : (if orInt (.int (if cfg._serial_log then 1 else 0)) 1 = 0 then false else true) =
      cfg._serial_log := by
    cases cfg._serial_log <;> simp [orInt]
  unfold _readJson
  simp only [h1, h2, h3, h4, h5, h6, orString, e1, e2, e3, e4, e5]

theorem AlpacaReadJson_AlpacaWriteJson (d b : DeviceSettings)
    (huid : b._device_uid = d._device_uid)
    (hfit : d._device_name.data.length ≤ 32 ∧ d._device_description.data.length ≤ 128) :
    AlpacaReadJson b (AlpacaWriteJson d (.obj [])) = d := by
  have h1 : asCString (((AlpacaWriteJson d (.obj [])).get "General").get "Name") =
      some d._device_name := rfl
  have h2 : asCString (((AlpacaWriteJson d (.obj [])).get "General").get "Description") =
      some d._device_description := rfl
  unfold AlpacaReadJson
  rw [h1, h2]
  simp only [strlcpy_of_fits 33 _ hfit.1, strlcpy_of_fits 129 _ hfit.2, huid]

/-- The round trip of the settings when every registered device inherits the write hook of
`AlpacaDevice`: for ports within `uint16_t`, a log level between `SLOG_WARNING` and
`SLOG_DEBUG`, pairwise distinct unique ids that are none of the keys of the server, and names
and descriptions that fit their buffers, loading the saved document gives back the saved
configuration and the saved names and descriptions, from whatever configuration and device
texts the load starts. -/
theorem settings_round_trip_inherited_hooks (cfg0 cfg : AlpacaServerConfig) (_uid : String)
    (devices : List DeviceSettings) (reset : DeviceSettings → DeviceSettings)
    (hports : cfg._port_tcp ≤ 65535 ∧ cfg._port_udp ≤ 65535)
    (hlog : SLOG_WARNING ≤ cfg._log_level ∧ cfg._log_level ≤ SLOG_DEBUG)
    (hreset : ∀ d, (reset d)._device_uid = d._device_uid)
    (hnodup : (devices.map (fun d => d._device_uid)).Nodup)
    (hkeys : ∀ k ∈ ["Name", "TCP_port", "UDP_port", "SYSLOG_host", "LOG_level", "SERIAL_log"],
      k ∉ devices.map (fun d => d._device_uid))
    (hfit : ∀ d ∈ devices,
      d._device_name.data.length ≤ 32 ∧ d._device_description.data.length ≤ 128) :
    LoadSettings cfg0 (devices.map reset)
      (SaveSettings cfg _uid
        (devices.map (fun d => { settings := d, discovered_switches := none }))) =
      (cfg, devices, List.range devices.length) := by
  have hdoc : SaveSettings cfg _uid
      (devices.map (fun d => { settings := d, discovered_switches := none })) =
      devices.foldl (fun r d => r.set d._device_uid (AlpacaWriteJson d (.obj [])))
        (_writeJson cfg _uid (.obj [])) := by
    unfold SaveSettings
    rw [List.foldl_map]
    rfl
  obtain ⟨w1, w2, w3, w4, w5, w6, wobj⟩ := writeJson_members cfg _uid
  have hserver : ∀ k ∈ ["Name", "TCP_port", "UDP_port", "SYSLOG_host", "LOG_level",
      "SERIAL_log"], (SaveSettings cfg _uid
        (devices.map (fun d => { settings := d, discovered_switches := none }))).get k =
      (_writeJson cfg _uid (.obj [])).get k := by
    intro k hk
    rw [hdoc]
    exact foldl_set_get_of_not_mem (fun d : DeviceSettings => d._device_uid)
      (fun d => AlpacaWriteJson d (.obj [])) devices k (hkeys k hk) _
  have hdev : ∀ d ∈ devices, (SaveSettings cfg _uid
      (devices.map (fun d => { settings := d, discovered_switches := none }))).get
        (reset d)._device_uid = AlpacaWriteJson d (.obj []) := by
    intro d hd
    rw [hdoc, hreset]
    exact foldl_set_get_of_mem (fun d : DeviceSettings => d._device_uid)
      (fun d => AlpacaWriteJson d (.obj [])) devices hnodup d hd _ wobj
  have hcfg : _readJson cfg0 (SaveSettings cfg _uid
      (devices.map (fun d => { settings := d, discovered_switches := none }))) = cfg :=
    readJson_of_members cfg0 cfg _ hports hlog
      ((hserver _ (by decide)).trans w1) ((hserver _ (by decide)).trans w2)
      ((hserver _ (by decide)).trans w3) ((hserver _ (by decide)).trans w4)
      ((hserver _ (by decide)).trans w5) ((hserver _ (by decide)).trans w6)
  have hmap : (devices.map reset).map (fun d =>
      if isObject ((SaveSettings cfg _uid
          (devices.map (fun d => { settings := d, discovered_switches := none }))).get
            d._device_uid) then
        AlpacaReadJson d ((SaveSettings cfg _uid
          (devices.map (fun d => { settings := d, discovered_switches := none }))).get
            d._device_uid)
      else d) = devices := by
    rw [List.map_map]
    conv_rhs => rw [← List.map_id devices]
    apply List.map_congr_left
    intro d hd
    simp only [Function.comp, hdev d hd, id]
    rw [if_pos (show isObject (AlpacaWriteJson d (.obj [])) = true from rfl)]
    exact AlpacaReadJson_AlpacaWriteJson d (reset d) (hreset d) (hfit d hd)
  have hcalls : (List.range (devices.map reset).length).filter (fun i =>
      match (devices.map reset).get? i with
      | some d => isObject ((SaveSettings cfg _uid
          (devices.map (fun d => { settings := d, discovered_switches := none }))).get
            d._device_uid)
      | none => false) = List.range devices.length := by
    rw [List.length_map]
    apply List.filter_eq_self.mpr
    intro i hi
    have hlt : i < devices.length := List.mem_range.mp hi
    have hget : (devices.map reset).get? i = some (reset (devices.get ⟨i, hlt⟩)) := by
      rw [List.get?_eq_getElem?, List.getElem?_map, List.getElem?_eq_getElem hlt]
      rfl
    simp only [hget, hdev _ (List.get_mem devices i hlt)]
    rfl
  unfold LoadSettings
  rw [hcfg, hmap, hcalls]

/-! ## Parameters in front of an argument with an empty name -/

theorem paramIndexFrom_examined (name : String) (sp : Spelling_t) :
    ∀ (args : List (String × String)) (i : Nat),
      (((examinedArgs args).find?
          (fun a => if sp = .kStrict then equals a.1 name else equalsIgnoreCase a.1 name)).map
          Prod.snd = none → _paramIndexFrom name sp args i = -1) ∧
      (∀ v, ((examinedArgs args).find?
          (fun a => if sp = .kStrict then equals a.1 name else equalsIgnoreCase a.1 name)).map
          Prod.snd = some v →
        ∃ k : Nat, _paramIndexFrom name sp args i = ((i + k : Nat) : Int) ∧
          (args.get? k).map Prod.snd = some v) := by
  intro args
  induction args with
  | nil =>
    intro i
    exact ⟨fun _ => rfl, fun v hv => by simp [examinedArgs] at hv⟩
  | cons a rest ih =>
    intro i
    obtain ⟨arg_name, w⟩ := a
    by_cases hne : arg_name = ""
    · subst hne
      refine ⟨fun _ => by simp [_paramIndexFrom], fun v hv => ?_⟩
      simp [examinedArgs] at hv
    · have hex : examinedArgs ((arg_name, w) :: rest) = (arg_name, w) :: examinedArgs rest := by
        unfold examinedArgs
        rw [List.takeWhile_cons_of_pos]
        simpa using hne
      rw [hex]
      by_cases ht : (if sp = .kStrict then equals arg_name name
          else equalsIgnoreCase arg_name name) = true
      · have hf : List.find?
            (fun a : String × String =>
              if sp = .kStrict then equals a.1 name else equalsIgnoreCase a.1 name)
            ((arg_name, w) :: examinedArgs rest) = some (arg_name, w) :=
          List.find?_cons_of_pos _ ht
        rw [hf]
        have hp : _paramIndexFrom name sp ((arg_name, w) :: rest) i = (i : Int) := by
          simp only [_paramIndexFrom, ne_eq, hne, not_false_eq_true, if_true, ht]
        refine ⟨fun h => by simp at h, fun v hv => ⟨0, by rw [hp]; rfl, ?_⟩⟩
        simpa using hv
      · have hf : List.find?
            (fun a : String × String =>
              if sp = .kStrict then equals a.1 name else equalsIgnoreCase a.1 name)
            ((arg_name, w) :: examinedArgs rest) =
            List.find?
              (fun a : String × String =>
                if sp = .kStrict then equals a.1 name else equalsIgnoreCase a.1 name)
              (examinedArgs rest) :=
          List.find?_cons_of_neg _ ht
        rw [hf]
        have hp : _paramIndexFrom name sp ((arg_name, w) :: rest) i =
            _paramIndexFrom name sp rest (i + 1) := by
          simp only [_paramIndexFrom, ne_eq, hne, not_false_eq_true, if_true, ht,
            Bool.false_eq_true, if_false]
        obtain ⟨h1, h2⟩ := ih (i + 1)
        rw [hp]
        refine ⟨h1, fun v hv => ?_⟩
        obtain ⟨k, hk, hg⟩ := h2 v hv
        refine ⟨k + 1, ?_, by simpa using hg⟩
        rw [hk]
        congr 1
        omega

/-- A parameter that is absent in front of the first argument with an empty name is not
found by `_paramIndex`. -/
theorem paramIndex_of_examinedParam_none (req : AsyncWebServerRequest) (name : String)
    (sp : Spelling_t) (h : examinedParam req name sp = none) : _paramIndex req name sp = -1 :=
  (paramIndexFrom_examined name sp req.args 0).1 h

/-- A parameter that is present in front of the first argument with an empty name is found by
`_paramIndex`, and `request->arg` at the index found is the value of its first occurrence. -/
theorem paramIndex_of_examinedParam_some (req : AsyncWebServerRequest) (name : String)
    (sp : Spelling_t) (v : String) (h : examinedParam req name sp = some v) :
    0 ≤ _paramIndex req name sp ∧ req.arg (_paramIndex req name sp) = v := by
  obtain ⟨k, hk, hg⟩ := (paramIndexFrom_examined name sp req.args 0).2 v h
  have hidx : _paramIndex req name sp = (k : Int) := by
    unfold _paramIndex
    rw [hk, Nat.zero_add]
  rw [hidx]
  refine ⟨Int.natCast_nonneg k, ?_⟩
  unfold AsyncWebServerRequest.arg
  rw [Int.toNat_natCast, hg]
  rfl

theorem toDigitsCore_head_pos : ∀ (fuel n : Nat) (ds : List Char), n < fuel → 1 ≤ n →
    ∃ d cs, 1 ≤ d ∧ d < 10 ∧ Nat.toDigitsCore 10 fuel n ds = Nat.digitChar d :: cs := by
  intro fuel
  induction fuel with
  | zero => intro n ds h; exact absurd h (Nat.not_lt_zero n)
  | succ fuel ih =>
    intro n ds hn h1
    by_cases h0 : n / 10 = 0
    · have hlt : n < 10 := by omega
      exact ⟨n % 10, ds, by omega, Nat.mod_lt n (by decide), by simp [Nat.toDigitsCore, h0]⟩
    · obtain ⟨d, cs, hd1, hd, h⟩ := ih (n / 10) (Nat.digitChar (n % 10) :: ds) (by omega)
        (by omega)
      exact ⟨d, cs, hd1, hd, by simp only [Nat.toDigitsCore, h0, if_false]; exact h⟩

/-- After a first digit other than 0 the conversion `%i` reads a decimal number. -/
theorem sscanf_i_decimal (neg : Bool) (d : Nat) (cs : List Char) (hd1 : 1 ≤ d) (hd : d < 10)
    (s : String) (hs : scanSign (s.data.dropWhile isspace) = (neg, Nat.digitChar d :: cs)) :
    sscanf_i s =
      if (scanDigits 10 (Nat.digitChar d :: cs) 0 0).1 = 0 then none
      else some (clampInt32 (if neg then -((scanDigits 10 (Nat.digitChar d :: cs) 0 0).2 : Int)
        else ((scanDigits 10 (Nat.digitChar d :: cs) 0 0).2 : Int))) := by
  unfold sscanf_i
  rw [hs]
  interval_cases d <;> simp [Nat.digitChar]

/-- The conversion `%i` reads the decimal text of `n` back as `n`. -/
theorem sscanf_i_repr (n : Nat) : sscanf_i (Nat.repr n) = some (clampInt32 (n : Int)) := by
  by_cases h0 : n = 0
  · subst h0
    decide
  · obtain ⟨d, cs, hd1, hd, hhead⟩ :=
      toDigitsCore_head_pos (n + 1) n [] (Nat.lt_succ_self n) (by omega)
    obtain ⟨L, hL, hscan⟩ := scanDigits_toDigitsCore (n + 1) n [] (Nat.lt_succ_self n)
    have hsc := hscan 0 0
    simp only [scanDigits, Nat.zero_add, Nat.zero_mul] at hsc
    obtain ⟨hsp, hsg⟩ := digitChar_not_space_or_sign d hd cs
    have hsd : scanDigits 10 (Nat.digitChar d :: cs) 0 0 = (L, n) := by
      rw [← hhead]
      exact hsc
    have hs : scanSign ((Nat.repr n).data.dropWhile isspace) = (false, Nat.digitChar d :: cs) := by
      rw [repr_data]
      unfold Nat.toDigits
      rw [hhead, List.dropWhile_cons_of_neg (by simp [hsp])]
      exact hsg
    rw [sscanf_i_decimal false d cs hd1 hd _ hs, hsd]
    simp only
    rw [if_neg (by omega)]
    simp

/-- The conversion `%i` reads a minus sign and the decimal text of `n ≥ 1` as `-n`. -/
theorem sscanf_i_neg_repr (n : Nat) (hn : 1 ≤ n) :
    sscanf_i ("-" ++ Nat.repr n) = some (clampInt32 (-(n : Int))) := by
  obtain ⟨d, cs, hd1, hd, hhead⟩ := toDigitsCore_head_pos (n + 1) n [] (Nat.lt_succ_self n) hn
  obtain ⟨L, hL, hscan⟩ := scanDigits_toDigitsCore (n + 1) n [] (Nat.lt_succ_self n)
  have hsc := hscan 0 0
  simp only [scanDigits, Nat.zero_add, Nat.zero_mul] at hsc
  have hsd : scanDigits 10 (Nat.digitChar d :: cs) 0 0 = (L, n) := by
    rw [← hhead]
    exact hsc
  have hdata : ("-" ++ Nat.repr n).data = '-' :: Nat.digitChar d :: cs := by
    rw [String.data_append, repr_data]
    unfold Nat.toDigits
    rw [hhead]
    rfl
  have hs : scanSign (("-" ++ Nat.repr n).data.dropWhile isspace) =
      (true, Nat.digitChar d :: cs) := by
    rw [hdata, List.dropWhile_cons_of_neg (by decide)]
    rfl
  rw [sscanf_i_decimal true d cs hd1 hd _ hs, hsd]
  simp only
  rw [if_neg (by omega)]
  simp

theorem presentAndPositive_iff (req : AsyncWebServerRequest) (name : String)
    (sp : Spelling_t) :
    presentAndPositive req name sp = true ↔
      ∃ v n, examinedParam req name sp = some v ∧ sscanf_i v = some n ∧ 0 < n := by
  unfold presentAndPositive
  cases h : examinedParam req name sp with
  | none =>
    rw [paramIndex_of_examinedParam_none _ _ _ h]
    simp
  | some v =>
    obtain ⟨hidx, harg⟩ := paramIndex_of_examinedParam_some _ _ _ v h
    rw [harg]
    cases hs : sscanf_i v with
    | none => simp [hidx, hs]
    | some n => simp [hidx, hs]

/-! ## The status of the session check -/

set_option maxRecDepth 20000 in
/-- C7 as stated fails. In `?=x&ClientID=5&ClientTransactionID=7` both parameters are present
with the positive values 5 and 7, yet `checkClientDataAndConnection` leaves ErrorNumber 0x401
under both policies, because the lookup ends at the argument with the empty name. And for
`ClientID=08` the conversion `%i` reads an octal number, which ends in front of the 8: the
value is 0 and the ErrorNumber 0x401, although the decimal reading of the text is 8. -/
theorem check_rejects_identification_behind_empty_name :
    (identificationBehindEmptyName.args.find? (fun a => equals a.1 "ClientID")).map Prod.snd =
      some "5" ∧
    (identificationBehindEmptyName.args.find?
      (fun a => equals a.1 "ClientTransactionID")).map Prod.snd = some "7" ∧
    sscanf_i "5" = some 5 ∧ sscanf_i "7" = some 7 ∧
    (checkClientDataAndConnection emptyDevice identificationBehindEmptyName .kStrict
      10).1._rsp_status.error_code.toInt = 0x401 ∧
    (checkClientDataAndConnection emptyDevice identificationBehindEmptyName .kIgnoreCase
      10).1._rsp_status.error_code.toInt = 0x401 ∧
    sscanf_d "08" = some 8 ∧ sscanf_i "08" = some 0 ∧
    (checkClientDataAndConnection emptyDevice
      (identifiedRequest "/api/v1/switch/0/connected" "08" "7") .kIgnoreCase
      10).1._rsp_status.error_code.toInt = 0x401 := by
  refine ⟨by decide, by decide, by decide, by decide, by decide, by decide, by decide,
    by decide, by decide⟩

/-- C7, amended. For every request, spelling policy and table, `checkClientDataAndConnection`
leaves ErrorNumber 0 exactly when ClientID is present in front of the first argument with an
empty name and the conversion `%i` reads a value above 0 from it, and ClientTransactionID is
present there and `%i` reads a value above 0 from it; in every other case the ErrorNumber is
InvalidValue = 0x401; and the status is the same whatever device state (client table
included) and time the call starts from. -/
theorem check_status_depends_on_identification_only (dev : AlpacaDevice)
    (req : AsyncWebServerRequest) (sp : Spelling_t) (ms : Nat) :
    ((checkClientDataAndConnection dev req sp ms).1._rsp_status.error_code.toInt = 0 ↔
      ((∃ v n, examinedParam req "ClientID" sp = some v ∧ sscanf_i v = some n ∧ 0 < n) ∧
       (∃ v n, examinedParam req "ClientTransactionID" sp = some v ∧ sscanf_i v = some n ∧
         0 < n))) ∧
    ((checkClientDataAndConnection dev req sp ms).1._rsp_status.error_code.toInt = 0 ∨
      (checkClientDataAndConnection dev req sp ms).1._rsp_status.error_code.toInt = 0x401) ∧
    (∀ (dev' : AlpacaDevice) (ms' : Nat),
      (checkClientDataAndConnection dev' req sp ms').1._rsp_status =
        (checkClientDataAndConnection dev req sp ms).1._rsp_status) := by
  refine ⟨?_, ?_, fun dev' ms' => by
    rw [checkClientDataAndConnection_status, checkClientDataAndConnection_status]⟩
  · rw [checkClientDataAndConnection_status, ← presentAndPositive_iff,
      ← presentAndPositive_iff, ← GetParam_int32_positive, ← GetParam_int32_positive]
    split_ifs with h1 h2 h3 h4
    · simp [RspStatusClientIDNotFound, AlpacaErrorCode_t.toInt, h1]
    · simp [RspStatusClientIDInvalid, AlpacaErrorCode_t.toInt]
      intro _ h; exact absurd h (not_lt.mpr h2)
    · simp [RspStatusClientTransactionIDNotFound, AlpacaErrorCode_t.toInt, h3]
    · simp [RspStatusClientTransactionIDInvalid, AlpacaErrorCode_t.toInt]
      intro _ _ _; exact h4
    · simp only [AlpacaErrorCode_t.toInt, true_iff]
      exact ⟨⟨by simpa using h1, not_le.mp h2⟩, ⟨by simpa using h3, not_le.mp h4⟩⟩
  · rw [checkClientDataAndConnection_status]
    split_ifs <;>
      simp [RspStatusClientIDNotFound, RspStatusClientIDInvalid,
        RspStatusClientTransactionIDNotFound, RspStatusClientTransactionIDInvalid,
        AlpacaErrorCode_t.toInt]

/-! ## The bool parameter -/

set_option maxRecDepth 20000 in
/-- C14 as stated fails. In `?=x&Connected=true` a parameter named Connected exists and its
value is "true", yet `GetParam` for bool returns not-found under both policies and leaves the
output value as it was. -/
theorem GetParam_bool_misses_parameter_behind_empty_name :
    (connectedBehindEmptyName.args.find? (fun a => equals a.1 "Connected")).map Prod.snd =
      some "true" ∧
    equalsIgnoreCase "true" "true" = true ∧
    GetParam_bool connectedBehindEmptyName "Connected" false .kStrict = (false, false) ∧
    GetParam_bool connectedBehindEmptyName "Connected" false .kIgnoreCase = (false, false) := by
  refine ⟨by decide, by decide, by decide, by decide⟩

/-- C14, amended. `GetParam` for bool returns found exactly when a parameter with the
requested name (under the given policy) exists in front of the first argument with an empty
name and the value of the first such parameter equals "true" or "false" ignoring case; it
then yields `true` or `false` accordingly. For every other value of that parameter, among
them "", "1" and "0", and when there is no such parameter, it returns not-found and leaves
the output value as it was. -/
theorem GetParam_bool_accepts_true_false_only (req : AsyncWebServerRequest) (name : String)
    (value : Bool) (sp : Spelling_t) :
    ((GetParam_bool req name value sp).1 = true ↔
      ∃ v, examinedParam req name sp = some v ∧
        (equalsIgnoreCase v "true" = true ∨ equalsIgnoreCase v "false" = true)) ∧
    (∀ v, examinedParam req name sp = some v → equalsIgnoreCase v "true" = true →
      GetParam_bool req name value sp = (true, true)) ∧
    (∀ v, examinedParam req name sp = some v → equalsIgnoreCase v "false" = true →
      GetParam_bool req name value sp = (true, false)) ∧
    (∀ v, examinedParam req name sp = some v → equalsIgnoreCase v "true" = false →
      equalsIgnoreCase v "false" = false → GetParam_bool req name value sp = (false, value)) ∧
    (examinedParam req name sp = none → GetParam_bool req name value sp = (false, value)) ∧
    (equalsIgnoreCase "" "true" = false ∧ equalsIgnoreCase "" "false" = false ∧
     equalsIgnoreCase "1" "true" = false ∧ equalsIgnoreCase "1" "false" = false ∧
     equalsIgnoreCase "0" "true" = false ∧ equalsIgnoreCase "0" "false" = false) := by
  have hexcl : ∀ v, equalsIgnoreCase v "true" = true → equalsIgnoreCase v "false" = true →
      False := by
    intro v ht hf
    unfold equalsIgnoreCase at ht hf
    rw [beq_iff_eq] at ht hf
    rw [ht] at hf
    exact absurd hf (by decide)
  have hsome : ∀ v, examinedParam req name sp = some v →
      GetParam_bool req name value sp =
        if equalsIgnoreCase v "true" = true then (true, true)
        else if equalsIgnoreCase v "false" = true then (true, false)
        else (false, value) := by
    intro v hv
    obtain ⟨hidx, harg⟩ := paramIndex_of_examinedParam_some _ _ _ v hv
    rw [GetParam_bool_eq, if_pos hidx, harg]
  have hnone : examinedParam req name sp = none →
      GetParam_bool req name value sp = (false, value) := by
    intro hn
    rw [GetParam_bool_eq, paramIndex_of_examinedParam_none _ _ _ hn, if_neg (by decide)]
  refine ⟨?_, ?_, ?_, ?_, hnone, by decide⟩
  · cases h : examinedParam req name sp with
    | none =>
      rw [hnone h]
      simp
    | some v =>
      rw [hsome v h]
      constructor
      · intro hfound
        refine ⟨v, rfl, ?_⟩
        by_cases ht : equalsIgnoreCase v "true" = true
        · exact Or.inl ht
        · by_cases hf : equalsIgnoreCase v "false" = true
          · exact Or.inr hf
          · rw [if_neg ht, if_neg hf] at hfound
            exact absurd hfound (by simp)
      · rintro ⟨w, hw, hor⟩
        have hwv : w = v := (Option.some.inj hw).symm
        subst hwv
        rcases hor with ht | hf
        · rw [if_pos ht]
        · by_cases ht : equalsIgnoreCase w "true" = true
          · rw [if_pos ht]
          · rw [if_neg ht, if_pos hf]
  · intro v hv ht
    rw [hsome v hv, if_pos ht]
  · intro v hv hf
    have ht : ¬ equalsIgnoreCase v "true" = true := fun ht => hexcl v ht hf
    rw [hsome v hv, if_neg ht, if_pos hf]
  · intro v hv ht hf
    rw [hsome v hv, if_neg (by rw [ht]; decide), if_neg (by rw [hf]; decide)]

/-! ## The string parameter -/

set_option maxRecDepth 20000 in
/-- C17 as stated fails. In `?=x&Name=abc` the name is present with the value "abc", yet
`GetParam` for strings returns not-found under both policies and leaves the buffer as it
was. -/
theorem GetParam_string_misses_parameter_behind_empty_name :
    (nameBehindEmptyName.args.find? (fun a => equals a.1 "Name")).map Prod.snd = some "abc" ∧
    GetParam_string nameBehindEmptyName "Name" ['x', 'x', 'x', 'x', 'x'] 5 .kStrict =
      (false, ['x', 'x', 'x', 'x', 'x']) ∧
    GetParam_string nameBehindEmptyName "Name" ['x', 'x', 'x', 'x', 'x'] 5 .kIgnoreCase =
      (false, ['x', 'x', 'x', 'x', 'x']) := by
  refine ⟨by decide, by decide, by decide⟩

/-- C17, amended. For every buffer of `n ≥ 1` bytes and every request in which the name is
present in front of the first argument with an empty name, `s` being the value of its first
occurrence, `GetParam` for strings returns found, whatever the length of `s`, and leaves in
the buffer the first `min (len s) (n - 1)` bytes of `s` followed by a terminator; the bytes of
`s` beyond `n - 1` are dropped. -/
theorem GetParam_string_truncates (req : AsyncWebServerRequest) (name : String)
    (buffer : List Char) (n : Nat) (sp : Spelling_t) (s : String) (hn : 1 ≤ n)
    (hbuf : buffer.length = n) (hs : examinedParam req name sp = some s) :
    (GetParam_string req name buffer n sp).1 = true ∧
    (GetParam_string req name buffer n sp).2.length = n ∧
    (GetParam_string req name buffer n sp).2.take (min s.data.length (n - 1)) =
      s.data.take (min s.data.length (n - 1)) ∧
    (GetParam_string req name buffer n sp).2[min s.data.length (n - 1)]? = some NUL := by
  obtain ⟨hidx, harg⟩ := paramIndex_of_examinedParam_some req name sp s hs
  obtain ⟨h1, h2, h3⟩ := toCharArray_spec s buffer n hn hbuf
  have hr : GetParam_string req name buffer n sp =
      (true, (toCharArray s buffer n).set (n - 1) NUL) := by
    unfold GetParam_string
    simp only [ge_iff_le, hidx, if_true, harg]
  rw [hr]
  refine ⟨rfl, by simp only [List.length_set, h1], ?_, ?_⟩
  · simp only
    rw [take_set_of_le _ _ _ _ (Nat.min_le_right _ _), h2]
  · simp only
    rw [List.getElem?_set]
    split_ifs with he hlt
    · rfl
    · exact absurd (by rw [h1]; omega) hlt
    · exact h3

theorem GetParam_string_truncates_witness :
    examinedParam (identifiedRequest "/c" "123456789" "1") "ClientID" .kStrict =
      some "123456789" ∧
    GetParam_string (identifiedRequest "/c" "123456789" "1") "ClientID"
      ['x', 'x', 'x', 'x', 'x'] 5 .kStrict = (true, ['1', '2', '3', '4', NUL]) ∧
    (GetParam_string (identifiedRequest "/c" "123456789" "1") "ClientID"
      ['x', 'x', 'x', 'x', 'x'] 5 .kStrict).2.length = 5 :=
  ⟨by decide, by decide,
   (GetParam_string_truncates (identifiedRequest "/c" "123456789" "1") "ClientID"
      ['x', 'x', 'x', 'x', 'x'] 5 .kStrict "123456789" (by decide) (by decide)
      (by decide)).2.1⟩

/-! ## The echoed client transaction id and the request -/

theorem transactionIDToEcho_eq_converted (scan : String → Option Int)
    (request : AsyncWebServerRequest) (sp : Spelling_t) :
    transactionIDToEcho scan request sp = convertedTransactionID scan request sp := by
  unfold transactionIDToEcho convertedTransactionID
  cases h : examinedParam request "ClientTransactionID" sp with
  | none => rw [paramIndex_of_examinedParam_none _ _ _ h, if_neg (by decide)]
  | some text =>
    obtain ⟨hidx, harg⟩ := paramIndex_of_examinedParam_some _ _ _ text h
    rw [if_pos hidx, harg]

theorem clampInt32_of_range (v : Int) (h1 : -(2 ^ 31) ≤ v) (h2 : v ≤ 2 ^ 31 - 1) :
    clampInt32 v = v := by
  unfold clampInt32
  rw [if_neg (by omega), if_neg (by omega)]

theorem clampInt32_neg (n : Nat) (hn : 1 ≤ n) : ¬ 0 ≤ clampInt32 (-(n : Int)) := by
  unfold clampInt32
  split_ifs <;> omega

set_option maxRecDepth 20000 in
/-- C26 as stated fails. PUT connect with `?=x&ClientID=5&ClientTransactionID=7`: the
parameter is present with the value 7, and the envelope carries ClientTransactionID 0. GET
connected with `ClientTransactionID=010`: `%i` reads the text as an octal number and the
envelope carries 8, while PUT connect, which converts with `%d`, answers the same text
with 10. -/
theorem envelope_echo_differs_from_parameter :
    (identificationBehindEmptyName.args.find?
      (fun a => equals a.1 "ClientTransactionID")).map Prod.snd = some "7" ∧
    (AlpacaPutConnect ⟨0⟩ emptyDevice identificationBehindEmptyName 10).2.2.content =
      "\x7b \"ClientTransactionID\": 0, \"ServerTransactionID\": 1, \"ErrorNumber\": 1025, \"ErrorMessage\": \"/api/v1/switch/0/connected - 'ClientID' not found\"\x7d" ∧
    (AlpacaGetConnected ⟨0⟩ oneClientDevice
      (identifiedRequest "/api/v1/switch/0/connected" "5" "010") 20).2.2.content =
      "\x7b \"Value\": true, \"ClientTransactionID\": 8, \"ServerTransactionID\": 1, \"ErrorNumber\": 0, \"ErrorMessage\": \"\"\x7d" ∧
    (AlpacaPutConnect ⟨0⟩ emptyDevice
      (identifiedRequest "/api/v1/switch/0/connect" "5" "010") 20).2.2.content =
      "\x7b \"ClientTransactionID\": 10, \"ServerTransactionID\": 1, \"ErrorNumber\": 0, \"ErrorMessage\": \"\"\x7d" := by
  refine ⟨by decide, by decide, by decide, by decide⟩

/-- C26, amended. The envelope echoes the caller's transaction id, that is the number which
the handler's conversion (`%d` in PUT connect, PUT disconnect and PUT connected, `%i` in
`checkClientDataAndConnection`) reads from the parameter ClientTransactionID when that
parameter is present in front of the first argument with an empty name and the number read is
not negative, and 0 otherwise: for the three PUT connection handlers; for every rendering from
the slot that `checkClientDataAndConnection` returned, whichever slot that is, with any
status, shape and value of at most 2058 characters; and so for GET connected, for the text
reads and for the switch handler `_alpacaPutSetSwitch`. For the decimal numeral of
`n < 2^31` both conversions read `n`; for a minus sign and the decimal numeral of a positive
number, and for a parameter that is absent, the number echoed is 0. -/
theorem envelope_echoes_client_transaction_id {D : Type} (srv : AlpacaServer)
    (dev : AlpacaDevice) (request : AsyncWebServerRequest) (millis : Nat) :
    echoesClientTransactionID .kNoValue "" (transactionIDToEcho sscanf_d request .kStrict)
      (AlpacaPutConnect srv dev request millis).2.2 ∧
    echoesClientTransactionID .kNoValue "" (transactionIDToEcho sscanf_d request .kStrict)
      (AlpacaPutDisconnect srv dev request millis).2.2 ∧
    echoesClientTransactionID .kNoValue "" (transactionIDToEcho sscanf_d request .kStrict)
      (AlpacaPutConnected srv dev request millis).2.2 ∧
    (∀ (sp : Spelling_t) (rsp_status : AlpacaRspStatus_t) (value : String)
        (shape : JsonValue_t), value.data.length ≤ 2058 →
      echoesClientTransactionID shape value (transactionIDToEcho sscanf_i request sp)
        (_respond srv
          ((checkClientDataAndConnection dev request sp millis).1._clients
            (checkClientDataAndConnection dev request sp millis).2)
          rsp_status value shape).2) ∧
    (∃ value : String,
      echoesClientTransactionID .kAsPlainStringValue value
        (transactionIDToEcho sscanf_i request .kIgnoreCase)
        (AlpacaGetConnected srv dev request millis).2.2) ∧
    (∀ (str_value : String) (shape : JsonValue_t), str_value.data.length ≤ 2058 →
      echoesClientTransactionID shape str_value
        (transactionIDToEcho sscanf_i request .kIgnoreCase)
        (AlpacaGetText str_value shape srv dev request millis).2.2) ∧
    (∀ (ops : DoubleOps D)
        (write : (Nat → SwitchDevice_t D) → Nat → D → SwitchAsyncType_t →
          Bool × (Nat → SwitchDevice_t D))
        (sw : AlpacaSwitch D) (value_type : SwitchValueType_t) (async_type : SwitchAsyncType_t)
        (set_millis : Nat) (indeterminate : Bool),
      echoesClientTransactionID .kNoValue "" (transactionIDToEcho sscanf_i request .kStrict)
        (_alpacaPutSetSwitch ops write srv sw request value_type async_type millis set_millis
          indeterminate).2.2.1) ∧
    (∀ (sp : Spelling_t) (n : Nat), n < 2 ^ 31 →
      examinedParam request "ClientTransactionID" sp = some (Nat.repr n) →
      transactionIDToEcho sscanf_d request sp = (n : Int) ∧
      transactionIDToEcho sscanf_i request sp = (n : Int)) ∧
    (∀ (sp : Spelling_t) (n : Nat), 1 ≤ n →
      examinedParam request "ClientTransactionID" sp = some ("-" ++ Nat.repr n) →
      transactionIDToEcho sscanf_d request sp = 0 ∧
      transactionIDToEcho sscanf_i request sp = 0) ∧
    (∀ (sp : Spelling_t) (scan : String → Option Int),
      examinedParam request "ClientTransactionID" sp = none →
      transactionIDToEcho scan request sp = 0) := by
  have hd := GetParam_uint32_echo request .kStrict
  have hcheck : ∀ (d : AlpacaDevice) (sp : Spelling_t) (rsp_status : AlpacaRspStatus_t)
      (value : String) (shape : JsonValue_t), value.data.length ≤ 2058 →
      echoesClientTransactionID shape value (transactionIDToEcho sscanf_i request sp)
        (_respond srv
          ((checkClientDataAndConnection d request sp millis).1._clients
            (checkClientDataAndConnection d request sp millis).2)
          rsp_status value shape).2 := by
    intro d sp rsp_status value shape hfit
    have hi := GetParam_int32_echo request sp
    have hs := checkClientDataAndConnection_slot d request sp millis
    rw [transactionIDToEcho_eq_converted, ← hi.1, ← hs]
    exact respond_echoes _ _ _ _ _ (by rw [hs]; exact hi.2) hfit
  have hempty : ("" : String).data.length ≤ 2058 := by decide
  refine ⟨?_, ?_, ?_, hcheck dev, ⟨_, hcheck _ .kIgnoreCase _ _ _ (by split_ifs <;> decide)⟩,
    fun str_value shape hfit => hcheck _ .kIgnoreCase _ _ _ hfit, ?_, ?_, ?_, ?_⟩
  · have hs := AlpacaPutConnect_core_slot dev request millis
    rw [transactionIDToEcho_eq_converted, ← hd.1, ← hs]
    exact respond_echoes _ _ _ _ _ (by rw [hs]; exact hd.2.1) hempty
  · have hs := AlpacaPutDisconnect_core_slot dev request millis
    rw [transactionIDToEcho_eq_converted, ← hd.1, ← hs]
    exact respond_echoes _ _ _ _ _ (by rw [hs]; exact hd.2.1) hempty
  · have hs := AlpacaPutConnected_core_slot dev request millis
    rw [transactionIDToEcho_eq_converted, ← hd.1, ← hs]
    exact respond_echoes _ _ _ _ _ (by rw [hs]; exact hd.2.1) hempty
  · intro ops write sw value_type async_type set_millis indeterminate
    have hp := putSetSwitch_core_slot ops write sw request value_type async_type millis
      set_millis indeterminate
    have h := hcheck (switchPrologue sw) .kStrict
      (_alpacaPutSetSwitch_core ops write sw request value_type async_type millis set_millis
        indeterminate).1._rsp_status "" .kNoValue hempty
    rw [← hp] at h
    exact h
  · intro sp n hn hp
    have hc : clampInt32 (n : Int) = (n : Int) := clampInt32_of_range _ (by omega) (by omega)
    unfold transactionIDToEcho
    rw [hp]
    simp only [sscanf_d_repr, sscanf_i_repr, hc]
    rw [if_pos (Int.natCast_nonneg n)]
    exact ⟨rfl, rfl⟩
  · intro sp n hn hp
    have hc := clampInt32_neg n hn
    unfold transactionIDToEcho
    rw [hp]
    simp only [sscanf_d_neg_repr, sscanf_i_neg_repr n hn]
    rw [if_neg hc]
    exact ⟨rfl, rfl⟩
  · intro sp scan hp
    unfold transactionIDToEcho
    rw [hp]

theorem envelope_echoes_client_transaction_id_witness :
    examinedParam (identifiedRequest "/api/v1/switch/0/name" "5" "17") "ClientTransactionID"
      .kIgnoreCase = some (Nat.repr 17) ∧
    transactionIDToEcho sscanf_i (identifiedRequest "/api/v1/switch/0/name" "5" "17")
      .kIgnoreCase = 17 ∧
    ("switch-0" : String).data.length ≤ 2058 ∧
    echoesClientTransactionID .kAsJsonStringValue "switch-0"
      (transactionIDToEcho sscanf_i (identifiedRequest "/api/v1/switch/0/name" "5" "17")
        .kIgnoreCase)
      (AlpacaGetText "switch-0" .kAsJsonStringValue ⟨0⟩ oneClientDevice
        (identifiedRequest "/api/v1/switch/0/name" "5" "17") 40).2.2 ∧
    transactionIDToEcho sscanf_d (identifiedRequest "/api/v1/switch/0/connect" "5" "-3")
      .kStrict = 0 ∧
    echoesClientTransactionID .kNoValue ""
      (transactionIDToEcho sscanf_d (identifiedRequest "/api/v1/switch/0/connect" "5" "-3")
        .kStrict)
      (AlpacaPutConnect ⟨0⟩ emptyDevice
        (identifiedRequest "/api/v1/switch/0/connect" "5" "-3") 40).2.2 :=
  ⟨by decide,
   ((@envelope_echoes_client_transaction_id Int ⟨0⟩ oneClientDevice
      (identifiedRequest "/api/v1/switch/0/name" "5" "17") 40).2.2.2.2.2.2.2.1 .kIgnoreCase 17
      (by decide) (by decide)).2,
   by decide,
   (@envelope_echoes_client_transaction_id Int ⟨0⟩ oneClientDevice
      (identifiedRequest "/api/v1/switch/0/name" "5" "17") 40).2.2.2.2.2.1 "switch-0"
      .kAsJsonStringValue (by decide),
   by decide,
   (@envelope_echoes_client_transaction_id Int ⟨0⟩ emptyDevice
      (identifiedRequest "/api/v1/switch/0/connect" "5" "-3") 40).1⟩

end Alpaca
